import Mathlib

/-!
Verification development for the binary-AST decoder in
`src/convert_ast/converter.ts`: a tag-dispatched converter from a flat buffer
of 32-bit words (plus an external text resolver) to an ESTree-style syntax
tree.

The embedding models:
* the word buffer as a list of naturals read through `word` (Uint32Array
  semantics: values are reduced mod 2^32, out-of-range reads are absent);
* decoded JavaScript values as the inductive `JSValue`; every object literal
  the decoder constructs is materialized through `mkNode`, which stamps the
  object with a fresh allocation identifier drawn from a counter threaded
  through the decoding monad `DecM`.  Two `vobj` values with the same
  identifier produced in one run denote the same JavaScript object, so
  reference identity of decoded nodes is expressible as equality of
  instrumented values;
* the recursion of `convertNode` with an explicit fuel parameter bounding the
  recursion depth (the source recurses on the call stack); running out of fuel
  is the distinguished error `ConvErr.fuelExhausted`, a thrown JavaScript
  error is `ConvErr.jsError` carrying the message string.
-/

/-- A decoded JavaScript value: `undefined`, `null`, booleans, numbers that
arise from buffer words, strings, IEEE-754 doubles represented by their 64-bit
pattern, host `BigInt`/`RegExp` values represented by the strings they are
built from, arrays, and objects.  An object carries the allocation identifier
stamped by `mkNode` together with its fields in insertion order. -/
inductive JSValue where
  | vundefined
  | vnull
  | vbool (b : Bool)
  | vnat (n : Nat)
  | vstr (s : String)
  | vfloat (bits : Nat)
  | vbigintFromString (s : String)
  | vregexpFromStrings (pattern flags : String)
  | varr (elements : List JSValue)
  | vobj (id : Nat) (fields : List (String × JSValue))
deriving Repr

/-- Decoding errors: a thrown JavaScript `Error` with its message, or
exhaustion of the fuel that bounds the modelled recursion depth. -/
inductive ConvErr where
  | jsError (message : String)
  | fuelExhausted
deriving Repr, DecidableEq

/-- The word buffer (`Uint32Array` over the input `ArrayBuffer`). -/
abbrev Buffer := List Nat

/-- The external text resolver: byte offset and byte length to text. -/
abbrev ReadString := Nat → Nat → String

/-- Reading the 32-bit word at index `i` of the buffer. -/
def word (buffer : Buffer) (i : Nat) : Nat := buffer.getD i 0 % 4294967296

/-- The decoding monad: a state-error monad whose state is the allocation
counter for object identifiers. -/
abbrev DecM (α : Type) := Nat → Except ConvErr (α × Nat)

instance : Monad DecM where
  pure a := fun n => .ok (a, n)
  bind m f := fun n =>
    match m n with
    | .error e => .error e
    | .ok (a, n') => f a n'

/-- Constructing a JavaScript object literal: allocates a fresh identifier. -/
def mkNode (fields : List (String × JSValue)) : DecM JSValue :=
  fun n => .ok (.vobj n fields, n + 1)

/-- Aborting the decode with an error. -/
def decFail {α : Type} (e : ConvErr) : DecM α := fun _ => .error e

theorem bind_apply {α β : Type} (m : DecM α) (f : α → DecM β) (n : Nat) :
    (m >>= f) n = match m n with
      | .error e => .error e
      | .ok (a, n') => f a n' := rfl

theorem pure_apply {α : Type} (a : α) (n : Nat) : (pure a : DecM α) n = .ok (a, n) := rfl

theorem bind_ok_elim {α β : Type} {m : DecM α} {f : α → DecM β} {n : Nat} {r : β × Nat}
    (h : (m >>= f) n = .ok r) : ∃ a n', m n = .ok (a, n') ∧ f a n' = .ok r := by
  rw [bind_apply] at h
  cases hm : m n with
  | error e => rw [hm] at h; exact absurd h (by simp)
  | ok an =>
    rw [hm] at h
    exact ⟨an.1, an.2, rfl, h⟩

/-- Field lookup in an object's field list (first match wins). -/
def lookupField : List (String × JSValue) → String → Option JSValue
  | [], _ => none
  | (k, v) :: rest, name => if k = name then some v else lookupField rest name

/-- Field access on a decoded value; non-objects have no fields. -/
def getField : JSValue → String → Option JSValue
  | .vobj _ fields, name => lookupField fields name
  | _, _ => none

/-- The `convertString` routine of the source: reads the byte length at the
cursor, converts the following word position to a byte offset
(`position << 2`, i.e. the word index times the 4-byte word size) and asks the
external resolver for that byte range. -/
def convertString (position : Nat) (buffer : Buffer) (readString : ReadString) : String :=
  let length := word buffer position
  let bytePosition := (position + 1) * 4
  readString bytePosition length

def DECLARATION_KINDS : List String := ["var", "let", "const"]

def PROPERTY_KINDS : List String := ["init", "get", "set"]

def METHOD_DEFINITION_KINDS : List String := ["constructor", "method", "get", "set"]

/-- JavaScript array indexing `kinds[i]` on one of the constant string tables:
an in-range index yields the string, an out-of-range index yields `undefined`
(the lookup is not bounds-checked in the source). -/
def indexKinds (kinds : List String) (i : Nat) : JSValue :=
  match kinds.get? i with
  | some s => .vstr s
  | none => .vundefined

/-- Reading the eight bytes at byte offset `position * 4` as the bit pattern
of a little-endian IEEE-754 binary64 value, as
`new DataView(buffer.buffer).getFloat64(position << 2, true)` does on a
little-endian host: the low 32 bits of the pattern are the word at `position`,
the high 32 bits the word at `position + 1`. -/
def readF64Bits (position : Nat) (buffer : Buffer) : Nat :=
  word buffer position + 4294967296 * word buffer (position + 1)

/-- The loop of `convertNodeList`: reads `count` node references starting at
`position`; a 0 reference contributes `null` to the list, a nonzero reference
contributes the recursively decoded node (`cn` is the tied-back
`convertNode`). -/
def convertNodeListGo (cn : Nat → DecM JSValue) (buffer : Buffer) :
    Nat → Nat → DecM (List JSValue)
  | 0, _ => pure []
  | count + 1, position =>
    let nodePosition := word buffer position
    (if nodePosition ≠ 0 then cn nodePosition else pure JSValue.vnull) >>= fun v =>
    convertNodeListGo cn buffer count (position + 1) >>= fun rest =>
    pure (v :: rest)

/-- The `convertNodeList` routine of the source: reads the length word at
`position` and then that many node references.  (The source also receives the
text resolver and merely forwards it to `convertNode`; here the tied-back
decoder `cn` already closes over it.) -/
def convertNodeList (cn : Nat → DecM JSValue) (position : Nat) (buffer : Buffer) :
    DecM (List JSValue) :=
  let length := word buffer position
  convertNodeListGo cn buffer length (position + 1)

/-- The type of one entry of the converter table: it receives the tied-back
`convertNode` for child decodes, the cursor position just after the tag word,
the buffer and the text resolver. -/
abbrev Conv := (Nat → DecM JSValue) → Nat → Buffer → ReadString → DecM JSValue

-- ArrayExpression
def convertArrayExpression : Conv := fun cn position buffer _readString =>
  let start := word buffer position
  let «end» := word buffer (position + 1)
  convertNodeList cn (position + 2) buffer >>= fun elements =>
  mkNode [("elements", .varr elements), ("end", .vnat «end»), ("start", .vnat start),
    ("type", .vstr "ArrayExpression")]

-- ArrayPattern
def convertArrayPattern : Conv := fun cn position buffer _readString =>
  let start := word buffer position
  let «end» := word buffer (position + 1)
  convertNodeList cn (position + 2) buffer >>= fun elements =>
  mkNode [("elements", .varr elements), ("end", .vnat «end»), ("start", .vnat start),
    ("type", .vstr "ArrayPattern")]

-- ArrowFunctionExpression
def convertArrowFunctionExpression : Conv := fun cn position buffer _readString =>
  let start := word buffer position
  let «end» := word buffer (position + 1)
  let async := word buffer (position + 2) != 0
  let generator := word buffer (position + 3) != 0
  convertNodeList cn (word buffer (position + 4)) buffer >>= fun parameters =>
  let expression := word buffer (position + 5) != 0
  cn (position + 6) >>= fun body =>
  mkNode [("async", .vbool async), ("body", body), ("end", .vnat «end»),
    ("expression", .vbool expression), ("generator", .vbool generator),
    ("id", JSValue.vnull), ("params", .varr parameters), ("start", .vnat start),
    ("type", .vstr "ArrowFunctionExpression")]

-- AssignmentExpression
def convertAssignmentExpression : Conv := fun cn position buffer readString =>
  let start := word buffer position
  let «end» := word buffer (position + 1)
  cn (word buffer (position + 2)) >>= fun left =>
  cn (word buffer (position + 3)) >>= fun right =>
  let operator := convertString (position + 4) buffer readString
  mkNode [("end", .vnat «end»), ("left", left), ("operator", .vstr operator),
    ("right", right), ("start", .vnat start), ("type", .vstr "AssignmentExpression")]

-- AssignmentPattern
def convertAssignmentPattern : Conv := fun cn position buffer _readString =>
  let start := word buffer position
  let «end» := word buffer (position + 1)
  cn (word buffer (position + 2)) >>= fun left =>
  cn (position + 3) >>= fun right =>
  mkNode [("end", .vnat «end»), ("left", left), ("right", right), ("start", .vnat start),
    ("type", .vstr "AssignmentPattern")]

-- AwaitExpression
def convertAwaitExpression : Conv := fun cn position buffer _readString =>
  let start := word buffer position
  let «end» := word buffer (position + 1)
  cn (position + 2) >>= fun argument =>
  mkNode [("argument", argument), ("end", .vnat «end»), ("start", .vnat start),
    ("type", .vstr "AwaitExpression")]

-- BinaryExpression
def convertBinaryExpression : Conv := fun cn position buffer readString =>
  let start := word buffer position
  let «end» := word buffer (position + 1)
  cn (word buffer (position + 2)) >>= fun left =>
  cn (word buffer (position + 3)) >>= fun right =>
  let operator := convertString (position + 4) buffer readString
  mkNode [("end", .vnat «end»), ("left", left), ("operator", .vstr operator),
    ("right", right), ("start", .vnat start), ("type", .vstr "BinaryExpression")]

-- BlockStatement
def convertBlockStatement : Conv := fun cn position buffer _readString =>
  let start := word buffer position
  let «end» := word buffer (position + 1)
  convertNodeList cn (position + 2) buffer >>= fun body =>
  mkNode [("body", .varr body), ("end", .vnat «end»), ("start", .vnat start),
    ("type", .vstr "BlockStatement")]

-- BreakStatement
def convertBreakStatement : Conv := fun cn position buffer _readString =>
  let start := word buffer position
  let «end» := word buffer (position + 1)
  let labelPosition := word buffer (position + 2)
  (if labelPosition ≠ 0 then cn labelPosition else pure JSValue.vnull) >>= fun label =>
  mkNode [("end", .vnat «end»), ("label", label), ("start", .vnat start),
    ("type", .vstr "BreakStatement")]

-- CallExpression
def convertCallExpression : Conv := fun cn position buffer _readString =>
  let start := word buffer position
  let «end» := word buffer (position + 1)
  let optional := word buffer (position + 2) != 0
  cn (word buffer (position + 3)) >>= fun callee =>
  convertNodeList cn (position + 4) buffer >>= fun argumentsList =>
  mkNode [("arguments", .varr argumentsList), ("callee", callee), ("end", .vnat «end»),
    ("optional", .vbool optional), ("start", .vnat start), ("type", .vstr "CallExpression")]

-- CatchClause
def convertCatchClause : Conv := fun cn position buffer _readString =>
  let start := word buffer position
  let «end» := word buffer (position + 1)
  let parameterPosition := word buffer (position + 2)
  cn (position + 3) >>= fun body =>
  (if parameterPosition ≠ 0 then cn parameterPosition else pure JSValue.vnull) >>= fun param =>
  mkNode [("body", body), ("end", .vnat «end»), ("param", param), ("start", .vnat start),
    ("type", .vstr "CatchClause")]

-- ChainExpression
def convertChainExpression : Conv := fun cn position buffer _readString =>
  let start := word buffer position
  let «end» := word buffer (position + 1)
  cn (position + 2) >>= fun expression =>
  mkNode [("end", .vnat «end»), ("expression", expression), ("start", .vnat start),
    ("type", .vstr "ChainExpression")]

-- ClassBody
def convertClassBody : Conv := fun cn position buffer _readString =>
  let start := word buffer position
  let «end» := word buffer (position + 1)
  convertNodeList cn (position + 2) buffer >>= fun body =>
  mkNode [("body", .varr body), ("end", .vnat «end»), ("start", .vnat start),
    ("type", .vstr "ClassBody")]

-- ClassDeclaration
def convertClassDeclaration : Conv := fun cn position buffer _readString =>
  let start := word buffer position
  let «end» := word buffer (position + 1)
  let idPosition := word buffer (position + 2)
  let superClassPosition := word buffer (position + 3)
  cn (word buffer (position + 4)) >>= fun body =>
  (if idPosition ≠ 0 then cn idPosition else pure JSValue.vnull) >>= fun id =>
  (if superClassPosition ≠ 0 then cn superClassPosition else pure JSValue.vnull) >>=
    fun superClass =>
  mkNode [("body", body), ("end", .vnat «end»), ("id", id), ("start", .vnat start),
    ("superClass", superClass), ("type", .vstr "ClassDeclaration")]

-- ClassExpression
def convertClassExpression : Conv := fun cn position buffer _readString =>
  let start := word buffer position
  let «end» := word buffer (position + 1)
  let idPosition := word buffer (position + 2)
  let superClassPosition := word buffer (position + 3)
  cn (word buffer (position + 4)) >>= fun body =>
  (if idPosition ≠ 0 then cn idPosition else pure JSValue.vnull) >>= fun id =>
  (if superClassPosition ≠ 0 then cn superClassPosition else pure JSValue.vnull) >>=
    fun superClass =>
  mkNode [("body", body), ("end", .vnat «end»), ("id", id), ("start", .vnat start),
    ("superClass", superClass), ("type", .vstr "ClassExpression")]

-- ConditionalExpression
def convertConditionalExpression : Conv := fun cn position buffer _readString =>
  let start := word buffer position
  let «end» := word buffer (position + 1)
  cn (word buffer (position + 2)) >>= fun test =>
  cn (word buffer (position + 3)) >>= fun consequent =>
  cn (position + 4) >>= fun alternate =>
  mkNode [("alternate", alternate), ("consequent", consequent), ("end", .vnat «end»),
    ("start", .vnat start), ("test", test), ("type", .vstr "ConditionalExpression")]

-- ContinueStatement
def convertContinueStatement : Conv := fun cn position buffer _readString =>
  let start := word buffer position
  let «end» := word buffer (position + 1)
  let labelPosition := word buffer (position + 2)
  (if labelPosition ≠ 0 then cn labelPosition else pure JSValue.vnull) >>= fun label =>
  mkNode [("end", .vnat «end»), ("label", label), ("start", .vnat start),
    ("type", .vstr "ContinueStatement")]

-- DebuggerStatement
def convertDebuggerStatement : Conv := fun _cn position buffer _readString =>
  let start := word buffer position
  let «end» := word buffer (position + 1)
  mkNode [("end", .vnat «end»), ("start", .vnat start), ("type", .vstr "DebuggerStatement")]

-- DoWhileStatement
def convertDoWhileStatement : Conv := fun cn position buffer _readString =>
  let start := word buffer position
  let «end» := word buffer (position + 1)
  cn (word buffer (position + 2)) >>= fun test =>
  cn (position + 3) >>= fun body =>
  mkNode [("body", body), ("end", .vnat «end»), ("start", .vnat start), ("test", test),
    ("type", .vstr "DoWhileStatement")]

-- EmptyStatement
def convertEmptyStatement : Conv := fun _cn position buffer _readString =>
  let start := word buffer position
  let «end» := word buffer (position + 1)
  mkNode [("end", .vnat «end»), ("start", .vnat start), ("type", .vstr "EmptyStatement")]

-- ExportAllDeclaration
def convertExportAllDeclaration : Conv := fun cn position buffer _readString =>
  let start := word buffer position
  let «end» := word buffer (position + 1)
  convertNodeList cn (word buffer (position + 2)) buffer >>= fun assertions =>
  let exportedPosition := word buffer (position + 3)
  cn (position + 4) >>= fun source =>
  (if exportedPosition ≠ 0 then cn exportedPosition else pure JSValue.vnull) >>= fun exported =>
  mkNode [("assertions", .varr assertions), ("end", .vnat «end»), ("exported", exported),
    ("source", source), ("start", .vnat start), ("type", .vstr "ExportAllDeclaration")]

-- ExportDefaultDeclaration
def convertExportDefaultDeclaration : Conv := fun cn position buffer _readString =>
  let start := word buffer position
  let «end» := word buffer (position + 1)
  cn (position + 2) >>= fun declaration =>
  mkNode [("declaration", declaration), ("end", .vnat «end»), ("start", .vnat start),
    ("type", .vstr "ExportDefaultDeclaration")]

-- ExportNamedDeclaration
def convertExportNamedDeclaration : Conv := fun cn position buffer _readString =>
  let start := word buffer position
  let «end» := word buffer (position + 1)
  let declarationPosition := word buffer (position + 2)
  let sourcePosition := word buffer (position + 3)
  convertNodeList cn (word buffer (position + 4)) buffer >>= fun assertions =>
  convertNodeList cn (position + 5) buffer >>= fun specifiers =>
  (if declarationPosition ≠ 0 then cn declarationPosition else pure JSValue.vnull) >>=
    fun declaration =>
  (if sourcePosition ≠ 0 then cn sourcePosition else pure JSValue.vnull) >>= fun source =>
  mkNode [("assertions", .varr assertions), ("declaration", declaration), ("end", .vnat «end»),
    ("source", source), ("specifiers", .varr specifiers), ("start", .vnat start),
    ("type", .vstr "ExportNamedDeclaration")]

-- ExportSpecifier
def convertExportSpecifier : Conv := fun cn position buffer _readString =>
  let start := word buffer position
  let «end» := word buffer (position + 1)
  let exportedPosition := word buffer (position + 2)
  cn (position + 3) >>= fun «local» =>
  (if exportedPosition ≠ 0 then cn exportedPosition else pure «local») >>= fun exported =>
  mkNode [("end", .vnat «end»), ("exported", exported), ("local", «local»), ("start", .vnat start),
    ("type", .vstr "ExportSpecifier")]

-- ExpressionStatement
def convertExpressionStatement : Conv := fun cn position buffer _readString =>
  let start := word buffer position
  let «end» := word buffer (position + 1)
  cn (position + 2) >>= fun expression =>
  mkNode [("end", .vnat «end»), ("expression", expression), ("start", .vnat start),
    ("type", .vstr "ExpressionStatement")]

-- ForInStatement
def convertForInStatement : Conv := fun cn position buffer _readString =>
  let start := word buffer position
  let «end» := word buffer (position + 1)
  cn (word buffer (position + 2)) >>= fun left =>
  cn (word buffer (position + 3)) >>= fun right =>
  cn (position + 4) >>= fun body =>
  mkNode [("body", body), ("end", .vnat «end»), ("left", left), ("right", right),
    ("start", .vnat start), ("type", .vstr "ForInStatement")]

-- ForOfStatement
def convertForOfStatement : Conv := fun cn position buffer _readString =>
  let start := word buffer position
  let «end» := word buffer (position + 1)
  let awaited := word buffer (position + 2) != 0
  cn (word buffer (position + 3)) >>= fun left =>
  cn (word buffer (position + 4)) >>= fun right =>
  cn (position + 5) >>= fun body =>
  mkNode [("await", .vbool awaited), ("body", body), ("end", .vnat «end»), ("left", left),
    ("right", right), ("start", .vnat start), ("type", .vstr "ForOfStatement")]

-- ForStatement
def convertForStatement : Conv := fun cn position buffer _readString =>
  let start := word buffer position
  let «end» := word buffer (position + 1)
  let initPosition := word buffer (position + 2)
  let testPosition := word buffer (position + 3)
  let updatePosition := word buffer (position + 4)
  cn (position + 5) >>= fun body =>
  (if initPosition ≠ 0 then cn initPosition else pure JSValue.vnull) >>= fun init =>
  (if testPosition ≠ 0 then cn testPosition else pure JSValue.vnull) >>= fun test =>
  (if updatePosition ≠ 0 then cn updatePosition else pure JSValue.vnull) >>= fun update =>
  mkNode [("body", body), ("end", .vnat «end»), ("init", init), ("start", .vnat start),
    ("test", test), ("type", .vstr "ForStatement"), ("update", update)]

-- FunctionDeclaration
def convertFunctionDeclaration : Conv := fun cn position buffer _readString =>
  let start := word buffer position
  let «end» := word buffer (position + 1)
  let async := word buffer (position + 2) != 0
  let generator := word buffer (position + 3) != 0
  let idPosition := word buffer (position + 4)
  convertNodeList cn (word buffer (position + 5)) buffer >>= fun parameters =>
  cn (position + 6) >>= fun body =>
  (if idPosition ≠ 0 then cn idPosition else pure JSValue.vnull) >>= fun id =>
  mkNode [("async", .vbool async), ("body", body), ("end", .vnat «end»),
    ("expression", .vbool false), ("generator", .vbool generator), ("id", id),
    ("params", .varr parameters), ("start", .vnat start), ("type", .vstr "FunctionDeclaration")]

-- FunctionExpression
def convertFunctionExpression : Conv := fun cn position buffer _readString =>
  let start := word buffer position
  let «end» := word buffer (position + 1)
  let async := word buffer (position + 2) != 0
  let generator := word buffer (position + 3) != 0
  let idPosition := word buffer (position + 4)
  convertNodeList cn (word buffer (position + 5)) buffer >>= fun parameters =>
  cn (position + 6) >>= fun body =>
  (if idPosition ≠ 0 then cn idPosition else pure JSValue.vnull) >>= fun id =>
  mkNode [("async", .vbool async), ("body", body), ("end", .vnat «end»),
    ("expression", .vbool false), ("generator", .vbool generator), ("id", id),
    ("params", .varr parameters), ("start", .vnat start), ("type", .vstr "FunctionExpression")]

-- Identifier
def convertIdentifier : Conv := fun _cn position buffer readString =>
  let start := word buffer position
  let «end» := word buffer (position + 1)
  let name := convertString (position + 2) buffer readString
  mkNode [("end", .vnat «end»), ("name", .vstr name), ("start", .vnat start),
    ("type", .vstr "Identifier")]

-- IfStatement
def convertIfStatement : Conv := fun cn position buffer _readString =>
  let start := word buffer position
  let «end» := word buffer (position + 1)
  cn (word buffer (position + 2)) >>= fun consequent =>
  let alternatePosition := word buffer (position + 3)
  cn (position + 4) >>= fun test =>
  (if alternatePosition ≠ 0 then cn alternatePosition else pure JSValue.vnull) >>=
    fun alternate =>
  mkNode [("alternate", alternate), ("consequent", consequent), ("end", .vnat «end»),
    ("start", .vnat start), ("test", test), ("type", .vstr "IfStatement")]

-- ImportAttribute
def convertImportAttribute : Conv := fun cn position buffer _readString =>
  let start := word buffer position
  let «end» := word buffer (position + 1)
  cn (word buffer (position + 2)) >>= fun key =>
  cn (position + 3) >>= fun value =>
  mkNode [("end", .vnat «end»), ("key", key), ("start", .vnat start),
    ("type", .vstr "ImportAttribute"), ("value", value)]

-- ImportDeclaration
def convertImportDeclaration : Conv := fun cn position buffer _readString =>
  let start := word buffer position
  let «end» := word buffer (position + 1)
  cn (word buffer (position + 2)) >>= fun source =>
  convertNodeList cn (word buffer (position + 3)) buffer >>= fun assertions =>
  convertNodeList cn (position + 4) buffer >>= fun specifiers =>
  mkNode [("assertions", .varr assertions), ("end", .vnat «end»), ("source", source),
    ("specifiers", .varr specifiers), ("start", .vnat start),
    ("type", .vstr "ImportDeclaration")]

-- ImportDefaultSpecifier
def convertImportDefaultSpecifier : Conv := fun cn position buffer _readString =>
  let start := word buffer position
  let «end» := word buffer (position + 1)
  cn (position + 2) >>= fun «local» =>
  mkNode [("end", .vnat «end»), ("local", «local»), ("start", .vnat start),
    ("type", .vstr "ImportDefaultSpecifier")]

-- ImportExpression
def convertImportExpression : Conv := fun cn position buffer _readString =>
  let start := word buffer position
  let «end» := word buffer (position + 1)
  convertNodeList cn (word buffer (position + 2)) buffer >>= fun arguments_ =>
  cn (position + 3) >>= fun source =>
  mkNode [("arguments", .varr arguments_), ("end", .vnat «end»), ("source", source),
    ("start", .vnat start), ("type", .vstr "ImportExpression")]

-- ImportNamespaceSpecifier
def convertImportNamespaceSpecifier : Conv := fun cn position buffer _readString =>
  let start := word buffer position
  let «end» := word buffer (position + 1)
  cn (position + 2) >>= fun «local» =>
  mkNode [("end", .vnat «end»), ("local", «local»), ("start", .vnat start),
    ("type", .vstr "ImportNamespaceSpecifier")]

-- ImportSpecifier
def convertImportSpecifier : Conv := fun cn position buffer _readString =>
  let start := word buffer position
  let «end» := word buffer (position + 1)
  let importedPosition := word buffer (position + 2)
  cn (position + 3) >>= fun «local» =>
  (if importedPosition ≠ 0 then cn importedPosition else pure «local») >>= fun imported =>
  mkNode [("end", .vnat «end»), ("imported", imported), ("local", «local»), ("start", .vnat start),
    ("type", .vstr "ImportSpecifier")]

-- LabeledStatement
def convertLabeledStatement : Conv := fun cn position buffer _readString =>
  let start := word buffer position
  let «end» := word buffer (position + 1)
  cn (word buffer (position + 2)) >>= fun body =>
  cn (position + 3) >>= fun label =>
  mkNode [("body", body), ("end", .vnat «end»), ("label", label), ("start", .vnat start),
    ("type", .vstr "LabeledStatement")]

-- Literal<string>
def convertLiteralString : Conv := fun _cn position buffer readString =>
  let start := word buffer position
  let «end» := word buffer (position + 1)
  let rawPosition := word buffer (position + 2)
  let raw := if rawPosition ≠ 0 then JSValue.vstr (convertString rawPosition buffer readString)
    else JSValue.vundefined
  let value := convertString (position + 3) buffer readString
  mkNode [("end", .vnat «end»), ("raw", raw), ("start", .vnat start), ("type", .vstr "Literal"),
    ("value", .vstr value)]

-- Literal<boolean>
def convertLiteralBoolean : Conv := fun _cn position buffer _readString =>
  let start := word buffer position
  let «end» := word buffer (position + 1)
  let value := word buffer (position + 2) != 0
  mkNode [("end", .vnat «end»), ("raw", .vstr (if value then "true" else "false")),
    ("start", .vnat start), ("type", .vstr "Literal"), ("value", .vbool value)]

-- Literal<number>
def convertLiteralNumber : Conv := fun _cn position buffer readString =>
  let start := word buffer position
  let «end» := word buffer (position + 1)
  let rawPosition := word buffer (position + 2)
  let raw := if rawPosition ≠ 0 then JSValue.vstr (convertString rawPosition buffer readString)
    else JSValue.vundefined
  let value := JSValue.vfloat (readF64Bits (position + 3) buffer)
  mkNode [("end", .vnat «end»), ("raw", raw), ("start", .vnat start), ("type", .vstr "Literal"),
    ("value", value)]

-- Literal<null>
def convertLiteralNull : Conv := fun _cn position buffer _readString =>
  let start := word buffer position
  let «end» := word buffer (position + 1)
  mkNode [("end", .vnat «end»), ("raw", .vstr "null"), ("start", .vnat start),
    ("type", .vstr "Literal"), ("value", JSValue.vnull)]

-- Literal<RegExp>
def convertLiteralRegExp : Conv := fun _cn position buffer readString =>
  let start := word buffer position
  let «end» := word buffer (position + 1)
  let pattern := convertString (word buffer (position + 2)) buffer readString
  let flags := convertString (position + 3) buffer readString
  mkNode [("flags", .vstr flags), ("pattern", .vstr pattern)] >>= fun regex =>
  mkNode [("end", .vnat «end»), ("raw", .vstr ("/" ++ pattern ++ "/" ++ flags)),
    ("regex", regex), ("start", .vnat start), ("type", .vstr "Literal"),
    ("value", .vregexpFromStrings pattern flags)]

-- Literal<bigint>
def convertLiteralBigInt : Conv := fun _cn position buffer readString =>
  let start := word buffer position
  let «end» := word buffer (position + 1)
  let bigint := convertString (word buffer (position + 2)) buffer readString
  let raw := convertString (position + 3) buffer readString
  mkNode [("bigint", .vstr bigint), ("end", .vnat «end»), ("raw", .vstr raw),
    ("start", .vnat start), ("type", .vstr "Literal"),
    ("value", .vbigintFromString bigint)]

-- LogicalExpression
def convertLogicalExpression : Conv := fun cn position buffer readString =>
  let start := word buffer position
  let «end» := word buffer (position + 1)
  cn (word buffer (position + 2)) >>= fun left =>
  cn (word buffer (position + 3)) >>= fun right =>
  let operator := convertString (position + 4) buffer readString
  mkNode [("end", .vnat «end»), ("left", left), ("operator", .vstr operator),
    ("right", right), ("start", .vnat start), ("type", .vstr "LogicalExpression")]

-- MemberExpression
def convertMemberExpression : Conv := fun cn position buffer _readString =>
  let start := word buffer position
  let «end» := word buffer (position + 1)
  let optional := word buffer (position + 2) != 0
  cn (word buffer (position + 3)) >>= fun object =>
  let computed := word buffer (position + 4) != 0
  cn (position + 5) >>= fun property =>
  mkNode [("computed", .vbool computed), ("end", .vnat «end»), ("object", object),
    ("optional", .vbool optional), ("property", property), ("start", .vnat start),
    ("type", .vstr "MemberExpression")]

-- MetaProperty
def convertMetaProperty : Conv := fun cn position buffer _readString =>
  let start := word buffer position
  let «end» := word buffer (position + 1)
  cn (word buffer (position + 2)) >>= fun meta =>
  cn (position + 3) >>= fun property =>
  mkNode [("end", .vnat «end»), ("meta", meta), ("property", property), ("start", .vnat start),
    ("type", .vstr "MetaProperty")]

-- MethodDefinition
def convertMethodDefinition : Conv := fun cn position buffer _readString =>
  let start := word buffer position
  let «end» := word buffer (position + 1)
  let kind := indexKinds METHOD_DEFINITION_KINDS (word buffer (position + 2))
  let computed := word buffer (position + 3) != 0
  let isStatic := word buffer (position + 4) != 0
  cn (word buffer (position + 5)) >>= fun value =>
  cn (position + 6) >>= fun key =>
  mkNode [("computed", .vbool computed), ("end", .vnat «end»), ("key", key), ("kind", kind),
    ("start", .vnat start), ("static", .vbool isStatic), ("type", .vstr "MethodDefinition"),
    ("value", value)]

-- NewExpression
def convertNewExpression : Conv := fun cn position buffer _readString =>
  let start := word buffer position
  let «end» := word buffer (position + 1)
  let argumentsPosition := word buffer (position + 2)
  cn (position + 3) >>= fun callee =>
  (if argumentsPosition ≠ 0 then convertNodeList cn argumentsPosition buffer
    else pure ([] : List JSValue)) >>= fun argumentsList =>
  mkNode [("arguments", .varr argumentsList), ("callee", callee), ("end", .vnat «end»),
    ("start", .vnat start), ("type", .vstr "NewExpression")]

-- ObjectExpression
def convertObjectExpression : Conv := fun cn position buffer _readString =>
  let start := word buffer position
  let «end» := word buffer (position + 1)
  convertNodeList cn (position + 2) buffer >>= fun properties =>
  mkNode [("end", .vnat «end»), ("properties", .varr properties), ("start", .vnat start),
    ("type", .vstr "ObjectExpression")]

-- ObjectPattern
def convertObjectPattern : Conv := fun cn position buffer _readString =>
  let start := word buffer position
  let «end» := word buffer (position + 1)
  convertNodeList cn (position + 2) buffer >>= fun properties =>
  mkNode [("end", .vnat «end»), ("properties", .varr properties), ("start", .vnat start),
    ("type", .vstr "ObjectPattern")]

-- PrivateIdentifier
def convertPrivateIdentifier : Conv := fun _cn position buffer readString =>
  let start := word buffer position
  let «end» := word buffer (position + 1)
  let name := convertString (position + 2) buffer readString
  mkNode [("end", .vnat «end»), ("name", .vstr name), ("start", .vnat start),
    ("type", .vstr "PrivateIdentifier")]

-- Program
def convertProgramNode : Conv := fun cn position buffer _readString =>
  let start := word buffer position
  let «end» := word buffer (position + 1)
  convertNodeList cn (position + 2) buffer >>= fun body =>
  mkNode [("body", .varr body), ("end", .vnat «end»), ("sourceType", .vstr "module"),
    ("start", .vnat start), ("type", .vstr "Program")]

-- Property
def convertProperty : Conv := fun cn position buffer _readString =>
  let start := word buffer position
  let «end» := word buffer (position + 1)
  let kind := indexKinds PROPERTY_KINDS (word buffer (position + 2))
  let method := word buffer (position + 3) != 0
  let computed := word buffer (position + 4) != 0
  let valuePosition := word buffer (position + 5)
  let shorthand := valuePosition == 0
  cn (position + 6) >>= fun key =>
  (if valuePosition ≠ 0 then cn valuePosition else pure key) >>= fun value =>
  mkNode [("computed", .vbool computed), ("end", .vnat «end»), ("key", key), ("kind", kind),
    ("method", .vbool method), ("shorthand", .vbool shorthand), ("start", .vnat start),
    ("type", .vstr "Property"), ("value", value)]

-- PropertyDefinition
def convertPropertyDefinition : Conv := fun cn position buffer _readString =>
  let start := word buffer position
  let «end» := word buffer (position + 1)
  let computed := word buffer (position + 2) != 0
  let isStatic := word buffer (position + 3) != 0
  let valuePosition := word buffer (position + 4)
  cn (position + 5) >>= fun key =>
  (if valuePosition ≠ 0 then cn valuePosition else pure JSValue.vnull) >>= fun value =>
  mkNode [("computed", .vbool computed), ("end", .vnat «end»), ("key", key),
    ("start", .vnat start), ("static", .vbool isStatic), ("type", .vstr "PropertyDefinition"),
    ("value", value)]

-- RestElement
def convertRestElement : Conv := fun cn position buffer _readString =>
  let start := word buffer position
  let «end» := word buffer (position + 1)
  cn (position + 2) >>= fun argument =>
  mkNode [("argument", argument), ("end", .vnat «end»), ("start", .vnat start),
    ("type", .vstr "RestElement")]

-- ReturnStatement
def convertReturnStatement : Conv := fun cn position buffer _readString =>
  let start := word buffer position
  let «end» := word buffer (position + 1)
  let argumentPosition := word buffer (position + 2)
  (if argumentPosition ≠ 0 then cn argumentPosition else pure JSValue.vnull) >>= fun argument =>
  mkNode [("argument", argument), ("end", .vnat «end»), ("start", .vnat start),
    ("type", .vstr "ReturnStatement")]

-- SequenceExpression
def convertSequenceExpression : Conv := fun cn position buffer _readString =>
  let start := word buffer position
  let «end» := word buffer (position + 1)
  convertNodeList cn (position + 2) buffer >>= fun expressions =>
  mkNode [("end", .vnat «end»), ("expressions", .varr expressions), ("start", .vnat start),
    ("type", .vstr "SequenceExpression")]

-- SpreadElement
def convertSpreadElement : Conv := fun cn position buffer _readString =>
  let start := word buffer position
  let «end» := word buffer (position + 1)
  cn (word buffer (position + 2)) >>= fun argument =>
  mkNode [("argument", argument), ("end", .vnat «end»), ("start", .vnat start),
    ("type", .vstr "SpreadElement")]

-- StaticBlock
def convertStaticBlock : Conv := fun cn position buffer _readString =>
  let start := word buffer position
  let «end» := word buffer (position + 1)
  convertNodeList cn (position + 2) buffer >>= fun body =>
  mkNode [("body", .varr body), ("end", .vnat «end»), ("start", .vnat start),
    ("type", .vstr "StaticBlock")]

-- Super
def convertSuper : Conv := fun _cn position buffer _readString =>
  let start := word buffer position
  let «end» := word buffer (position + 1)
  mkNode [("end", .vnat «end»), ("start", .vnat start), ("type", .vstr "Super")]

-- SwitchCase
def convertSwitchCase : Conv := fun cn position buffer _readString =>
  let start := word buffer position
  let «end» := word buffer (position + 1)
  let testPosition := word buffer (position + 2)
  convertNodeList cn (position + 3) buffer >>= fun consequent =>
  (if testPosition ≠ 0 then cn testPosition else pure JSValue.vnull) >>= fun test =>
  mkNode [("consequent", .varr consequent), ("end", .vnat «end»), ("start", .vnat start),
    ("test", test), ("type", .vstr "SwitchCase")]

-- SwitchStatement
def convertSwitchStatement : Conv := fun cn position buffer _readString =>
  let start := word buffer position
  let «end» := word buffer (position + 1)
  cn (word buffer (position + 2)) >>= fun discriminant =>
  convertNodeList cn (position + 3) buffer >>= fun cases =>
  mkNode [("cases", .varr cases), ("discriminant", discriminant), ("end", .vnat «end»),
    ("start", .vnat start), ("type", .vstr "SwitchStatement")]

-- ThisExpression
def convertThisExpression : Conv := fun _cn position buffer _readString =>
  let start := word buffer position
  let «end» := word buffer (position + 1)
  mkNode [("end", .vnat «end»), ("start", .vnat start), ("type", .vstr "ThisExpression")]

-- ThrowStatement
def convertThrowStatement : Conv := fun cn position buffer _readString =>
  let start := word buffer position
  let «end» := word buffer (position + 1)
  cn (position + 2) >>= fun argument =>
  mkNode [("argument", argument), ("end", .vnat «end»), ("start", .vnat start),
    ("type", .vstr "ThrowStatement")]

-- TryStatement
def convertTryStatement : Conv := fun cn position buffer _readString =>
  let start := word buffer position
  let «end» := word buffer (position + 1)
  let handlerPosition := word buffer (position + 2)
  let finalizerPosition := word buffer (position + 3)
  cn (position + 4) >>= fun block =>
  (if finalizerPosition ≠ 0 then cn finalizerPosition else pure JSValue.vnull) >>=
    fun finalizer =>
  (if handlerPosition ≠ 0 then cn handlerPosition else pure JSValue.vnull) >>= fun handler =>
  mkNode [("block", block), ("end", .vnat «end»), ("finalizer", finalizer),
    ("handler", handler), ("start", .vnat start), ("type", .vstr "TryStatement")]

-- VariableDeclaration
def convertVariableDeclaration : Conv := fun cn position buffer _readString =>
  let start := word buffer position
  let «end» := word buffer (position + 1)
  let kind := indexKinds DECLARATION_KINDS (word buffer (position + 2))
  convertNodeList cn (position + 3) buffer >>= fun declarations =>
  mkNode [("declarations", .varr declarations), ("end", .vnat «end»), ("kind", kind),
    ("start", .vnat start), ("type", .vstr "VariableDeclaration")]

-- VariableDeclarator
def convertVariableDeclarator : Conv := fun cn position buffer _readString =>
  let start := word buffer position
  let «end» := word buffer (position + 1)
  let init_position := word buffer (position + 2)
  cn (position + 3) >>= fun id =>
  (if init_position ≠ 0 then cn init_position else pure JSValue.vnull) >>= fun init =>
  mkNode [("end", .vnat «end»), ("id", id), ("init", init), ("start", .vnat start),
    ("type", .vstr "VariableDeclarator")]

-- WhileStatement
def convertWhileStatement : Conv := fun cn position buffer _readString =>
  let start := word buffer position
  let «end» := word buffer (position + 1)
  cn (word buffer (position + 2)) >>= fun test =>
  cn (position + 3) >>= fun body =>
  mkNode [("body", body), ("end", .vnat «end»), ("start", .vnat start), ("test", test),
    ("type", .vstr "WhileStatement")]

-- AssignmentPatternProperty (emitted as a Property node)
def convertAssignmentPatternProperty : Conv := fun cn position buffer _readString =>
  let start := word buffer position
  let «end» := word buffer (position + 1)
  let valuePosition := word buffer (position + 2)
  cn (position + 3) >>= fun key =>
  (if valuePosition ≠ 0 then cn valuePosition else pure key) >>= fun value =>
  mkNode [("computed", .vbool false), ("end", .vnat «end»), ("key", key),
    ("kind", .vstr "init"), ("method", .vbool false),
    ("shorthand", .vbool (valuePosition == 0)), ("start", .vnat start),
    ("type", .vstr "Property"), ("value", value)]

/-- The converter table, indexed by the tag word.  `none` entries are the
reserved slots of the source (written there as `null`, with a `TODO` comment):
tagged-template expressions (64), template elements (65), template literals
(66), unary expressions (70), update expressions (71) and yield
expressions (75). -/
def nodeConverters : List (Option Conv) := [
  some convertArrayExpression,
  some convertArrayPattern,
  some convertArrowFunctionExpression,
  some convertAssignmentExpression,
  some convertAssignmentPattern,
  some convertAwaitExpression,
  some convertBinaryExpression,
  some convertBlockStatement,
  some convertBreakStatement,
  some convertCallExpression,
  some convertCatchClause,
  some convertChainExpression,
  some convertClassBody,
  some convertClassDeclaration,
  some convertClassExpression,
  some convertConditionalExpression,
  some convertContinueStatement,
  some convertDebuggerStatement,
  some convertDoWhileStatement,
  some convertEmptyStatement,
  some convertExportAllDeclaration,
  some convertExportDefaultDeclaration,
  some convertExportNamedDeclaration,
  some convertExportSpecifier,
  some convertExpressionStatement,
  some convertForInStatement,
  some convertForOfStatement,
  some convertForStatement,
  some convertFunctionDeclaration,
  some convertFunctionExpression,
  some convertIdentifier,
  some convertIfStatement,
  some convertImportAttribute,
  some convertImportDeclaration,
  some convertImportDefaultSpecifier,
  some convertImportExpression,
  some convertImportNamespaceSpecifier,
  some convertImportSpecifier,
  some convertLabeledStatement,
  some convertLiteralString,
  some convertLiteralBoolean,
  some convertLiteralNumber,
  some convertLiteralNull,
  some convertLiteralRegExp,
  some convertLiteralBigInt,
  some convertLogicalExpression,
  some convertMemberExpression,
  some convertMetaProperty,
  some convertMethodDefinition,
  some convertNewExpression,
  some convertObjectExpression,
  some convertObjectPattern,
  some convertPrivateIdentifier,
  some convertProgramNode,
  some convertProperty,
  some convertPropertyDefinition,
  some convertRestElement,
  some convertReturnStatement,
  some convertSequenceExpression,
  some convertSpreadElement,
  some convertStaticBlock,
  some convertSuper,
  some convertSwitchCase,
  some convertSwitchStatement,
  none,
  none,
  none,
  some convertThisExpression,
  some convertThrowStatement,
  some convertTryStatement,
  none,
  none,
  some convertVariableDeclaration,
  some convertVariableDeclarator,
  some convertWhileStatement,
  none,
  some convertAssignmentPatternProperty]

/-- The `convertNode` routine of the source: reads the tag word at `position`,
looks up the converter at that index (an out-of-range index or a reserved slot
yields no converter and the decode throws the unknown-node-type error, whose
message interpolates the tag value) and otherwise runs the converter with the
cursor just after the tag word.  The extra fuel argument bounds the modelled
recursion depth; the `console.trace()` on the error path is a log-only side
effect and is not modelled. -/
def convertNode : Nat → Nat → Buffer → ReadString → DecM JSValue
  | 0, _, _, _ => decFail .fuelExhausted
  | fuel + 1, position, buffer, readString =>
    let nodeType := word buffer position
    match nodeConverters.getD nodeType none with
    | none => decFail (.jsError ("Unknown node type: " ++ toString nodeType))
    | some converter =>
      converter (fun p => convertNode fuel p buffer readString) (position + 1) buffer readString

/-- The exported `convertProgram` of the source: decodes the node whose tag is
at word position 0. -/
def convertProgram (fuel : Nat) (buffer : Buffer) (readString : ReadString) : DecM JSValue :=
  convertNode fuel 0 buffer readString

/-!
Allocation-identifier machinery.  `shiftIds k` adds `k` to every object
identifier in a value; a decode started from allocation counter `n + k`
produces exactly the `shiftIds k`-image of the decode started from `n` (proved
below converter by converter), which is the formal content of "the decoder has
no hidden state besides the allocation of fresh objects".
-/

mutual
def shiftIds (k : Nat) : JSValue → JSValue
  | .vobj id fields => .vobj (id + k) (shiftIdsFields k fields)
  | .varr elements => .varr (shiftIdsList k elements)
  | v => v

def shiftIdsList (k : Nat) : List JSValue → List JSValue
  | [] => []
  | v :: rest => shiftIds k v :: shiftIdsList k rest

def shiftIdsFields (k : Nat) : List (String × JSValue) → List (String × JSValue)
  | [] => []
  | (name, v) :: rest => (name, shiftIds k v) :: shiftIdsFields k rest
end

/-- The image of a decoding step under shifting the allocation counter by `k`:
errors are unchanged, results have their identifiers shifted by `σ` and their
final counter moved up by `k`. -/
def shiftResG {α : Type} (k : Nat) (σ : α → α) :
    Except ConvErr (α × Nat) → Except ConvErr (α × Nat)
  | .error e => .error e
  | .ok (a, n) => .ok (σ a, n + k)

theorem shift_bind' {α β : Type} (k : Nat) (σa : α → α) (σb : β → β)
    (mL mR : DecM α) (fL fR : α → DecM β)
    (hm : ∀ n, mL (n + k) = shiftResG k σa (mR n))
    (hf : ∀ a n, fL (σa a) (n + k) = shiftResG k σb (fR a n)) (n : Nat) :
    (mL >>= fL) (n + k) = shiftResG k σb ((mR >>= fR) n) := by
  rw [bind_apply, bind_apply, hm]
  cases hmn : mR n with
  | error e => rfl
  | ok an =>
    cases an with
    | mk a n' => simpa [shiftResG] using hf a n'

theorem shift_opt (k : Nat) {cn : Nat → DecM JSValue}
    (hcn : ∀ p n, cn p (n + k) = shiftResG k (shiftIds k) (cn p n))
    (c : Prop) [Decidable c] (x : Nat) (a : JSValue) (n : Nat) :
    (if c then cn x else pure (shiftIds k a)) (n + k)
      = shiftResG k (shiftIds k) ((if c then cn x else pure a) n) := by
  split
  · exact hcn x n
  · simp [pure_apply, shiftResG]

theorem shift_convertNodeListGo (k : Nat) (buffer : Buffer) (cn : Nat → DecM JSValue)
    (hcn : ∀ p n, cn p (n + k) = shiftResG k (shiftIds k) (cn p n)) :
    ∀ count position n,
      convertNodeListGo cn buffer count position (n + k)
        = shiftResG k (shiftIdsList k) (convertNodeListGo cn buffer count position n) := by
  intro count
  induction count with
  | zero => intro position n; simp [convertNodeListGo, pure_apply, shiftResG, shiftIdsList]
  | succ count ih =>
    intro position n
    simp only [convertNodeListGo]
    refine shift_bind' k (shiftIds k) (shiftIdsList k) _ _ _ _
      (fun n' => shift_opt k hcn _ _ JSValue.vnull n') (fun v n' => ?_) n
    refine shift_bind' k (shiftIdsList k) (shiftIdsList k) _ _ _ _
      (fun n'' => ih _ n'') (fun l n'' => ?_) n'
    simp [pure_apply, shiftResG, shiftIdsList]

theorem shift_convertNodeList (k : Nat) (buffer : Buffer) (cn : Nat → DecM JSValue)
    (hcn : ∀ p n, cn p (n + k) = shiftResG k (shiftIds k) (cn p n))
    (position n : Nat) :
    convertNodeList cn position buffer (n + k)
      = shiftResG k (shiftIdsList k) (convertNodeList cn position buffer n) := by
  simp only [convertNodeList]
  exact shift_convertNodeListGo k buffer cn hcn _ _ n

theorem shift_optList (k : Nat) {cn : Nat → DecM JSValue} (buffer : Buffer)
    (hcn : ∀ p n, cn p (n + k) = shiftResG k (shiftIds k) (cn p n))
    (c : Prop) [Decidable c] (x : Nat) (n : Nat) :
    (if c then convertNodeList cn x buffer else pure ([] : List JSValue)) (n + k)
      = shiftResG k (shiftIdsList k)
        ((if c then convertNodeList cn x buffer else pure []) n) := by
  split
  · exact shift_convertNodeList k buffer cn hcn x n
  · simp [pure_apply, shiftResG, shiftIdsList]

theorem shiftIds_indexKinds (k : Nat) (kinds : List String) (i : Nat) :
    shiftIds k (indexKinds kinds i) = indexKinds kinds i := by
  simp only [indexKinds]
  cases kinds.get? i <;> simp [shiftIds]

theorem shift_convertArrayExpression (k : Nat) (buffer : Buffer) (readString : ReadString)
    (cn : Nat → DecM JSValue)
    (hcn : ∀ p n, cn p (n + k) = shiftResG k (shiftIds k) (cn p n))
    (position n : Nat) :
    convertArrayExpression cn position buffer readString (n + k)
      = shiftResG k (shiftIds k) (convertArrayExpression cn position buffer readString n) := by
  simp only [convertArrayExpression]
  refine shift_bind' k (shiftIdsList k) (shiftIds k) _ _ _ _
    (fun n' => shift_convertNodeList k buffer cn hcn _ n') (fun a1 n1 => ?_) n
  simp [mkNode, shiftResG, shiftIds, shiftIdsFields, shiftIdsList,
    shiftIds_indexKinds, Nat.add_right_comm]

theorem shift_convertArrayPattern (k : Nat) (buffer : Buffer) (readString : ReadString)
    (cn : Nat → DecM JSValue)
    (hcn : ∀ p n, cn p (n + k) = shiftResG k (shiftIds k) (cn p n))
    (position n : Nat) :
    convertArrayPattern cn position buffer readString (n + k)
      = shiftResG k (shiftIds k) (convertArrayPattern cn position buffer readString n) := by
  simp only [convertArrayPattern]
  refine shift_bind' k (shiftIdsList k) (shiftIds k) _ _ _ _
    (fun n' => shift_convertNodeList k buffer cn hcn _ n') (fun a1 n1 => ?_) n
  simp [mkNode, shiftResG, shiftIds, shiftIdsFields, shiftIdsList,
    shiftIds_indexKinds, Nat.add_right_comm]

theorem shift_convertArrowFunctionExpression (k : Nat) (buffer : Buffer) (readString : ReadString)
    (cn : Nat → DecM JSValue)
    (hcn : ∀ p n, cn p (n + k) = shiftResG k (shiftIds k) (cn p n))
    (position n : Nat) :
    convertArrowFunctionExpression cn position buffer readString (n + k)
      = shiftResG k (shiftIds k) (convertArrowFunctionExpression cn position buffer readString n) := by
  simp only [convertArrowFunctionExpression]
  refine shift_bind' k (shiftIdsList k) (shiftIds k) _ _ _ _
    (fun n' => shift_convertNodeList k buffer cn hcn _ n') (fun a1 n1 => ?_) n
  refine shift_bind' k (shiftIds k) (shiftIds k) _ _ _ _
    (fun n' => hcn _ n') (fun a2 n2 => ?_) n1
  simp [mkNode, shiftResG, shiftIds, shiftIdsFields, shiftIdsList,
    shiftIds_indexKinds, Nat.add_right_comm]

theorem shift_convertAssignmentExpression (k : Nat) (buffer : Buffer) (readString : ReadString)
    (cn : Nat → DecM JSValue)
    (hcn : ∀ p n, cn p (n + k) = shiftResG k (shiftIds k) (cn p n))
    (position n : Nat) :
    convertAssignmentExpression cn position buffer readString (n + k)
      = shiftResG k (shiftIds k) (convertAssignmentExpression cn position buffer readString n) := by
  simp only [convertAssignmentExpression]
  refine shift_bind' k (shiftIds k) (shiftIds k) _ _ _ _
    (fun n' => hcn _ n') (fun a1 n1 => ?_) n
  refine shift_bind' k (shiftIds k) (shiftIds k) _ _ _ _
    (fun n' => hcn _ n') (fun a2 n2 => ?_) n1
  simp [mkNode, shiftResG, shiftIds, shiftIdsFields, shiftIdsList,
    shiftIds_indexKinds, Nat.add_right_comm]

theorem shift_convertAssignmentPattern (k : Nat) (buffer : Buffer) (readString : ReadString)
    (cn : Nat → DecM JSValue)
    (hcn : ∀ p n, cn p (n + k) = shiftResG k (shiftIds k) (cn p n))
    (position n : Nat) :
    convertAssignmentPattern cn position buffer readString (n + k)
      = shiftResG k (shiftIds k) (convertAssignmentPattern cn position buffer readString n) := by
  simp only [convertAssignmentPattern]
  refine shift_bind' k (shiftIds k) (shiftIds k) _ _ _ _
    (fun n' => hcn _ n') (fun a1 n1 => ?_) n
  refine shift_bind' k (shiftIds k) (shiftIds k) _ _ _ _
    (fun n' => hcn _ n') (fun a2 n2 => ?_) n1
  simp [mkNode, shiftResG, shiftIds, shiftIdsFields, shiftIdsList,
    shiftIds_indexKinds, Nat.add_right_comm]

theorem shift_convertAwaitExpression (k : Nat) (buffer : Buffer) (readString : ReadString)
    (cn : Nat → DecM JSValue)
    (hcn : ∀ p n, cn p (n + k) = shiftResG k (shiftIds k) (cn p n))
    (position n : Nat) :
    convertAwaitExpression cn position buffer readString (n + k)
      = shiftResG k (shiftIds k) (convertAwaitExpression cn position buffer readString n) := by
  simp only [convertAwaitExpression]
  refine shift_bind' k (shiftIds k) (shiftIds k) _ _ _ _
    (fun n' => hcn _ n') (fun a1 n1 => ?_) n
  simp [mkNode, shiftResG, shiftIds, shiftIdsFields, shiftIdsList,
    shiftIds_indexKinds, Nat.add_right_comm]

theorem shift_convertBinaryExpression (k : Nat) (buffer : Buffer) (readString : ReadString)
    (cn : Nat → DecM JSValue)
    (hcn : ∀ p n, cn p (n + k) = shiftResG k (shiftIds k) (cn p n))
    (position n : Nat) :
    convertBinaryExpression cn position buffer readString (n + k)
      = shiftResG k (shiftIds k) (convertBinaryExpression cn position buffer readString n) := by
  simp only [convertBinaryExpression]
  refine shift_bind' k (shiftIds k) (shiftIds k) _ _ _ _
    (fun n' => hcn _ n') (fun a1 n1 => ?_) n
  refine shift_bind' k (shiftIds k) (shiftIds k) _ _ _ _
    (fun n' => hcn _ n') (fun a2 n2 => ?_) n1
  simp [mkNode, shiftResG, shiftIds, shiftIdsFields, shiftIdsList,
    shiftIds_indexKinds, Nat.add_right_comm]

theorem shift_convertBlockStatement (k : Nat) (buffer : Buffer) (readString : ReadString)
    (cn : Nat → DecM JSValue)
    (hcn : ∀ p n, cn p (n + k) = shiftResG k (shiftIds k) (cn p n))
    (position n : Nat) :
    convertBlockStatement cn position buffer readString (n + k)
      = shiftResG k (shiftIds k) (convertBlockStatement cn position buffer readString n) := by
  simp only [convertBlockStatement]
  refine shift_bind' k (shiftIdsList k) (shiftIds k) _ _ _ _
    (fun n' => shift_convertNodeList k buffer cn hcn _ n') (fun a1 n1 => ?_) n
  simp [mkNode, shiftResG, shiftIds, shiftIdsFields, shiftIdsList,
    shiftIds_indexKinds, Nat.add_right_comm]

theorem shift_convertBreakStatement (k : Nat) (buffer : Buffer) (readString : ReadString)
    (cn : Nat → DecM JSValue)
    (hcn : ∀ p n, cn p (n + k) = shiftResG k (shiftIds k) (cn p n))
    (position n : Nat) :
    convertBreakStatement cn position buffer readString (n + k)
      = shiftResG k (shiftIds k) (convertBreakStatement cn position buffer readString n) := by
  simp only [convertBreakStatement]
  refine shift_bind' k (shiftIds k) (shiftIds k) _ _ _ _
    (fun n' => shift_opt k hcn _ _ JSValue.vnull n') (fun a1 n1 => ?_) n
  simp [mkNode, shiftResG, shiftIds, shiftIdsFields, shiftIdsList,
    shiftIds_indexKinds, Nat.add_right_comm]

theorem shift_convertCallExpression (k : Nat) (buffer : Buffer) (readString : ReadString)
    (cn : Nat → DecM JSValue)
    (hcn : ∀ p n, cn p (n + k) = shiftResG k (shiftIds k) (cn p n))
    (position n : Nat) :
    convertCallExpression cn position buffer readString (n + k)
      = shiftResG k (shiftIds k) (convertCallExpression cn position buffer readString n) := by
  simp only [convertCallExpression]
  refine shift_bind' k (shiftIds k) (shiftIds k) _ _ _ _
    (fun n' => hcn _ n') (fun a1 n1 => ?_) n
  refine shift_bind' k (shiftIdsList k) (shiftIds k) _ _ _ _
    (fun n' => shift_convertNodeList k buffer cn hcn _ n') (fun a2 n2 => ?_) n1
  simp [mkNode, shiftResG, shiftIds, shiftIdsFields, shiftIdsList,
    shiftIds_indexKinds, Nat.add_right_comm]

theorem shift_convertCatchClause (k : Nat) (buffer : Buffer) (readString : ReadString)
    (cn : Nat → DecM JSValue)
    (hcn : ∀ p n, cn p (n + k) = shiftResG k (shiftIds k) (cn p n))
    (position n : Nat) :
    convertCatchClause cn position buffer readString (n + k)
      = shiftResG k (shiftIds k) (convertCatchClause cn position buffer readString n) := by
  simp only [convertCatchClause]
  refine shift_bind' k (shiftIds k) (shiftIds k) _ _ _ _
    (fun n' => hcn _ n') (fun a1 n1 => ?_) n
  refine shift_bind' k (shiftIds k) (shiftIds k) _ _ _ _
    (fun n' => shift_opt k hcn _ _ JSValue.vnull n') (fun a2 n2 => ?_) n1
  simp [mkNode, shiftResG, shiftIds, shiftIdsFields, shiftIdsList,
    shiftIds_indexKinds, Nat.add_right_comm]

theorem shift_convertChainExpression (k : Nat) (buffer : Buffer) (readString : ReadString)
    (cn : Nat → DecM JSValue)
    (hcn : ∀ p n, cn p (n + k) = shiftResG k (shiftIds k) (cn p n))
    (position n : Nat) :
    convertChainExpression cn position buffer readString (n + k)
      = shiftResG k (shiftIds k) (convertChainExpression cn position buffer readString n) := by
  simp only [convertChainExpression]
  refine shift_bind' k (shiftIds k) (shiftIds k) _ _ _ _
    (fun n' => hcn _ n') (fun a1 n1 => ?_) n
  simp [mkNode, shiftResG, shiftIds, shiftIdsFields, shiftIdsList,
    shiftIds_indexKinds, Nat.add_right_comm]

theorem shift_convertClassBody (k : Nat) (buffer : Buffer) (readString : ReadString)
    (cn : Nat → DecM JSValue)
    (hcn : ∀ p n, cn p (n + k) = shiftResG k (shiftIds k) (cn p n))
    (position n : Nat) :
    convertClassBody cn position buffer readString (n + k)
      = shiftResG k (shiftIds k) (convertClassBody cn position buffer readString n) := by
  simp only [convertClassBody]
  refine shift_bind' k (shiftIdsList k) (shiftIds k) _ _ _ _
    (fun n' => shift_convertNodeList k buffer cn hcn _ n') (fun a1 n1 => ?_) n
  simp [mkNode, shiftResG, shiftIds, shiftIdsFields, shiftIdsList,
    shiftIds_indexKinds, Nat.add_right_comm]

theorem shift_convertClassDeclaration (k : Nat) (buffer : Buffer) (readString : ReadString)
    (cn : Nat → DecM JSValue)
    (hcn : ∀ p n, cn p (n + k) = shiftResG k (shiftIds k) (cn p n))
    (position n : Nat) :
    convertClassDeclaration cn position buffer readString (n + k)
      = shiftResG k (shiftIds k) (convertClassDeclaration cn position buffer readString n) := by
  simp only [convertClassDeclaration]
  refine shift_bind' k (shiftIds k) (shiftIds k) _ _ _ _
    (fun n' => hcn _ n') (fun a1 n1 => ?_) n
  refine shift_bind' k (shiftIds k) (shiftIds k) _ _ _ _
    (fun n' => shift_opt k hcn _ _ JSValue.vnull n') (fun a2 n2 => ?_) n1
  refine shift_bind' k (shiftIds k) (shiftIds k) _ _ _ _
    (fun n' => shift_opt k hcn _ _ JSValue.vnull n') (fun a3 n3 => ?_) n2
  simp [mkNode, shiftResG, shiftIds, shiftIdsFields, shiftIdsList,
    shiftIds_indexKinds, Nat.add_right_comm]

theorem shift_convertClassExpression (k : Nat) (buffer : Buffer) (readString : ReadString)
    (cn : Nat → DecM JSValue)
    (hcn : ∀ p n, cn p (n + k) = shiftResG k (shiftIds k) (cn p n))
    (position n : Nat) :
    convertClassExpression cn position buffer readString (n + k)
      = shiftResG k (shiftIds k) (convertClassExpression cn position buffer readString n) := by
  simp only [convertClassExpression]
  refine shift_bind' k (shiftIds k) (shiftIds k) _ _ _ _
    (fun n' => hcn _ n') (fun a1 n1 => ?_) n
  refine shift_bind' k (shiftIds k) (shiftIds k) _ _ _ _
    (fun n' => shift_opt k hcn _ _ JSValue.vnull n') (fun a2 n2 => ?_) n1
  refine shift_bind' k (shiftIds k) (shiftIds k) _ _ _ _
    (fun n' => shift_opt k hcn _ _ JSValue.vnull n') (fun a3 n3 => ?_) n2
  simp [mkNode, shiftResG, shiftIds, shiftIdsFields, shiftIdsList,
    shiftIds_indexKinds, Nat.add_right_comm]

theorem shift_convertConditionalExpression (k : Nat) (buffer : Buffer) (readString : ReadString)
    (cn : Nat → DecM JSValue)
    (hcn : ∀ p n, cn p (n + k) = shiftResG k (shiftIds k) (cn p n))
    (position n : Nat) :
    convertConditionalExpression cn position buffer readString (n + k)
      = shiftResG k (shiftIds k) (convertConditionalExpression cn position buffer readString n) := by
  simp only [convertConditionalExpression]
  refine shift_bind' k (shiftIds k) (shiftIds k) _ _ _ _
    (fun n' => hcn _ n') (fun a1 n1 => ?_) n
  refine shift_bind' k (shiftIds k) (shiftIds k) _ _ _ _
    (fun n' => hcn _ n') (fun a2 n2 => ?_) n1
  refine shift_bind' k (shiftIds k) (shiftIds k) _ _ _ _
    (fun n' => hcn _ n') (fun a3 n3 => ?_) n2
  simp [mkNode, shiftResG, shiftIds, shiftIdsFields, shiftIdsList,
    shiftIds_indexKinds, Nat.add_right_comm]

theorem shift_convertContinueStatement (k : Nat) (buffer : Buffer) (readString : ReadString)
    (cn : Nat → DecM JSValue)
    (hcn : ∀ p n, cn p (n + k) = shiftResG k (shiftIds k) (cn p n))
    (position n : Nat) :
    convertContinueStatement cn position buffer readString (n + k)
      = shiftResG k (shiftIds k) (convertContinueStatement cn position buffer readString n) := by
  simp only [convertContinueStatement]
  refine shift_bind' k (shiftIds k) (shiftIds k) _ _ _ _
    (fun n' => shift_opt k hcn _ _ JSValue.vnull n') (fun a1 n1 => ?_) n
  simp [mkNode, shiftResG, shiftIds, shiftIdsFields, shiftIdsList,
    shiftIds_indexKinds, Nat.add_right_comm]

theorem shift_convertDebuggerStatement (k : Nat) (buffer : Buffer) (readString : ReadString)
    (cn : Nat → DecM JSValue)
    (hcn : ∀ p n, cn p (n + k) = shiftResG k (shiftIds k) (cn p n))
    (position n : Nat) :
    convertDebuggerStatement cn position buffer readString (n + k)
      = shiftResG k (shiftIds k) (convertDebuggerStatement cn position buffer readString n) := by
  simp only [convertDebuggerStatement]
  simp [mkNode, shiftResG, shiftIds, shiftIdsFields, shiftIdsList,
    shiftIds_indexKinds, Nat.add_right_comm]

theorem shift_convertDoWhileStatement (k : Nat) (buffer : Buffer) (readString : ReadString)
    (cn : Nat → DecM JSValue)
    (hcn : ∀ p n, cn p (n + k) = shiftResG k (shiftIds k) (cn p n))
    (position n : Nat) :
    convertDoWhileStatement cn position buffer readString (n + k)
      = shiftResG k (shiftIds k) (convertDoWhileStatement cn position buffer readString n) := by
  simp only [convertDoWhileStatement]
  refine shift_bind' k (shiftIds k) (shiftIds k) _ _ _ _
    (fun n' => hcn _ n') (fun a1 n1 => ?_) n
  refine shift_bind' k (shiftIds k) (shiftIds k) _ _ _ _
    (fun n' => hcn _ n') (fun a2 n2 => ?_) n1
  simp [mkNode, shiftResG, shiftIds, shiftIdsFields, shiftIdsList,
    shiftIds_indexKinds, Nat.add_right_comm]

theorem shift_convertEmptyStatement (k : Nat) (buffer : Buffer) (readString : ReadString)
    (cn : Nat → DecM JSValue)
    (hcn : ∀ p n, cn p (n + k) = shiftResG k (shiftIds k) (cn p n))
    (position n : Nat) :
    convertEmptyStatement cn position buffer readString (n + k)
      = shiftResG k (shiftIds k) (convertEmptyStatement cn position buffer readString n) := by
  simp only [convertEmptyStatement]
  simp [mkNode, shiftResG, shiftIds, shiftIdsFields, shiftIdsList,
    shiftIds_indexKinds, Nat.add_right_comm]

theorem shift_convertExportAllDeclaration (k : Nat) (buffer : Buffer) (readString : ReadString)
    (cn : Nat → DecM JSValue)
    (hcn : ∀ p n, cn p (n + k) = shiftResG k (shiftIds k) (cn p n))
    (position n : Nat) :
    convertExportAllDeclaration cn position buffer readString (n + k)
      = shiftResG k (shiftIds k) (convertExportAllDeclaration cn position buffer readString n) := by
  simp only [convertExportAllDeclaration]
  refine shift_bind' k (shiftIdsList k) (shiftIds k) _ _ _ _
    (fun n' => shift_convertNodeList k buffer cn hcn _ n') (fun a1 n1 => ?_) n
  refine shift_bind' k (shiftIds k) (shiftIds k) _ _ _ _
    (fun n' => hcn _ n') (fun a2 n2 => ?_) n1
  refine shift_bind' k (shiftIds k) (shiftIds k) _ _ _ _
    (fun n' => shift_opt k hcn _ _ JSValue.vnull n') (fun a3 n3 => ?_) n2
  simp [mkNode, shiftResG, shiftIds, shiftIdsFields, shiftIdsList,
    shiftIds_indexKinds, Nat.add_right_comm]

theorem shift_convertExportDefaultDeclaration (k : Nat) (buffer : Buffer) (readString : ReadString)
    (cn : Nat → DecM JSValue)
    (hcn : ∀ p n, cn p (n + k) = shiftResG k (shiftIds k) (cn p n))
    (position n : Nat) :
    convertExportDefaultDeclaration cn position buffer readString (n + k)
      = shiftResG k (shiftIds k) (convertExportDefaultDeclaration cn position buffer readString n) := by
  simp only [convertExportDefaultDeclaration]
  refine shift_bind' k (shiftIds k) (shiftIds k) _ _ _ _
    (fun n' => hcn _ n') (fun a1 n1 => ?_) n
  simp [mkNode, shiftResG, shiftIds, shiftIdsFields, shiftIdsList,
    shiftIds_indexKinds, Nat.add_right_comm]

theorem shift_convertExportNamedDeclaration (k : Nat) (buffer : Buffer) (readString : ReadString)
    (cn : Nat → DecM JSValue)
    (hcn : ∀ p n, cn p (n + k) = shiftResG k (shiftIds k) (cn p n))
    (position n : Nat) :
    convertExportNamedDeclaration cn position buffer readString (n + k)
      = shiftResG k (shiftIds k) (convertExportNamedDeclaration cn position buffer readString n) := by
  simp only [convertExportNamedDeclaration]
  refine shift_bind' k (shiftIdsList k) (shiftIds k) _ _ _ _
    (fun n' => shift_convertNodeList k buffer cn hcn _ n') (fun a1 n1 => ?_) n
  refine shift_bind' k (shiftIdsList k) (shiftIds k) _ _ _ _
    (fun n' => shift_convertNodeList k buffer cn hcn _ n') (fun a2 n2 => ?_) n1
  refine shift_bind' k (shiftIds k) (shiftIds k) _ _ _ _
    (fun n' => shift_opt k hcn _ _ JSValue.vnull n') (fun a3 n3 => ?_) n2
  refine shift_bind' k (shiftIds k) (shiftIds k) _ _ _ _
    (fun n' => shift_opt k hcn _ _ JSValue.vnull n') (fun a4 n4 => ?_) n3
  simp [mkNode, shiftResG, shiftIds, shiftIdsFields, shiftIdsList,
    shiftIds_indexKinds, Nat.add_right_comm]

theorem shift_convertExportSpecifier (k : Nat) (buffer : Buffer) (readString : ReadString)
    (cn : Nat → DecM JSValue)
    (hcn : ∀ p n, cn p (n + k) = shiftResG k (shiftIds k) (cn p n))
    (position n : Nat) :
    convertExportSpecifier cn position buffer readString (n + k)
      = shiftResG k (shiftIds k) (convertExportSpecifier cn position buffer readString n) := by
  simp only [convertExportSpecifier]
  refine shift_bind' k (shiftIds k) (shiftIds k) _ _ _ _
    (fun n' => hcn _ n') (fun a1 n1 => ?_) n
  refine shift_bind' k (shiftIds k) (shiftIds k) _ _ _ _
    (fun n' => shift_opt k hcn _ _ a1 n') (fun a2 n2 => ?_) n1
  simp [mkNode, shiftResG, shiftIds, shiftIdsFields, shiftIdsList,
    shiftIds_indexKinds, Nat.add_right_comm]

theorem shift_convertExpressionStatement (k : Nat) (buffer : Buffer) (readString : ReadString)
    (cn : Nat → DecM JSValue)
    (hcn : ∀ p n, cn p (n + k) = shiftResG k (shiftIds k) (cn p n))
    (position n : Nat) :
    convertExpressionStatement cn position buffer readString (n + k)
      = shiftResG k (shiftIds k) (convertExpressionStatement cn position buffer readString n) := by
  simp only [convertExpressionStatement]
  refine shift_bind' k (shiftIds k) (shiftIds k) _ _ _ _
    (fun n' => hcn _ n') (fun a1 n1 => ?_) n
  simp [mkNode, shiftResG, shiftIds, shiftIdsFields, shiftIdsList,
    shiftIds_indexKinds, Nat.add_right_comm]

theorem shift_convertForInStatement (k : Nat) (buffer : Buffer) (readString : ReadString)
    (cn : Nat → DecM JSValue)
    (hcn : ∀ p n, cn p (n + k) = shiftResG k (shiftIds k) (cn p n))
    (position n : Nat) :
    convertForInStatement cn position buffer readString (n + k)
      = shiftResG k (shiftIds k) (convertForInStatement cn position buffer readString n) := by
  simp only [convertForInStatement]
  refine shift_bind' k (shiftIds k) (shiftIds k) _ _ _ _
    (fun n' => hcn _ n') (fun a1 n1 => ?_) n
  refine shift_bind' k (shiftIds k) (shiftIds k) _ _ _ _
    (fun n' => hcn _ n') (fun a2 n2 => ?_) n1
  refine shift_bind' k (shiftIds k) (shiftIds k) _ _ _ _
    (fun n' => hcn _ n') (fun a3 n3 => ?_) n2
  simp [mkNode, shiftResG, shiftIds, shiftIdsFields, shiftIdsList,
    shiftIds_indexKinds, Nat.add_right_comm]

theorem shift_convertForOfStatement (k : Nat) (buffer : Buffer) (readString : ReadString)
    (cn : Nat → DecM JSValue)
    (hcn : ∀ p n, cn p (n + k) = shiftResG k (shiftIds k) (cn p n))
    (position n : Nat) :
    convertForOfStatement cn position buffer readString (n + k)
      = shiftResG k (shiftIds k) (convertForOfStatement cn position buffer readString n) := by
  simp only [convertForOfStatement]
  refine shift_bind' k (shiftIds k) (shiftIds k) _ _ _ _
    (fun n' => hcn _ n') (fun a1 n1 => ?_) n
  refine shift_bind' k (shiftIds k) (shiftIds k) _ _ _ _
    (fun n' => hcn _ n') (fun a2 n2 => ?_) n1
  refine shift_bind' k (shiftIds k) (shiftIds k) _ _ _ _
    (fun n' => hcn _ n') (fun a3 n3 => ?_) n2
  simp [mkNode, shiftResG, shiftIds, shiftIdsFields, shiftIdsList,
    shiftIds_indexKinds, Nat.add_right_comm]

theorem shift_convertForStatement (k : Nat) (buffer : Buffer) (readString : ReadString)
    (cn : Nat → DecM JSValue)
    (hcn : ∀ p n, cn p (n + k) = shiftResG k (shiftIds k) (cn p n))
    (position n : Nat) :
    convertForStatement cn position buffer readString (n + k)
      = shiftResG k (shiftIds k) (convertForStatement cn position buffer readString n) := by
  simp only [convertForStatement]
  refine shift_bind' k (shiftIds k) (shiftIds k) _ _ _ _
    (fun n' => hcn _ n') (fun a1 n1 => ?_) n
  refine shift_bind' k (shiftIds k) (shiftIds k) _ _ _ _
    (fun n' => shift_opt k hcn _ _ JSValue.vnull n') (fun a2 n2 => ?_) n1
  refine shift_bind' k (shiftIds k) (shiftIds k) _ _ _ _
    (fun n' => shift_opt k hcn _ _ JSValue.vnull n') (fun a3 n3 => ?_) n2
  refine shift_bind' k (shiftIds k) (shiftIds k) _ _ _ _
    (fun n' => shift_opt k hcn _ _ JSValue.vnull n') (fun a4 n4 => ?_) n3
  simp [mkNode, shiftResG, shiftIds, shiftIdsFields, shiftIdsList,
    shiftIds_indexKinds, Nat.add_right_comm]

theorem shift_convertFunctionDeclaration (k : Nat) (buffer : Buffer) (readString : ReadString)
    (cn : Nat → DecM JSValue)
    (hcn : ∀ p n, cn p (n + k) = shiftResG k (shiftIds k) (cn p n))
    (position n : Nat) :
    convertFunctionDeclaration cn position buffer readString (n + k)
      = shiftResG k (shiftIds k) (convertFunctionDeclaration cn position buffer readString n) := by
  simp only [convertFunctionDeclaration]
  refine shift_bind' k (shiftIdsList k) (shiftIds k) _ _ _ _
    (fun n' => shift_convertNodeList k buffer cn hcn _ n') (fun a1 n1 => ?_) n
  refine shift_bind' k (shiftIds k) (shiftIds k) _ _ _ _
    (fun n' => hcn _ n') (fun a2 n2 => ?_) n1
  refine shift_bind' k (shiftIds k) (shiftIds k) _ _ _ _
    (fun n' => shift_opt k hcn _ _ JSValue.vnull n') (fun a3 n3 => ?_) n2
  simp [mkNode, shiftResG, shiftIds, shiftIdsFields, shiftIdsList,
    shiftIds_indexKinds, Nat.add_right_comm]

theorem shift_convertFunctionExpression (k : Nat) (buffer : Buffer) (readString : ReadString)
    (cn : Nat → DecM JSValue)
    (hcn : ∀ p n, cn p (n + k) = shiftResG k (shiftIds k) (cn p n))
    (position n : Nat) :
    convertFunctionExpression cn position buffer readString (n + k)
      = shiftResG k (shiftIds k) (convertFunctionExpression cn position buffer readString n) := by
  simp only [convertFunctionExpression]
  refine shift_bind' k (shiftIdsList k) (shiftIds k) _ _ _ _
    (fun n' => shift_convertNodeList k buffer cn hcn _ n') (fun a1 n1 => ?_) n
  refine shift_bind' k (shiftIds k) (shiftIds k) _ _ _ _
    (fun n' => hcn _ n') (fun a2 n2 => ?_) n1
  refine shift_bind' k (shiftIds k) (shiftIds k) _ _ _ _
    (fun n' => shift_opt k hcn _ _ JSValue.vnull n') (fun a3 n3 => ?_) n2
  simp [mkNode, shiftResG, shiftIds, shiftIdsFields, shiftIdsList,
    shiftIds_indexKinds, Nat.add_right_comm]

theorem shift_convertIdentifier (k : Nat) (buffer : Buffer) (readString : ReadString)
    (cn : Nat → DecM JSValue)
    (hcn : ∀ p n, cn p (n + k) = shiftResG k (shiftIds k) (cn p n))
    (position n : Nat) :
    convertIdentifier cn position buffer readString (n + k)
      = shiftResG k (shiftIds k) (convertIdentifier cn position buffer readString n) := by
  simp only [convertIdentifier]
  simp [mkNode, shiftResG, shiftIds, shiftIdsFields, shiftIdsList,
    shiftIds_indexKinds, Nat.add_right_comm]

theorem shift_convertIfStatement (k : Nat) (buffer : Buffer) (readString : ReadString)
    (cn : Nat → DecM JSValue)
    (hcn : ∀ p n, cn p (n + k) = shiftResG k (shiftIds k) (cn p n))
    (position n : Nat) :
    convertIfStatement cn position buffer readString (n + k)
      = shiftResG k (shiftIds k) (convertIfStatement cn position buffer readString n) := by
  simp only [convertIfStatement]
  refine shift_bind' k (shiftIds k) (shiftIds k) _ _ _ _
    (fun n' => hcn _ n') (fun a1 n1 => ?_) n
  refine shift_bind' k (shiftIds k) (shiftIds k) _ _ _ _
    (fun n' => hcn _ n') (fun a2 n2 => ?_) n1
  refine shift_bind' k (shiftIds k) (shiftIds k) _ _ _ _
    (fun n' => shift_opt k hcn _ _ JSValue.vnull n') (fun a3 n3 => ?_) n2
  simp [mkNode, shiftResG, shiftIds, shiftIdsFields, shiftIdsList,
    shiftIds_indexKinds, Nat.add_right_comm]

theorem shift_convertImportAttribute (k : Nat) (buffer : Buffer) (readString : ReadString)
    (cn : Nat → DecM JSValue)
    (hcn : ∀ p n, cn p (n + k) = shiftResG k (shiftIds k) (cn p n))
    (position n : Nat) :
    convertImportAttribute cn position buffer readString (n + k)
      = shiftResG k (shiftIds k) (convertImportAttribute cn position buffer readString n) := by
  simp only [convertImportAttribute]
  refine shift_bind' k (shiftIds k) (shiftIds k) _ _ _ _
    (fun n' => hcn _ n') (fun a1 n1 => ?_) n
  refine shift_bind' k (shiftIds k) (shiftIds k) _ _ _ _
    (fun n' => hcn _ n') (fun a2 n2 => ?_) n1
  simp [mkNode, shiftResG, shiftIds, shiftIdsFields, shiftIdsList,
    shiftIds_indexKinds, Nat.add_right_comm]

theorem shift_convertImportDeclaration (k : Nat) (buffer : Buffer) (readString : ReadString)
    (cn : Nat → DecM JSValue)
    (hcn : ∀ p n, cn p (n + k) = shiftResG k (shiftIds k) (cn p n))
    (position n : Nat) :
    convertImportDeclaration cn position buffer readString (n + k)
      = shiftResG k (shiftIds k) (convertImportDeclaration cn position buffer readString n) := by
  simp only [convertImportDeclaration]
  refine shift_bind' k (shiftIds k) (shiftIds k) _ _ _ _
    (fun n' => hcn _ n') (fun a1 n1 => ?_) n
  refine shift_bind' k (shiftIdsList k) (shiftIds k) _ _ _ _
    (fun n' => shift_convertNodeList k buffer cn hcn _ n') (fun a2 n2 => ?_) n1
  refine shift_bind' k (shiftIdsList k) (shiftIds k) _ _ _ _
    (fun n' => shift_convertNodeList k buffer cn hcn _ n') (fun a3 n3 => ?_) n2
  simp [mkNode, shiftResG, shiftIds, shiftIdsFields, shiftIdsList,
    shiftIds_indexKinds, Nat.add_right_comm]

theorem shift_convertImportDefaultSpecifier (k : Nat) (buffer : Buffer) (readString : ReadString)
    (cn : Nat → DecM JSValue)
    (hcn : ∀ p n, cn p (n + k) = shiftResG k (shiftIds k) (cn p n))
    (position n : Nat) :
    convertImportDefaultSpecifier cn position buffer readString (n + k)
      = shiftResG k (shiftIds k) (convertImportDefaultSpecifier cn position buffer readString n) := by
  simp only [convertImportDefaultSpecifier]
  refine shift_bind' k (shiftIds k) (shiftIds k) _ _ _ _
    (fun n' => hcn _ n') (fun a1 n1 => ?_) n
  simp [mkNode, shiftResG, shiftIds, shiftIdsFields, shiftIdsList,
    shiftIds_indexKinds, Nat.add_right_comm]

theorem shift_convertImportExpression (k : Nat) (buffer : Buffer) (readString : ReadString)
    (cn : Nat → DecM JSValue)
    (hcn : ∀ p n, cn p (n + k) = shiftResG k (shiftIds k) (cn p n))
    (position n : Nat) :
    convertImportExpression cn position buffer readString (n + k)
      = shiftResG k (shiftIds k) (convertImportExpression cn position buffer readString n) := by
  simp only [convertImportExpression]
  refine shift_bind' k (shiftIdsList k) (shiftIds k) _ _ _ _
    (fun n' => shift_convertNodeList k buffer cn hcn _ n') (fun a1 n1 => ?_) n
  refine shift_bind' k (shiftIds k) (shiftIds k) _ _ _ _
    (fun n' => hcn _ n') (fun a2 n2 => ?_) n1
  simp [mkNode, shiftResG, shiftIds, shiftIdsFields, shiftIdsList,
    shiftIds_indexKinds, Nat.add_right_comm]

theorem shift_convertImportNamespaceSpecifier (k : Nat) (buffer : Buffer) (readString : ReadString)
    (cn : Nat → DecM JSValue)
    (hcn : ∀ p n, cn p (n + k) = shiftResG k (shiftIds k) (cn p n))
    (position n : Nat) :
    convertImportNamespaceSpecifier cn position buffer readString (n + k)
      = shiftResG k (shiftIds k) (convertImportNamespaceSpecifier cn position buffer readString n) := by
  simp only [convertImportNamespaceSpecifier]
  refine shift_bind' k (shiftIds k) (shiftIds k) _ _ _ _
    (fun n' => hcn _ n') (fun a1 n1 => ?_) n
  simp [mkNode, shiftResG, shiftIds, shiftIdsFields, shiftIdsList,
    shiftIds_indexKinds, Nat.add_right_comm]

theorem shift_convertImportSpecifier (k : Nat) (buffer : Buffer) (readString : ReadString)
    (cn : Nat → DecM JSValue)
    (hcn : ∀ p n, cn p (n + k) = shiftResG k (shiftIds k) (cn p n))
    (position n : Nat) :
    convertImportSpecifier cn position buffer readString (n + k)
      = shiftResG k (shiftIds k) (convertImportSpecifier cn position buffer readString n) := by
  simp only [convertImportSpecifier]
  refine shift_bind' k (shiftIds k) (shiftIds k) _ _ _ _
    (fun n' => hcn _ n') (fun a1 n1 => ?_) n
  refine shift_bind' k (shiftIds k) (shiftIds k) _ _ _ _
    (fun n' => shift_opt k hcn _ _ a1 n') (fun a2 n2 => ?_) n1
  simp [mkNode, shiftResG, shiftIds, shiftIdsFields, shiftIdsList,
    shiftIds_indexKinds, Nat.add_right_comm]

theorem shift_convertLabeledStatement (k : Nat) (buffer : Buffer) (readString : ReadString)
    (cn : Nat → DecM JSValue)
    (hcn : ∀ p n, cn p (n + k) = shiftResG k (shiftIds k) (cn p n))
    (position n : Nat) :
    convertLabeledStatement cn position buffer readString (n + k)
      = shiftResG k (shiftIds k) (convertLabeledStatement cn position buffer readString n) := by
  simp only [convertLabeledStatement]
  refine shift_bind' k (shiftIds k) (shiftIds k) _ _ _ _
    (fun n' => hcn _ n') (fun a1 n1 => ?_) n
  refine shift_bind' k (shiftIds k) (shiftIds k) _ _ _ _
    (fun n' => hcn _ n') (fun a2 n2 => ?_) n1
  simp [mkNode, shiftResG, shiftIds, shiftIdsFields, shiftIdsList,
    shiftIds_indexKinds, Nat.add_right_comm]

theorem shift_convertLiteralString (k : Nat) (buffer : Buffer) (readString : ReadString)
    (cn : Nat → DecM JSValue)
    (hcn : ∀ p n, cn p (n + k) = shiftResG k (shiftIds k) (cn p n))
    (position n : Nat) :
    convertLiteralString cn position buffer readString (n + k)
      = shiftResG k (shiftIds k) (convertLiteralString cn position buffer readString n) := by
  simp only [convertLiteralString]
  by_cases hc : word buffer (position + 2) = 0 <;>
    simp [hc, mkNode, shiftResG, shiftIds, shiftIdsFields, shiftIdsList,
      Nat.add_right_comm]

theorem shift_convertLiteralBoolean (k : Nat) (buffer : Buffer) (readString : ReadString)
    (cn : Nat → DecM JSValue)
    (hcn : ∀ p n, cn p (n + k) = shiftResG k (shiftIds k) (cn p n))
    (position n : Nat) :
    convertLiteralBoolean cn position buffer readString (n + k)
      = shiftResG k (shiftIds k) (convertLiteralBoolean cn position buffer readString n) := by
  simp only [convertLiteralBoolean]
  simp [mkNode, shiftResG, shiftIds, shiftIdsFields, shiftIdsList,
    shiftIds_indexKinds, Nat.add_right_comm]

theorem shift_convertLiteralNumber (k : Nat) (buffer : Buffer) (readString : ReadString)
    (cn : Nat → DecM JSValue)
    (hcn : ∀ p n, cn p (n + k) = shiftResG k (shiftIds k) (cn p n))
    (position n : Nat) :
    convertLiteralNumber cn position buffer readString (n + k)
      = shiftResG k (shiftIds k) (convertLiteralNumber cn position buffer readString n) := by
  simp only [convertLiteralNumber]
  by_cases hc : word buffer (position + 2) = 0 <;>
    simp [hc, mkNode, shiftResG, shiftIds, shiftIdsFields, shiftIdsList,
      Nat.add_right_comm]

theorem shift_convertLiteralNull (k : Nat) (buffer : Buffer) (readString : ReadString)
    (cn : Nat → DecM JSValue)
    (hcn : ∀ p n, cn p (n + k) = shiftResG k (shiftIds k) (cn p n))
    (position n : Nat) :
    convertLiteralNull cn position buffer readString (n + k)
      = shiftResG k (shiftIds k) (convertLiteralNull cn position buffer readString n) := by
  simp only [convertLiteralNull]
  simp [mkNode, shiftResG, shiftIds, shiftIdsFields, shiftIdsList,
    shiftIds_indexKinds, Nat.add_right_comm]

theorem shift_convertLiteralRegExp (k : Nat) (buffer : Buffer) (readString : ReadString)
    (cn : Nat → DecM JSValue)
    (hcn : ∀ p n, cn p (n + k) = shiftResG k (shiftIds k) (cn p n))
    (position n : Nat) :
    convertLiteralRegExp cn position buffer readString (n + k)
      = shiftResG k (shiftIds k) (convertLiteralRegExp cn position buffer readString n) := by
  simp only [convertLiteralRegExp]
  refine shift_bind' k (shiftIds k) (shiftIds k) _ _ _ _
    (fun n' => by
      simp [mkNode, shiftResG, shiftIds, shiftIdsFields, Nat.add_right_comm]) (fun a1 n1 => ?_) n
  simp [mkNode, shiftResG, shiftIds, shiftIdsFields, shiftIdsList,
    shiftIds_indexKinds, Nat.add_right_comm]

theorem shift_convertLiteralBigInt (k : Nat) (buffer : Buffer) (readString : ReadString)
    (cn : Nat → DecM JSValue)
    (hcn : ∀ p n, cn p (n + k) = shiftResG k (shiftIds k) (cn p n))
    (position n : Nat) :
    convertLiteralBigInt cn position buffer readString (n + k)
      = shiftResG k (shiftIds k) (convertLiteralBigInt cn position buffer readString n) := by
  simp only [convertLiteralBigInt]
  simp [mkNode, shiftResG, shiftIds, shiftIdsFields, shiftIdsList,
    shiftIds_indexKinds, Nat.add_right_comm]

theorem shift_convertLogicalExpression (k : Nat) (buffer : Buffer) (readString : ReadString)
    (cn : Nat → DecM JSValue)
    (hcn : ∀ p n, cn p (n + k) = shiftResG k (shiftIds k) (cn p n))
    (position n : Nat) :
    convertLogicalExpression cn position buffer readString (n + k)
      = shiftResG k (shiftIds k) (convertLogicalExpression cn position buffer readString n) := by
  simp only [convertLogicalExpression]
  refine shift_bind' k (shiftIds k) (shiftIds k) _ _ _ _
    (fun n' => hcn _ n') (fun a1 n1 => ?_) n
  refine shift_bind' k (shiftIds k) (shiftIds k) _ _ _ _
    (fun n' => hcn _ n') (fun a2 n2 => ?_) n1
  simp [mkNode, shiftResG, shiftIds, shiftIdsFields, shiftIdsList,
    shiftIds_indexKinds, Nat.add_right_comm]

theorem shift_convertMemberExpression (k : Nat) (buffer : Buffer) (readString : ReadString)
    (cn : Nat → DecM JSValue)
    (hcn : ∀ p n, cn p (n + k) = shiftResG k (shiftIds k) (cn p n))
    (position n : Nat) :
    convertMemberExpression cn position buffer readString (n + k)
      = shiftResG k (shiftIds k) (convertMemberExpression cn position buffer readString n) := by
  simp only [convertMemberExpression]
  refine shift_bind' k (shiftIds k) (shiftIds k) _ _ _ _
    (fun n' => hcn _ n') (fun a1 n1 => ?_) n
  refine shift_bind' k (shiftIds k) (shiftIds k) _ _ _ _
    (fun n' => hcn _ n') (fun a2 n2 => ?_) n1
  simp [mkNode, shiftResG, shiftIds, shiftIdsFields, shiftIdsList,
    shiftIds_indexKinds, Nat.add_right_comm]

theorem shift_convertMetaProperty (k : Nat) (buffer : Buffer) (readString : ReadString)
    (cn : Nat → DecM JSValue)
    (hcn : ∀ p n, cn p (n + k) = shiftResG k (shiftIds k) (cn p n))
    (position n : Nat) :
    convertMetaProperty cn position buffer readString (n + k)
      = shiftResG k (shiftIds k) (convertMetaProperty cn position buffer readString n) := by
  simp only [convertMetaProperty]
  refine shift_bind' k (shiftIds k) (shiftIds k) _ _ _ _
    (fun n' => hcn _ n') (fun a1 n1 => ?_) n
  refine shift_bind' k (shiftIds k) (shiftIds k) _ _ _ _
    (fun n' => hcn _ n') (fun a2 n2 => ?_) n1
  simp [mkNode, shiftResG, shiftIds, shiftIdsFields, shiftIdsList,
    shiftIds_indexKinds, Nat.add_right_comm]

theorem shift_convertMethodDefinition (k : Nat) (buffer : Buffer) (readString : ReadString)
    (cn : Nat → DecM JSValue)
    (hcn : ∀ p n, cn p (n + k) = shiftResG k (shiftIds k) (cn p n))
    (position n : Nat) :
    convertMethodDefinition cn position buffer readString (n + k)
      = shiftResG k (shiftIds k) (convertMethodDefinition cn position buffer readString n) := by
  simp only [convertMethodDefinition]
  refine shift_bind' k (shiftIds k) (shiftIds k) _ _ _ _
    (fun n' => hcn _ n') (fun a1 n1 => ?_) n
  refine shift_bind' k (shiftIds k) (shiftIds k) _ _ _ _
    (fun n' => hcn _ n') (fun a2 n2 => ?_) n1
  simp [mkNode, shiftResG, shiftIds, shiftIdsFields, shiftIdsList,
    shiftIds_indexKinds, Nat.add_right_comm]

theorem shift_convertNewExpression (k : Nat) (buffer : Buffer) (readString : ReadString)
    (cn : Nat → DecM JSValue)
    (hcn : ∀ p n, cn p (n + k) = shiftResG k (shiftIds k) (cn p n))
    (position n : Nat) :
    convertNewExpression cn position buffer readString (n + k)
      = shiftResG k (shiftIds k) (convertNewExpression cn position buffer readString n) := by
  simp only [convertNewExpression]
  refine shift_bind' k (shiftIds k) (shiftIds k) _ _ _ _
    (fun n' => hcn _ n') (fun a1 n1 => ?_) n
  refine shift_bind' k (shiftIdsList k) (shiftIds k) _ _ _ _
    (fun n' => shift_optList k buffer hcn _ _ n') (fun a2 n2 => ?_) n1
  simp [mkNode, shiftResG, shiftIds, shiftIdsFields, shiftIdsList,
    shiftIds_indexKinds, Nat.add_right_comm]

theorem shift_convertObjectExpression (k : Nat) (buffer : Buffer) (readString : ReadString)
    (cn : Nat → DecM JSValue)
    (hcn : ∀ p n, cn p (n + k) = shiftResG k (shiftIds k) (cn p n))
    (position n : Nat) :
    convertObjectExpression cn position buffer readString (n + k)
      = shiftResG k (shiftIds k) (convertObjectExpression cn position buffer readString n) := by
  simp only [convertObjectExpression]
  refine shift_bind' k (shiftIdsList k) (shiftIds k) _ _ _ _
    (fun n' => shift_convertNodeList k buffer cn hcn _ n') (fun a1 n1 => ?_) n
  simp [mkNode, shiftResG, shiftIds, shiftIdsFields, shiftIdsList,
    shiftIds_indexKinds, Nat.add_right_comm]

theorem shift_convertObjectPattern (k : Nat) (buffer : Buffer) (readString : ReadString)
    (cn : Nat → DecM JSValue)
    (hcn : ∀ p n, cn p (n + k) = shiftResG k (shiftIds k) (cn p n))
    (position n : Nat) :
    convertObjectPattern cn position buffer readString (n + k)
      = shiftResG k (shiftIds k) (convertObjectPattern cn position buffer readString n) := by
  simp only [convertObjectPattern]
  refine shift_bind' k (shiftIdsList k) (shiftIds k) _ _ _ _
    (fun n' => shift_convertNodeList k buffer cn hcn _ n') (fun a1 n1 => ?_) n
  simp [mkNode, shiftResG, shiftIds, shiftIdsFields, shiftIdsList,
    shiftIds_indexKinds, Nat.add_right_comm]

theorem shift_convertPrivateIdentifier (k : Nat) (buffer : Buffer) (readString : ReadString)
    (cn : Nat → DecM JSValue)
    (hcn : ∀ p n, cn p (n + k) = shiftResG k (shiftIds k) (cn p n))
    (position n : Nat) :
    convertPrivateIdentifier cn position buffer readString (n + k)
      = shiftResG k (shiftIds k) (convertPrivateIdentifier cn position buffer readString n) := by
  simp only [convertPrivateIdentifier]
  simp [mkNode, shiftResG, shiftIds, shiftIdsFields, shiftIdsList,
    shiftIds_indexKinds, Nat.add_right_comm]

theorem shift_convertProgramNode (k : Nat) (buffer : Buffer) (readString : ReadString)
    (cn : Nat → DecM JSValue)
    (hcn : ∀ p n, cn p (n + k) = shiftResG k (shiftIds k) (cn p n))
    (position n : Nat) :
    convertProgramNode cn position buffer readString (n + k)
      = shiftResG k (shiftIds k) (convertProgramNode cn position buffer readString n) := by
  simp only [convertProgramNode]
  refine shift_bind' k (shiftIdsList k) (shiftIds k) _ _ _ _
    (fun n' => shift_convertNodeList k buffer cn hcn _ n') (fun a1 n1 => ?_) n
  simp [mkNode, shiftResG, shiftIds, shiftIdsFields, shiftIdsList,
    shiftIds_indexKinds, Nat.add_right_comm]

theorem shift_convertProperty (k : Nat) (buffer : Buffer) (readString : ReadString)
    (cn : Nat → DecM JSValue)
    (hcn : ∀ p n, cn p (n + k) = shiftResG k (shiftIds k) (cn p n))
    (position n : Nat) :
    convertProperty cn position buffer readString (n + k)
      = shiftResG k (shiftIds k) (convertProperty cn position buffer readString n) := by
  simp only [convertProperty]
  refine shift_bind' k (shiftIds k) (shiftIds k) _ _ _ _
    (fun n' => hcn _ n') (fun a1 n1 => ?_) n
  refine shift_bind' k (shiftIds k) (shiftIds k) _ _ _ _
    (fun n' => shift_opt k hcn _ _ a1 n') (fun a2 n2 => ?_) n1
  simp [mkNode, shiftResG, shiftIds, shiftIdsFields, shiftIdsList,
    shiftIds_indexKinds, Nat.add_right_comm]

theorem shift_convertPropertyDefinition (k : Nat) (buffer : Buffer) (readString : ReadString)
    (cn : Nat → DecM JSValue)
    (hcn : ∀ p n, cn p (n + k) = shiftResG k (shiftIds k) (cn p n))
    (position n : Nat) :
    convertPropertyDefinition cn position buffer readString (n + k)
      = shiftResG k (shiftIds k) (convertPropertyDefinition cn position buffer readString n) := by
  simp only [convertPropertyDefinition]
  refine shift_bind' k (shiftIds k) (shiftIds k) _ _ _ _
    (fun n' => hcn _ n') (fun a1 n1 => ?_) n
  refine shift_bind' k (shiftIds k) (shiftIds k) _ _ _ _
    (fun n' => shift_opt k hcn _ _ JSValue.vnull n') (fun a2 n2 => ?_) n1
  simp [mkNode, shiftResG, shiftIds, shiftIdsFields, shiftIdsList,
    shiftIds_indexKinds, Nat.add_right_comm]

theorem shift_convertRestElement (k : Nat) (buffer : Buffer) (readString : ReadString)
    (cn : Nat → DecM JSValue)
    (hcn : ∀ p n, cn p (n + k) = shiftResG k (shiftIds k) (cn p n))
    (position n : Nat) :
    convertRestElement cn position buffer readString (n + k)
      = shiftResG k (shiftIds k) (convertRestElement cn position buffer readString n) := by
  simp only [convertRestElement]
  refine shift_bind' k (shiftIds k) (shiftIds k) _ _ _ _
    (fun n' => hcn _ n') (fun a1 n1 => ?_) n
  simp [mkNode, shiftResG, shiftIds, shiftIdsFields, shiftIdsList,
    shiftIds_indexKinds, Nat.add_right_comm]

theorem shift_convertReturnStatement (k : Nat) (buffer : Buffer) (readString : ReadString)
    (cn : Nat → DecM JSValue)
    (hcn : ∀ p n, cn p (n + k) = shiftResG k (shiftIds k) (cn p n))
    (position n : Nat) :
    convertReturnStatement cn position buffer readString (n + k)
      = shiftResG k (shiftIds k) (convertReturnStatement cn position buffer readString n) := by
  simp only [convertReturnStatement]
  refine shift_bind' k (shiftIds k) (shiftIds k) _ _ _ _
    (fun n' => shift_opt k hcn _ _ JSValue.vnull n') (fun a1 n1 => ?_) n
  simp [mkNode, shiftResG, shiftIds, shiftIdsFields, shiftIdsList,
    shiftIds_indexKinds, Nat.add_right_comm]

theorem shift_convertSequenceExpression (k : Nat) (buffer : Buffer) (readString : ReadString)
    (cn : Nat → DecM JSValue)
    (hcn : ∀ p n, cn p (n + k) = shiftResG k (shiftIds k) (cn p n))
    (position n : Nat) :
    convertSequenceExpression cn position buffer readString (n + k)
      = shiftResG k (shiftIds k) (convertSequenceExpression cn position buffer readString n) := by
  simp only [convertSequenceExpression]
  refine shift_bind' k (shiftIdsList k) (shiftIds k) _ _ _ _
    (fun n' => shift_convertNodeList k buffer cn hcn _ n') (fun a1 n1 => ?_) n
  simp [mkNode, shiftResG, shiftIds, shiftIdsFields, shiftIdsList,
    shiftIds_indexKinds, Nat.add_right_comm]

theorem shift_convertSpreadElement (k : Nat) (buffer : Buffer) (readString : ReadString)
    (cn : Nat → DecM JSValue)
    (hcn : ∀ p n, cn p (n + k) = shiftResG k (shiftIds k) (cn p n))
    (position n : Nat) :
    convertSpreadElement cn position buffer readString (n + k)
      = shiftResG k (shiftIds k) (convertSpreadElement cn position buffer readString n) := by
  simp only [convertSpreadElement]
  refine shift_bind' k (shiftIds k) (shiftIds k) _ _ _ _
    (fun n' => hcn _ n') (fun a1 n1 => ?_) n
  simp [mkNode, shiftResG, shiftIds, shiftIdsFields, shiftIdsList,
    shiftIds_indexKinds, Nat.add_right_comm]

theorem shift_convertStaticBlock (k : Nat) (buffer : Buffer) (readString : ReadString)
    (cn : Nat → DecM JSValue)
    (hcn : ∀ p n, cn p (n + k) = shiftResG k (shiftIds k) (cn p n))
    (position n : Nat) :
    convertStaticBlock cn position buffer readString (n + k)
      = shiftResG k (shiftIds k) (convertStaticBlock cn position buffer readString n) := by
  simp only [convertStaticBlock]
  refine shift_bind' k (shiftIdsList k) (shiftIds k) _ _ _ _
    (fun n' => shift_convertNodeList k buffer cn hcn _ n') (fun a1 n1 => ?_) n
  simp [mkNode, shiftResG, shiftIds, shiftIdsFields, shiftIdsList,
    shiftIds_indexKinds, Nat.add_right_comm]

theorem shift_convertSuper (k : Nat) (buffer : Buffer) (readString : ReadString)
    (cn : Nat → DecM JSValue)
    (hcn : ∀ p n, cn p (n + k) = shiftResG k (shiftIds k) (cn p n))
    (position n : Nat) :
    convertSuper cn position buffer readString (n + k)
      = shiftResG k (shiftIds k) (convertSuper cn position buffer readString n) := by
  simp only [convertSuper]
  simp [mkNode, shiftResG, shiftIds, shiftIdsFields, shiftIdsList,
    shiftIds_indexKinds, Nat.add_right_comm]

theorem shift_convertSwitchCase (k : Nat) (buffer : Buffer) (readString : ReadString)
    (cn : Nat → DecM JSValue)
    (hcn : ∀ p n, cn p (n + k) = shiftResG k (shiftIds k) (cn p n))
    (position n : Nat) :
    convertSwitchCase cn position buffer readString (n + k)
      = shiftResG k (shiftIds k) (convertSwitchCase cn position buffer readString n) := by
  simp only [convertSwitchCase]
  refine shift_bind' k (shiftIdsList k) (shiftIds k) _ _ _ _
    (fun n' => shift_convertNodeList k buffer cn hcn _ n') (fun a1 n1 => ?_) n
  refine shift_bind' k (shiftIds k) (shiftIds k) _ _ _ _
    (fun n' => shift_opt k hcn _ _ JSValue.vnull n') (fun a2 n2 => ?_) n1
  simp [mkNode, shiftResG, shiftIds, shiftIdsFields, shiftIdsList,
    shiftIds_indexKinds, Nat.add_right_comm]

theorem shift_convertSwitchStatement (k : Nat) (buffer : Buffer) (readString : ReadString)
    (cn : Nat → DecM JSValue)
    (hcn : ∀ p n, cn p (n + k) = shiftResG k (shiftIds k) (cn p n))
    (position n : Nat) :
    convertSwitchStatement cn position buffer readString (n + k)
      = shiftResG k (shiftIds k) (convertSwitchStatement cn position buffer readString n) := by
  simp only [convertSwitchStatement]
  refine shift_bind' k (shiftIds k) (shiftIds k) _ _ _ _
    (fun n' => hcn _ n') (fun a1 n1 => ?_) n
  refine shift_bind' k (shiftIdsList k) (shiftIds k) _ _ _ _
    (fun n' => shift_convertNodeList k buffer cn hcn _ n') (fun a2 n2 => ?_) n1
  simp [mkNode, shiftResG, shiftIds, shiftIdsFields, shiftIdsList,
    shiftIds_indexKinds, Nat.add_right_comm]

theorem shift_convertThisExpression (k : Nat) (buffer : Buffer) (readString : ReadString)
    (cn : Nat → DecM JSValue)
    (hcn : ∀ p n, cn p (n + k) = shiftResG k (shiftIds k) (cn p n))
    (position n : Nat) :
    convertThisExpression cn position buffer readString (n + k)
      = shiftResG k (shiftIds k) (convertThisExpression cn position buffer readString n) := by
  simp only [convertThisExpression]
  simp [mkNode, shiftResG, shiftIds, shiftIdsFields, shiftIdsList,
    shiftIds_indexKinds, Nat.add_right_comm]

theorem shift_convertThrowStatement (k : Nat) (buffer : Buffer) (readString : ReadString)
    (cn : Nat → DecM JSValue)
    (hcn : ∀ p n, cn p (n + k) = shiftResG k (shiftIds k) (cn p n))
    (position n : Nat) :
    convertThrowStatement cn position buffer readString (n + k)
      = shiftResG k (shiftIds k) (convertThrowStatement cn position buffer readString n) := by
  simp only [convertThrowStatement]
  refine shift_bind' k (shiftIds k) (shiftIds k) _ _ _ _
    (fun n' => hcn _ n') (fun a1 n1 => ?_) n
  simp [mkNode, shiftResG, shiftIds, shiftIdsFields, shiftIdsList,
    shiftIds_indexKinds, Nat.add_right_comm]

theorem shift_convertTryStatement (k : Nat) (buffer : Buffer) (readString : ReadString)
    (cn : Nat → DecM JSValue)
    (hcn : ∀ p n, cn p (n + k) = shiftResG k (shiftIds k) (cn p n))
    (position n : Nat) :
    convertTryStatement cn position buffer readString (n + k)
      = shiftResG k (shiftIds k) (convertTryStatement cn position buffer readString n) := by
  simp only [convertTryStatement]
  refine shift_bind' k (shiftIds k) (shiftIds k) _ _ _ _
    (fun n' => hcn _ n') (fun a1 n1 => ?_) n
  refine shift_bind' k (shiftIds k) (shiftIds k) _ _ _ _
    (fun n' => shift_opt k hcn _ _ JSValue.vnull n') (fun a2 n2 => ?_) n1
  refine shift_bind' k (shiftIds k) (shiftIds k) _ _ _ _
    (fun n' => shift_opt k hcn _ _ JSValue.vnull n') (fun a3 n3 => ?_) n2
  simp [mkNode, shiftResG, shiftIds, shiftIdsFields, shiftIdsList,
    shiftIds_indexKinds, Nat.add_right_comm]

theorem shift_convertVariableDeclaration (k : Nat) (buffer : Buffer) (readString : ReadString)
    (cn : Nat → DecM JSValue)
    (hcn : ∀ p n, cn p (n + k) = shiftResG k (shiftIds k) (cn p n))
    (position n : Nat) :
    convertVariableDeclaration cn position buffer readString (n + k)
      = shiftResG k (shiftIds k) (convertVariableDeclaration cn position buffer readString n) := by
  simp only [convertVariableDeclaration]
  refine shift_bind' k (shiftIdsList k) (shiftIds k) _ _ _ _
    (fun n' => shift_convertNodeList k buffer cn hcn _ n') (fun a1 n1 => ?_) n
  simp [mkNode, shiftResG, shiftIds, shiftIdsFields, shiftIdsList,
    shiftIds_indexKinds, Nat.add_right_comm]

theorem shift_convertVariableDeclarator (k : Nat) (buffer : Buffer) (readString : ReadString)
    (cn : Nat → DecM JSValue)
    (hcn : ∀ p n, cn p (n + k) = shiftResG k (shiftIds k) (cn p n))
    (position n : Nat) :
    convertVariableDeclarator cn position buffer readString (n + k)
      = shiftResG k (shiftIds k) (convertVariableDeclarator cn position buffer readString n) := by
  simp only [convertVariableDeclarator]
  refine shift_bind' k (shiftIds k) (shiftIds k) _ _ _ _
    (fun n' => hcn _ n') (fun a1 n1 => ?_) n
  refine shift_bind' k (shiftIds k) (shiftIds k) _ _ _ _
    (fun n' => shift_opt k hcn _ _ JSValue.vnull n') (fun a2 n2 => ?_) n1
  simp [mkNode, shiftResG, shiftIds, shiftIdsFields, shiftIdsList,
    shiftIds_indexKinds, Nat.add_right_comm]

theorem shift_convertWhileStatement (k : Nat) (buffer : Buffer) (readString : ReadString)
    (cn : Nat → DecM JSValue)
    (hcn : ∀ p n, cn p (n + k) = shiftResG k (shiftIds k) (cn p n))
    (position n : Nat) :
    convertWhileStatement cn position buffer readString (n + k)
      = shiftResG k (shiftIds k) (convertWhileStatement cn position buffer readString n) := by
  simp only [convertWhileStatement]
  refine shift_bind' k (shiftIds k) (shiftIds k) _ _ _ _
    (fun n' => hcn _ n') (fun a1 n1 => ?_) n
  refine shift_bind' k (shiftIds k) (shiftIds k) _ _ _ _
    (fun n' => hcn _ n') (fun a2 n2 => ?_) n1
  simp [mkNode, shiftResG, shiftIds, shiftIdsFields, shiftIdsList,
    shiftIds_indexKinds, Nat.add_right_comm]

theorem shift_convertAssignmentPatternProperty (k : Nat) (buffer : Buffer) (readString : ReadString)
    (cn : Nat → DecM JSValue)
    (hcn : ∀ p n, cn p (n + k) = shiftResG k (shiftIds k) (cn p n))
    (position n : Nat) :
    convertAssignmentPatternProperty cn position buffer readString (n + k)
      = shiftResG k (shiftIds k) (convertAssignmentPatternProperty cn position buffer readString n) := by
  simp only [convertAssignmentPatternProperty]
  refine shift_bind' k (shiftIds k) (shiftIds k) _ _ _ _
    (fun n' => hcn _ n') (fun a1 n1 => ?_) n
  refine shift_bind' k (shiftIds k) (shiftIds k) _ _ _ _
    (fun n' => shift_opt k hcn _ _ a1 n') (fun a2 n2 => ?_) n1
  simp [mkNode, shiftResG, shiftIds, shiftIdsFields, shiftIdsList,
    shiftIds_indexKinds, Nat.add_right_comm]

theorem convertNode_shift (k : Nat) (buffer : Buffer) (readString : ReadString) :
    ∀ fuel position n,
      convertNode fuel position buffer readString (n + k)
        = shiftResG k (shiftIds k) (convertNode fuel position buffer readString n) := by
  intro fuel
  induction fuel with
  | zero => intro position n; rfl
  | succ fuel ih =>
    intro position n
    rw [convertNode]
    set t := word buffer position with ht
    rcases Nat.lt_or_ge t 77 with hlt | hge
    · interval_cases t
      · exact shift_convertArrayExpression k buffer readString _ (fun p n' => ih p n')
          (position + 1) n
      · exact shift_convertArrayPattern k buffer readString _ (fun p n' => ih p n')
          (position + 1) n
      · exact shift_convertArrowFunctionExpression k buffer readString _ (fun p n' => ih p n')
          (position + 1) n
      · exact shift_convertAssignmentExpression k buffer readString _ (fun p n' => ih p n')
          (position + 1) n
      · exact shift_convertAssignmentPattern k buffer readString _ (fun p n' => ih p n')
          (position + 1) n
      · exact shift_convertAwaitExpression k buffer readString _ (fun p n' => ih p n')
          (position + 1) n
      · exact shift_convertBinaryExpression k buffer readString _ (fun p n' => ih p n')
          (position + 1) n
      · exact shift_convertBlockStatement k buffer readString _ (fun p n' => ih p n')
          (position + 1) n
      · exact shift_convertBreakStatement k buffer readString _ (fun p n' => ih p n')
          (position + 1) n
      · exact shift_convertCallExpression k buffer readString _ (fun p n' => ih p n')
          (position + 1) n
      · exact shift_convertCatchClause k buffer readString _ (fun p n' => ih p n')
          (position + 1) n
      · exact shift_convertChainExpression k buffer readString _ (fun p n' => ih p n')
          (position + 1) n
      · exact shift_convertClassBody k buffer readString _ (fun p n' => ih p n')
          (position + 1) n
      · exact shift_convertClassDeclaration k buffer readString _ (fun p n' => ih p n')
          (position + 1) n
      · exact shift_convertClassExpression k buffer readString _ (fun p n' => ih p n')
          (position + 1) n
      · exact shift_convertConditionalExpression k buffer readString _ (fun p n' => ih p n')
          (position + 1) n
      · exact shift_convertContinueStatement k buffer readString _ (fun p n' => ih p n')
          (position + 1) n
      · exact shift_convertDebuggerStatement k buffer readString _ (fun p n' => ih p n')
          (position + 1) n
      · exact shift_convertDoWhileStatement k buffer readString _ (fun p n' => ih p n')
          (position + 1) n
      · exact shift_convertEmptyStatement k buffer readString _ (fun p n' => ih p n')
          (position + 1) n
      · exact shift_convertExportAllDeclaration k buffer readString _ (fun p n' => ih p n')
          (position + 1) n
      · exact shift_convertExportDefaultDeclaration k buffer readString _ (fun p n' => ih p n')
          (position + 1) n
      · exact shift_convertExportNamedDeclaration k buffer readString _ (fun p n' => ih p n')
          (position + 1) n
      · exact shift_convertExportSpecifier k buffer readString _ (fun p n' => ih p n')
          (position + 1) n
      · exact shift_convertExpressionStatement k buffer readString _ (fun p n' => ih p n')
          (position + 1) n
      · exact shift_convertForInStatement k buffer readString _ (fun p n' => ih p n')
          (position + 1) n
      · exact shift_convertForOfStatement k buffer readString _ (fun p n' => ih p n')
          (position + 1) n
      · exact shift_convertForStatement k buffer readString _ (fun p n' => ih p n')
          (position + 1) n
      · exact shift_convertFunctionDeclaration k buffer readString _ (fun p n' => ih p n')
          (position + 1) n
      · exact shift_convertFunctionExpression k buffer readString _ (fun p n' => ih p n')
          (position + 1) n
      · exact shift_convertIdentifier k buffer readString _ (fun p n' => ih p n')
          (position + 1) n
      · exact shift_convertIfStatement k buffer readString _ (fun p n' => ih p n')
          (position + 1) n
      · exact shift_convertImportAttribute k buffer readString _ (fun p n' => ih p n')
          (position + 1) n
      · exact shift_convertImportDeclaration k buffer readString _ (fun p n' => ih p n')
          (position + 1) n
      · exact shift_convertImportDefaultSpecifier k buffer readString _ (fun p n' => ih p n')
          (position + 1) n
      · exact shift_convertImportExpression k buffer readString _ (fun p n' => ih p n')
          (position + 1) n
      · exact shift_convertImportNamespaceSpecifier k buffer readString _ (fun p n' => ih p n')
          (position + 1) n
      · exact shift_convertImportSpecifier k buffer readString _ (fun p n' => ih p n')
          (position + 1) n
      · exact shift_convertLabeledStatement k buffer readString _ (fun p n' => ih p n')
          (position + 1) n
      · exact shift_convertLiteralString k buffer readString _ (fun p n' => ih p n')
          (position + 1) n
      · exact shift_convertLiteralBoolean k buffer readString _ (fun p n' => ih p n')
          (position + 1) n
      · exact shift_convertLiteralNumber k buffer readString _ (fun p n' => ih p n')
          (position + 1) n
      · exact shift_convertLiteralNull k buffer readString _ (fun p n' => ih p n')
          (position + 1) n
      · exact shift_convertLiteralRegExp k buffer readString _ (fun p n' => ih p n')
          (position + 1) n
      · exact shift_convertLiteralBigInt k buffer readString _ (fun p n' => ih p n')
          (position + 1) n
      · exact shift_convertLogicalExpression k buffer readString _ (fun p n' => ih p n')
          (position + 1) n
      · exact shift_convertMemberExpression k buffer readString _ (fun p n' => ih p n')
          (position + 1) n
      · exact shift_convertMetaProperty k buffer readString _ (fun p n' => ih p n')
          (position + 1) n
      · exact shift_convertMethodDefinition k buffer readString _ (fun p n' => ih p n')
          (position + 1) n
      · exact shift_convertNewExpression k buffer readString _ (fun p n' => ih p n')
          (position + 1) n
      · exact shift_convertObjectExpression k buffer readString _ (fun p n' => ih p n')
          (position + 1) n
      · exact shift_convertObjectPattern k buffer readString _ (fun p n' => ih p n')
          (position + 1) n
      · exact shift_convertPrivateIdentifier k buffer readString _ (fun p n' => ih p n')
          (position + 1) n
      · exact shift_convertProgramNode k buffer readString _ (fun p n' => ih p n')
          (position + 1) n
      · exact shift_convertProperty k buffer readString _ (fun p n' => ih p n')
          (position + 1) n
      · exact shift_convertPropertyDefinition k buffer readString _ (fun p n' => ih p n')
          (position + 1) n
      · exact shift_convertRestElement k buffer readString _ (fun p n' => ih p n')
          (position + 1) n
      · exact shift_convertReturnStatement k buffer readString _ (fun p n' => ih p n')
          (position + 1) n
      · exact shift_convertSequenceExpression k buffer readString _ (fun p n' => ih p n')
          (position + 1) n
      · exact shift_convertSpreadElement k buffer readString _ (fun p n' => ih p n')
          (position + 1) n
      · exact shift_convertStaticBlock k buffer readString _ (fun p n' => ih p n')
          (position + 1) n
      · exact shift_convertSuper k buffer readString _ (fun p n' => ih p n')
          (position + 1) n
      · exact shift_convertSwitchCase k buffer readString _ (fun p n' => ih p n')
          (position + 1) n
      · exact shift_convertSwitchStatement k buffer readString _ (fun p n' => ih p n')
          (position + 1) n
      · rfl
      · rfl
      · rfl
      · exact shift_convertThisExpression k buffer readString _ (fun p n' => ih p n')
          (position + 1) n
      · exact shift_convertThrowStatement k buffer readString _ (fun p n' => ih p n')
          (position + 1) n
      · exact shift_convertTryStatement k buffer readString _ (fun p n' => ih p n')
          (position + 1) n
      · rfl
      · rfl
      · exact shift_convertVariableDeclaration k buffer readString _ (fun p n' => ih p n')
          (position + 1) n
      · exact shift_convertVariableDeclarator k buffer readString _ (fun p n' => ih p n')
          (position + 1) n
      · exact shift_convertWhileStatement k buffer readString _ (fun p n' => ih p n')
          (position + 1) n
      · rfl
      · exact shift_convertAssignmentPatternProperty k buffer readString _ (fun p n' => ih p n')
          (position + 1) n
    · rw [List.getD_eq_default _ _ (by simpa [nodeConverters] using hge)]
      rfl


mutual
/-- Structural (value) equality view of decoded values: erases the allocation
identifiers, keeping everything observable by a structural comparison of two
decoded trees. -/
def eraseIds : JSValue → JSValue
  | .vobj _ fields => .vobj 0 (eraseIdsFields fields)
  | .varr elements => .varr (eraseIdsList elements)
  | v => v

def eraseIdsList : List JSValue → List JSValue
  | [] => []
  | v :: rest => eraseIds v :: eraseIdsList rest

def eraseIdsFields : List (String × JSValue) → List (String × JSValue)
  | [] => []
  | (name, v) :: rest => (name, eraseIds v) :: eraseIdsFields rest
end

mutual
theorem eraseIds_shiftIds (k : Nat) : (v : JSValue) →
    eraseIds (shiftIds k v) = eraseIds v
  | .vundefined => rfl
  | .vnull => rfl
  | .vbool _ => rfl
  | .vnat _ => rfl
  | .vstr _ => rfl
  | .vfloat _ => rfl
  | .vbigintFromString _ => rfl
  | .vregexpFromStrings _ _ => rfl
  | .varr elements => by
    rw [shiftIds, eraseIds, eraseIds, eraseIdsList_shiftIdsList k elements]
  | .vobj id fields => by
    rw [shiftIds, eraseIds, eraseIds, eraseIdsFields_shiftIdsFields k fields]

theorem eraseIdsList_shiftIdsList (k : Nat) : (l : List JSValue) →
    eraseIdsList (shiftIdsList k l) = eraseIdsList l
  | [] => rfl
  | v :: rest => by
    rw [shiftIdsList, eraseIdsList, eraseIdsList, eraseIds_shiftIds k v,
      eraseIdsList_shiftIdsList k rest]

theorem eraseIdsFields_shiftIdsFields (k : Nat) : (l : List (String × JSValue)) →
    eraseIdsFields (shiftIdsFields k l) = eraseIdsFields l
  | [] => rfl
  | (name, v) :: rest => by
    rw [shiftIdsFields, eraseIdsFields, eraseIdsFields, eraseIds_shiftIds k v,
      eraseIdsFields_shiftIdsFields k rest]
end
theorem shape_convertArrayExpression (cn : Nat → DecM JSValue) (p : Nat) (buffer : Buffer)
    (readString : ReadString) (n : Nat) (v : JSValue) (m : Nat)
    (h : convertArrayExpression cn p buffer readString n = .ok (v, m)) :
    ∃ id fields, v = .vobj id fields ∧
      lookupField fields "start" = some (.vnat (word buffer p)) ∧
      lookupField fields "end" = some (.vnat (word buffer (p + 1))) := by
  simp only [convertArrayExpression] at h
  obtain ⟨a1, n1, -, h⟩ := bind_ok_elim h
  simp only [mkNode] at h
  cases h
  exact ⟨_, _, rfl, rfl, rfl⟩

theorem shape_convertArrayPattern (cn : Nat → DecM JSValue) (p : Nat) (buffer : Buffer)
    (readString : ReadString) (n : Nat) (v : JSValue) (m : Nat)
    (h : convertArrayPattern cn p buffer readString n = .ok (v, m)) :
    ∃ id fields, v = .vobj id fields ∧
      lookupField fields "start" = some (.vnat (word buffer p)) ∧
      lookupField fields "end" = some (.vnat (word buffer (p + 1))) := by
  simp only [convertArrayPattern] at h
  obtain ⟨a1, n1, -, h⟩ := bind_ok_elim h
  simp only [mkNode] at h
  cases h
  exact ⟨_, _, rfl, rfl, rfl⟩

theorem shape_convertArrowFunctionExpression (cn : Nat → DecM JSValue) (p : Nat) (buffer : Buffer)
    (readString : ReadString) (n : Nat) (v : JSValue) (m : Nat)
    (h : convertArrowFunctionExpression cn p buffer readString n = .ok (v, m)) :
    ∃ id fields, v = .vobj id fields ∧
      lookupField fields "start" = some (.vnat (word buffer p)) ∧
      lookupField fields "end" = some (.vnat (word buffer (p + 1))) := by
  simp only [convertArrowFunctionExpression] at h
  obtain ⟨a1, n1, -, h⟩ := bind_ok_elim h
  obtain ⟨a2, n2, -, h⟩ := bind_ok_elim h
  simp only [mkNode] at h
  cases h
  exact ⟨_, _, rfl, rfl, rfl⟩

theorem shape_convertAssignmentExpression (cn : Nat → DecM JSValue) (p : Nat) (buffer : Buffer)
    (readString : ReadString) (n : Nat) (v : JSValue) (m : Nat)
    (h : convertAssignmentExpression cn p buffer readString n = .ok (v, m)) :
    ∃ id fields, v = .vobj id fields ∧
      lookupField fields "start" = some (.vnat (word buffer p)) ∧
      lookupField fields "end" = some (.vnat (word buffer (p + 1))) := by
  simp only [convertAssignmentExpression] at h
  obtain ⟨a1, n1, -, h⟩ := bind_ok_elim h
  obtain ⟨a2, n2, -, h⟩ := bind_ok_elim h
  simp only [mkNode] at h
  cases h
  exact ⟨_, _, rfl, rfl, rfl⟩

theorem shape_convertAssignmentPattern (cn : Nat → DecM JSValue) (p : Nat) (buffer : Buffer)
    (readString : ReadString) (n : Nat) (v : JSValue) (m : Nat)
    (h : convertAssignmentPattern cn p buffer readString n = .ok (v, m)) :
    ∃ id fields, v = .vobj id fields ∧
      lookupField fields "start" = some (.vnat (word buffer p)) ∧
      lookupField fields "end" = some (.vnat (word buffer (p + 1))) := by
  simp only [convertAssignmentPattern] at h
  obtain ⟨a1, n1, -, h⟩ := bind_ok_elim h
  obtain ⟨a2, n2, -, h⟩ := bind_ok_elim h
  simp only [mkNode] at h
  cases h
  exact ⟨_, _, rfl, rfl, rfl⟩

theorem shape_convertAwaitExpression (cn : Nat → DecM JSValue) (p : Nat) (buffer : Buffer)
    (readString : ReadString) (n : Nat) (v : JSValue) (m : Nat)
    (h : convertAwaitExpression cn p buffer readString n = .ok (v, m)) :
    ∃ id fields, v = .vobj id fields ∧
      lookupField fields "start" = some (.vnat (word buffer p)) ∧
      lookupField fields "end" = some (.vnat (word buffer (p + 1))) := by
  simp only [convertAwaitExpression] at h
  obtain ⟨a1, n1, -, h⟩ := bind_ok_elim h
  simp only [mkNode] at h
  cases h
  exact ⟨_, _, rfl, rfl, rfl⟩

theorem shape_convertBinaryExpression (cn : Nat → DecM JSValue) (p : Nat) (buffer : Buffer)
    (readString : ReadString) (n : Nat) (v : JSValue) (m : Nat)
    (h : convertBinaryExpression cn p buffer readString n = .ok (v, m)) :
    ∃ id fields, v = .vobj id fields ∧
      lookupField fields "start" = some (.vnat (word buffer p)) ∧
      lookupField fields "end" = some (.vnat (word buffer (p + 1))) := by
  simp only [convertBinaryExpression] at h
  obtain ⟨a1, n1, -, h⟩ := bind_ok_elim h
  obtain ⟨a2, n2, -, h⟩ := bind_ok_elim h
  simp only [mkNode] at h
  cases h
  exact ⟨_, _, rfl, rfl, rfl⟩

theorem shape_convertBlockStatement (cn : Nat → DecM JSValue) (p : Nat) (buffer : Buffer)
    (readString : ReadString) (n : Nat) (v : JSValue) (m : Nat)
    (h : convertBlockStatement cn p buffer readString n = .ok (v, m)) :
    ∃ id fields, v = .vobj id fields ∧
      lookupField fields "start" = some (.vnat (word buffer p)) ∧
      lookupField fields "end" = some (.vnat (word buffer (p + 1))) := by
  simp only [convertBlockStatement] at h
  obtain ⟨a1, n1, -, h⟩ := bind_ok_elim h
  simp only [mkNode] at h
  cases h
  exact ⟨_, _, rfl, rfl, rfl⟩

theorem shape_convertBreakStatement (cn : Nat → DecM JSValue) (p : Nat) (buffer : Buffer)
    (readString : ReadString) (n : Nat) (v : JSValue) (m : Nat)
    (h : convertBreakStatement cn p buffer readString n = .ok (v, m)) :
    ∃ id fields, v = .vobj id fields ∧
      lookupField fields "start" = some (.vnat (word buffer p)) ∧
      lookupField fields "end" = some (.vnat (word buffer (p + 1))) := by
  simp only [convertBreakStatement] at h
  obtain ⟨a1, n1, -, h⟩ := bind_ok_elim h
  simp only [mkNode] at h
  cases h
  exact ⟨_, _, rfl, rfl, rfl⟩

theorem shape_convertCallExpression (cn : Nat → DecM JSValue) (p : Nat) (buffer : Buffer)
    (readString : ReadString) (n : Nat) (v : JSValue) (m : Nat)
    (h : convertCallExpression cn p buffer readString n = .ok (v, m)) :
    ∃ id fields, v = .vobj id fields ∧
      lookupField fields "start" = some (.vnat (word buffer p)) ∧
      lookupField fields "end" = some (.vnat (word buffer (p + 1))) := by
  simp only [convertCallExpression] at h
  obtain ⟨a1, n1, -, h⟩ := bind_ok_elim h
  obtain ⟨a2, n2, -, h⟩ := bind_ok_elim h
  simp only [mkNode] at h
  cases h
  exact ⟨_, _, rfl, rfl, rfl⟩

theorem shape_convertCatchClause (cn : Nat → DecM JSValue) (p : Nat) (buffer : Buffer)
    (readString : ReadString) (n : Nat) (v : JSValue) (m : Nat)
    (h : convertCatchClause cn p buffer readString n = .ok (v, m)) :
    ∃ id fields, v = .vobj id fields ∧
      lookupField fields "start" = some (.vnat (word buffer p)) ∧
      lookupField fields "end" = some (.vnat (word buffer (p + 1))) := by
  simp only [convertCatchClause] at h
  obtain ⟨a1, n1, -, h⟩ := bind_ok_elim h
  obtain ⟨a2, n2, -, h⟩ := bind_ok_elim h
  simp only [mkNode] at h
  cases h
  exact ⟨_, _, rfl, rfl, rfl⟩

theorem shape_convertChainExpression (cn : Nat → DecM JSValue) (p : Nat) (buffer : Buffer)
    (readString : ReadString) (n : Nat) (v : JSValue) (m : Nat)
    (h : convertChainExpression cn p buffer readString n = .ok (v, m)) :
    ∃ id fields, v = .vobj id fields ∧
      lookupField fields "start" = some (.vnat (word buffer p)) ∧
      lookupField fields "end" = some (.vnat (word buffer (p + 1))) := by
  simp only [convertChainExpression] at h
  obtain ⟨a1, n1, -, h⟩ := bind_ok_elim h
  simp only [mkNode] at h
  cases h
  exact ⟨_, _, rfl, rfl, rfl⟩

theorem shape_convertClassBody (cn : Nat → DecM JSValue) (p : Nat) (buffer : Buffer)
    (readString : ReadString) (n : Nat) (v : JSValue) (m : Nat)
    (h : convertClassBody cn p buffer readString n = .ok (v, m)) :
    ∃ id fields, v = .vobj id fields ∧
      lookupField fields "start" = some (.vnat (word buffer p)) ∧
      lookupField fields "end" = some (.vnat (word buffer (p + 1))) := by
  simp only [convertClassBody] at h
  obtain ⟨a1, n1, -, h⟩ := bind_ok_elim h
  simp only [mkNode] at h
  cases h
  exact ⟨_, _, rfl, rfl, rfl⟩

theorem shape_convertClassDeclaration (cn : Nat → DecM JSValue) (p : Nat) (buffer : Buffer)
    (readString : ReadString) (n : Nat) (v : JSValue) (m : Nat)
    (h : convertClassDeclaration cn p buffer readString n = .ok (v, m)) :
    ∃ id fields, v = .vobj id fields ∧
      lookupField fields "start" = some (.vnat (word buffer p)) ∧
      lookupField fields "end" = some (.vnat (word buffer (p + 1))) := by
  simp only [convertClassDeclaration] at h
  obtain ⟨a1, n1, -, h⟩ := bind_ok_elim h
  obtain ⟨a2, n2, -, h⟩ := bind_ok_elim h
  obtain ⟨a3, n3, -, h⟩ := bind_ok_elim h
  simp only [mkNode] at h
  cases h
  exact ⟨_, _, rfl, rfl, rfl⟩

theorem shape_convertClassExpression (cn : Nat → DecM JSValue) (p : Nat) (buffer : Buffer)
    (readString : ReadString) (n : Nat) (v : JSValue) (m : Nat)
    (h : convertClassExpression cn p buffer readString n = .ok (v, m)) :
    ∃ id fields, v = .vobj id fields ∧
      lookupField fields "start" = some (.vnat (word buffer p)) ∧
      lookupField fields "end" = some (.vnat (word buffer (p + 1))) := by
  simp only [convertClassExpression] at h
  obtain ⟨a1, n1, -, h⟩ := bind_ok_elim h
  obtain ⟨a2, n2, -, h⟩ := bind_ok_elim h
  obtain ⟨a3, n3, -, h⟩ := bind_ok_elim h
  simp only [mkNode] at h
  cases h
  exact ⟨_, _, rfl, rfl, rfl⟩

theorem shape_convertConditionalExpression (cn : Nat → DecM JSValue) (p : Nat) (buffer : Buffer)
    (readString : ReadString) (n : Nat) (v : JSValue) (m : Nat)
    (h : convertConditionalExpression cn p buffer readString n = .ok (v, m)) :
    ∃ id fields, v = .vobj id fields ∧
      lookupField fields "start" = some (.vnat (word buffer p)) ∧
      lookupField fields "end" = some (.vnat (word buffer (p + 1))) := by
  simp only [convertConditionalExpression] at h
  obtain ⟨a1, n1, -, h⟩ := bind_ok_elim h
  obtain ⟨a2, n2, -, h⟩ := bind_ok_elim h
  obtain ⟨a3, n3, -, h⟩ := bind_ok_elim h
  simp only [mkNode] at h
  cases h
  exact ⟨_, _, rfl, rfl, rfl⟩

theorem shape_convertContinueStatement (cn : Nat → DecM JSValue) (p : Nat) (buffer : Buffer)
    (readString : ReadString) (n : Nat) (v : JSValue) (m : Nat)
    (h : convertContinueStatement cn p buffer readString n = .ok (v, m)) :
    ∃ id fields, v = .vobj id fields ∧
      lookupField fields "start" = some (.vnat (word buffer p)) ∧
      lookupField fields "end" = some (.vnat (word buffer (p + 1))) := by
  simp only [convertContinueStatement] at h
  obtain ⟨a1, n1, -, h⟩ := bind_ok_elim h
  simp only [mkNode] at h
  cases h
  exact ⟨_, _, rfl, rfl, rfl⟩

theorem shape_convertDebuggerStatement (cn : Nat → DecM JSValue) (p : Nat) (buffer : Buffer)
    (readString : ReadString) (n : Nat) (v : JSValue) (m : Nat)
    (h : convertDebuggerStatement cn p buffer readString n = .ok (v, m)) :
    ∃ id fields, v = .vobj id fields ∧
      lookupField fields "start" = some (.vnat (word buffer p)) ∧
      lookupField fields "end" = some (.vnat (word buffer (p + 1))) := by
  simp only [convertDebuggerStatement] at h
  simp only [mkNode] at h
  cases h
  exact ⟨_, _, rfl, rfl, rfl⟩

theorem shape_convertDoWhileStatement (cn : Nat → DecM JSValue) (p : Nat) (buffer : Buffer)
    (readString : ReadString) (n : Nat) (v : JSValue) (m : Nat)
    (h : convertDoWhileStatement cn p buffer readString n = .ok (v, m)) :
    ∃ id fields, v = .vobj id fields ∧
      lookupField fields "start" = some (.vnat (word buffer p)) ∧
      lookupField fields "end" = some (.vnat (word buffer (p + 1))) := by
  simp only [convertDoWhileStatement] at h
  obtain ⟨a1, n1, -, h⟩ := bind_ok_elim h
  obtain ⟨a2, n2, -, h⟩ := bind_ok_elim h
  simp only [mkNode] at h
  cases h
  exact ⟨_, _, rfl, rfl, rfl⟩

theorem shape_convertEmptyStatement (cn : Nat → DecM JSValue) (p : Nat) (buffer : Buffer)
    (readString : ReadString) (n : Nat) (v : JSValue) (m : Nat)
    (h : convertEmptyStatement cn p buffer readString n = .ok (v, m)) :
    ∃ id fields, v = .vobj id fields ∧
      lookupField fields "start" = some (.vnat (word buffer p)) ∧
      lookupField fields "end" = some (.vnat (word buffer (p + 1))) := by
  simp only [convertEmptyStatement] at h
  simp only [mkNode] at h
  cases h
  exact ⟨_, _, rfl, rfl, rfl⟩

theorem shape_convertExportAllDeclaration (cn : Nat → DecM JSValue) (p : Nat) (buffer : Buffer)
    (readString : ReadString) (n : Nat) (v : JSValue) (m : Nat)
    (h : convertExportAllDeclaration cn p buffer readString n = .ok (v, m)) :
    ∃ id fields, v = .vobj id fields ∧
      lookupField fields "start" = some (.vnat (word buffer p)) ∧
      lookupField fields "end" = some (.vnat (word buffer (p + 1))) := by
  simp only [convertExportAllDeclaration] at h
  obtain ⟨a1, n1, -, h⟩ := bind_ok_elim h
  obtain ⟨a2, n2, -, h⟩ := bind_ok_elim h
  obtain ⟨a3, n3, -, h⟩ := bind_ok_elim h
  simp only [mkNode] at h
  cases h
  exact ⟨_, _, rfl, rfl, rfl⟩

theorem shape_convertExportDefaultDeclaration (cn : Nat → DecM JSValue) (p : Nat) (buffer : Buffer)
    (readString : ReadString) (n : Nat) (v : JSValue) (m : Nat)
    (h : convertExportDefaultDeclaration cn p buffer readString n = .ok (v, m)) :
    ∃ id fields, v = .vobj id fields ∧
      lookupField fields "start" = some (.vnat (word buffer p)) ∧
      lookupField fields "end" = some (.vnat (word buffer (p + 1))) := by
  simp only [convertExportDefaultDeclaration] at h
  obtain ⟨a1, n1, -, h⟩ := bind_ok_elim h
  simp only [mkNode] at h
  cases h
  exact ⟨_, _, rfl, rfl, rfl⟩

theorem shape_convertExportNamedDeclaration (cn : Nat → DecM JSValue) (p : Nat) (buffer : Buffer)
    (readString : ReadString) (n : Nat) (v : JSValue) (m : Nat)
    (h : convertExportNamedDeclaration cn p buffer readString n = .ok (v, m)) :
    ∃ id fields, v = .vobj id fields ∧
      lookupField fields "start" = some (.vnat (word buffer p)) ∧
      lookupField fields "end" = some (.vnat (word buffer (p + 1))) := by
  simp only [convertExportNamedDeclaration] at h
  obtain ⟨a1, n1, -, h⟩ := bind_ok_elim h
  obtain ⟨a2, n2, -, h⟩ := bind_ok_elim h
  obtain ⟨a3, n3, -, h⟩ := bind_ok_elim h
  obtain ⟨a4, n4, -, h⟩ := bind_ok_elim h
  simp only [mkNode] at h
  cases h
  exact ⟨_, _, rfl, rfl, rfl⟩

theorem shape_convertExportSpecifier (cn : Nat → DecM JSValue) (p : Nat) (buffer : Buffer)
    (readString : ReadString) (n : Nat) (v : JSValue) (m : Nat)
    (h : convertExportSpecifier cn p buffer readString n = .ok (v, m)) :
    ∃ id fields, v = .vobj id fields ∧
      lookupField fields "start" = some (.vnat (word buffer p)) ∧
      lookupField fields "end" = some (.vnat (word buffer (p + 1))) := by
  simp only [convertExportSpecifier] at h
  obtain ⟨a1, n1, -, h⟩ := bind_ok_elim h
  obtain ⟨a2, n2, -, h⟩ := bind_ok_elim h
  simp only [mkNode] at h
  cases h
  exact ⟨_, _, rfl, rfl, rfl⟩

theorem shape_convertExpressionStatement (cn : Nat → DecM JSValue) (p : Nat) (buffer : Buffer)
    (readString : ReadString) (n : Nat) (v : JSValue) (m : Nat)
    (h : convertExpressionStatement cn p buffer readString n = .ok (v, m)) :
    ∃ id fields, v = .vobj id fields ∧
      lookupField fields "start" = some (.vnat (word buffer p)) ∧
      lookupField fields "end" = some (.vnat (word buffer (p + 1))) := by
  simp only [convertExpressionStatement] at h
  obtain ⟨a1, n1, -, h⟩ := bind_ok_elim h
  simp only [mkNode] at h
  cases h
  exact ⟨_, _, rfl, rfl, rfl⟩

theorem shape_convertForInStatement (cn : Nat → DecM JSValue) (p : Nat) (buffer : Buffer)
    (readString : ReadString) (n : Nat) (v : JSValue) (m : Nat)
    (h : convertForInStatement cn p buffer readString n = .ok (v, m)) :
    ∃ id fields, v = .vobj id fields ∧
      lookupField fields "start" = some (.vnat (word buffer p)) ∧
      lookupField fields "end" = some (.vnat (word buffer (p + 1))) := by
  simp only [convertForInStatement] at h
  obtain ⟨a1, n1, -, h⟩ := bind_ok_elim h
  obtain ⟨a2, n2, -, h⟩ := bind_ok_elim h
  obtain ⟨a3, n3, -, h⟩ := bind_ok_elim h
  simp only [mkNode] at h
  cases h
  exact ⟨_, _, rfl, rfl, rfl⟩

theorem shape_convertForOfStatement (cn : Nat → DecM JSValue) (p : Nat) (buffer : Buffer)
    (readString : ReadString) (n : Nat) (v : JSValue) (m : Nat)
    (h : convertForOfStatement cn p buffer readString n = .ok (v, m)) :
    ∃ id fields, v = .vobj id fields ∧
      lookupField fields "start" = some (.vnat (word buffer p)) ∧
      lookupField fields "end" = some (.vnat (word buffer (p + 1))) := by
  simp only [convertForOfStatement] at h
  obtain ⟨a1, n1, -, h⟩ := bind_ok_elim h
  obtain ⟨a2, n2, -, h⟩ := bind_ok_elim h
  obtain ⟨a3, n3, -, h⟩ := bind_ok_elim h
  simp only [mkNode] at h
  cases h
  exact ⟨_, _, rfl, rfl, rfl⟩

theorem shape_convertForStatement (cn : Nat → DecM JSValue) (p : Nat) (buffer : Buffer)
    (readString : ReadString) (n : Nat) (v : JSValue) (m : Nat)
    (h : convertForStatement cn p buffer readString n = .ok (v, m)) :
    ∃ id fields, v = .vobj id fields ∧
      lookupField fields "start" = some (.vnat (word buffer p)) ∧
      lookupField fields "end" = some (.vnat (word buffer (p + 1))) := by
  simp only [convertForStatement] at h
  obtain ⟨a1, n1, -, h⟩ := bind_ok_elim h
  obtain ⟨a2, n2, -, h⟩ := bind_ok_elim h
  obtain ⟨a3, n3, -, h⟩ := bind_ok_elim h
  obtain ⟨a4, n4, -, h⟩ := bind_ok_elim h
  simp only [mkNode] at h
  cases h
  exact ⟨_, _, rfl, rfl, rfl⟩

theorem shape_convertFunctionDeclaration (cn : Nat → DecM JSValue) (p : Nat) (buffer : Buffer)
    (readString : ReadString) (n : Nat) (v : JSValue) (m : Nat)
    (h : convertFunctionDeclaration cn p buffer readString n = .ok (v, m)) :
    ∃ id fields, v = .vobj id fields ∧
      lookupField fields "start" = some (.vnat (word buffer p)) ∧
      lookupField fields "end" = some (.vnat (word buffer (p + 1))) := by
  simp only [convertFunctionDeclaration] at h
  obtain ⟨a1, n1, -, h⟩ := bind_ok_elim h
  obtain ⟨a2, n2, -, h⟩ := bind_ok_elim h
  obtain ⟨a3, n3, -, h⟩ := bind_ok_elim h
  simp only [mkNode] at h
  cases h
  exact ⟨_, _, rfl, rfl, rfl⟩

theorem shape_convertFunctionExpression (cn : Nat → DecM JSValue) (p : Nat) (buffer : Buffer)
    (readString : ReadString) (n : Nat) (v : JSValue) (m : Nat)
    (h : convertFunctionExpression cn p buffer readString n = .ok (v, m)) :
    ∃ id fields, v = .vobj id fields ∧
      lookupField fields "start" = some (.vnat (word buffer p)) ∧
      lookupField fields "end" = some (.vnat (word buffer (p + 1))) := by
  simp only [convertFunctionExpression] at h
  obtain ⟨a1, n1, -, h⟩ := bind_ok_elim h
  obtain ⟨a2, n2, -, h⟩ := bind_ok_elim h
  obtain ⟨a3, n3, -, h⟩ := bind_ok_elim h
  simp only [mkNode] at h
  cases h
  exact ⟨_, _, rfl, rfl, rfl⟩

theorem shape_convertIdentifier (cn : Nat → DecM JSValue) (p : Nat) (buffer : Buffer)
    (readString : ReadString) (n : Nat) (v : JSValue) (m : Nat)
    (h : convertIdentifier cn p buffer readString n = .ok (v, m)) :
    ∃ id fields, v = .vobj id fields ∧
      lookupField fields "start" = some (.vnat (word buffer p)) ∧
      lookupField fields "end" = some (.vnat (word buffer (p + 1))) := by
  simp only [convertIdentifier] at h
  simp only [mkNode] at h
  cases h
  exact ⟨_, _, rfl, rfl, rfl⟩

theorem shape_convertIfStatement (cn : Nat → DecM JSValue) (p : Nat) (buffer : Buffer)
    (readString : ReadString) (n : Nat) (v : JSValue) (m : Nat)
    (h : convertIfStatement cn p buffer readString n = .ok (v, m)) :
    ∃ id fields, v = .vobj id fields ∧
      lookupField fields "start" = some (.vnat (word buffer p)) ∧
      lookupField fields "end" = some (.vnat (word buffer (p + 1))) := by
  simp only [convertIfStatement] at h
  obtain ⟨a1, n1, -, h⟩ := bind_ok_elim h
  obtain ⟨a2, n2, -, h⟩ := bind_ok_elim h
  obtain ⟨a3, n3, -, h⟩ := bind_ok_elim h
  simp only [mkNode] at h
  cases h
  exact ⟨_, _, rfl, rfl, rfl⟩

theorem shape_convertImportAttribute (cn : Nat → DecM JSValue) (p : Nat) (buffer : Buffer)
    (readString : ReadString) (n : Nat) (v : JSValue) (m : Nat)
    (h : convertImportAttribute cn p buffer readString n = .ok (v, m)) :
    ∃ id fields, v = .vobj id fields ∧
      lookupField fields "start" = some (.vnat (word buffer p)) ∧
      lookupField fields "end" = some (.vnat (word buffer (p + 1))) := by
  simp only [convertImportAttribute] at h
  obtain ⟨a1, n1, -, h⟩ := bind_ok_elim h
  obtain ⟨a2, n2, -, h⟩ := bind_ok_elim h
  simp only [mkNode] at h
  cases h
  exact ⟨_, _, rfl, rfl, rfl⟩

theorem shape_convertImportDeclaration (cn : Nat → DecM JSValue) (p : Nat) (buffer : Buffer)
    (readString : ReadString) (n : Nat) (v : JSValue) (m : Nat)
    (h : convertImportDeclaration cn p buffer readString n = .ok (v, m)) :
    ∃ id fields, v = .vobj id fields ∧
      lookupField fields "start" = some (.vnat (word buffer p)) ∧
      lookupField fields "end" = some (.vnat (word buffer (p + 1))) := by
  simp only [convertImportDeclaration] at h
  obtain ⟨a1, n1, -, h⟩ := bind_ok_elim h
  obtain ⟨a2, n2, -, h⟩ := bind_ok_elim h
  obtain ⟨a3, n3, -, h⟩ := bind_ok_elim h
  simp only [mkNode] at h
  cases h
  exact ⟨_, _, rfl, rfl, rfl⟩

theorem shape_convertImportDefaultSpecifier (cn : Nat → DecM JSValue) (p : Nat) (buffer : Buffer)
    (readString : ReadString) (n : Nat) (v : JSValue) (m : Nat)
    (h : convertImportDefaultSpecifier cn p buffer readString n = .ok (v, m)) :
    ∃ id fields, v = .vobj id fields ∧
      lookupField fields "start" = some (.vnat (word buffer p)) ∧
      lookupField fields "end" = some (.vnat (word buffer (p + 1))) := by
  simp only [convertImportDefaultSpecifier] at h
  obtain ⟨a1, n1, -, h⟩ := bind_ok_elim h
  simp only [mkNode] at h
  cases h
  exact ⟨_, _, rfl, rfl, rfl⟩

theorem shape_convertImportExpression (cn : Nat → DecM JSValue) (p : Nat) (buffer : Buffer)
    (readString : ReadString) (n : Nat) (v : JSValue) (m : Nat)
    (h : convertImportExpression cn p buffer readString n = .ok (v, m)) :
    ∃ id fields, v = .vobj id fields ∧
      lookupField fields "start" = some (.vnat (word buffer p)) ∧
      lookupField fields "end" = some (.vnat (word buffer (p + 1))) := by
  simp only [convertImportExpression] at h
  obtain ⟨a1, n1, -, h⟩ := bind_ok_elim h
  obtain ⟨a2, n2, -, h⟩ := bind_ok_elim h
  simp only [mkNode] at h
  cases h
  exact ⟨_, _, rfl, rfl, rfl⟩

theorem shape_convertImportNamespaceSpecifier (cn : Nat → DecM JSValue) (p : Nat) (buffer : Buffer)
    (readString : ReadString) (n : Nat) (v : JSValue) (m : Nat)
    (h : convertImportNamespaceSpecifier cn p buffer readString n = .ok (v, m)) :
    ∃ id fields, v = .vobj id fields ∧
      lookupField fields "start" = some (.vnat (word buffer p)) ∧
      lookupField fields "end" = some (.vnat (word buffer (p + 1))) := by
  simp only [convertImportNamespaceSpecifier] at h
  obtain ⟨a1, n1, -, h⟩ := bind_ok_elim h
  simp only [mkNode] at h
  cases h
  exact ⟨_, _, rfl, rfl, rfl⟩

theorem shape_convertImportSpecifier (cn : Nat → DecM JSValue) (p : Nat) (buffer : Buffer)
    (readString : ReadString) (n : Nat) (v : JSValue) (m : Nat)
    (h : convertImportSpecifier cn p buffer readString n = .ok (v, m)) :
    ∃ id fields, v = .vobj id fields ∧
      lookupField fields "start" = some (.vnat (word buffer p)) ∧
      lookupField fields "end" = some (.vnat (word buffer (p + 1))) := by
  simp only [convertImportSpecifier] at h
  obtain ⟨a1, n1, -, h⟩ := bind_ok_elim h
  obtain ⟨a2, n2, -, h⟩ := bind_ok_elim h
  simp only [mkNode] at h
  cases h
  exact ⟨_, _, rfl, rfl, rfl⟩

theorem shape_convertLabeledStatement (cn : Nat → DecM JSValue) (p : Nat) (buffer : Buffer)
    (readString : ReadString) (n : Nat) (v : JSValue) (m : Nat)
    (h : convertLabeledStatement cn p buffer readString n = .ok (v, m)) :
    ∃ id fields, v = .vobj id fields ∧
      lookupField fields "start" = some (.vnat (word buffer p)) ∧
      lookupField fields "end" = some (.vnat (word buffer (p + 1))) := by
  simp only [convertLabeledStatement] at h
  obtain ⟨a1, n1, -, h⟩ := bind_ok_elim h
  obtain ⟨a2, n2, -, h⟩ := bind_ok_elim h
  simp only [mkNode] at h
  cases h
  exact ⟨_, _, rfl, rfl, rfl⟩

theorem shape_convertLiteralString (cn : Nat → DecM JSValue) (p : Nat) (buffer : Buffer)
    (readString : ReadString) (n : Nat) (v : JSValue) (m : Nat)
    (h : convertLiteralString cn p buffer readString n = .ok (v, m)) :
    ∃ id fields, v = .vobj id fields ∧
      lookupField fields "start" = some (.vnat (word buffer p)) ∧
      lookupField fields "end" = some (.vnat (word buffer (p + 1))) := by
  simp only [convertLiteralString] at h
  simp only [mkNode] at h
  cases h
  exact ⟨_, _, rfl, rfl, rfl⟩

theorem shape_convertLiteralBoolean (cn : Nat → DecM JSValue) (p : Nat) (buffer : Buffer)
    (readString : ReadString) (n : Nat) (v : JSValue) (m : Nat)
    (h : convertLiteralBoolean cn p buffer readString n = .ok (v, m)) :
    ∃ id fields, v = .vobj id fields ∧
      lookupField fields "start" = some (.vnat (word buffer p)) ∧
      lookupField fields "end" = some (.vnat (word buffer (p + 1))) := by
  simp only [convertLiteralBoolean] at h
  simp only [mkNode] at h
  cases h
  exact ⟨_, _, rfl, rfl, rfl⟩

theorem shape_convertLiteralNumber (cn : Nat → DecM JSValue) (p : Nat) (buffer : Buffer)
    (readString : ReadString) (n : Nat) (v : JSValue) (m : Nat)
    (h : convertLiteralNumber cn p buffer readString n = .ok (v, m)) :
    ∃ id fields, v = .vobj id fields ∧
      lookupField fields "start" = some (.vnat (word buffer p)) ∧
      lookupField fields "end" = some (.vnat (word buffer (p + 1))) := by
  simp only [convertLiteralNumber] at h
  simp only [mkNode] at h
  cases h
  exact ⟨_, _, rfl, rfl, rfl⟩

theorem shape_convertLiteralNull (cn : Nat → DecM JSValue) (p : Nat) (buffer : Buffer)
    (readString : ReadString) (n : Nat) (v : JSValue) (m : Nat)
    (h : convertLiteralNull cn p buffer readString n = .ok (v, m)) :
    ∃ id fields, v = .vobj id fields ∧
      lookupField fields "start" = some (.vnat (word buffer p)) ∧
      lookupField fields "end" = some (.vnat (word buffer (p + 1))) := by
  simp only [convertLiteralNull] at h
  simp only [mkNode] at h
  cases h
  exact ⟨_, _, rfl, rfl, rfl⟩

theorem shape_convertLiteralRegExp (cn : Nat → DecM JSValue) (p : Nat) (buffer : Buffer)
    (readString : ReadString) (n : Nat) (v : JSValue) (m : Nat)
    (h : convertLiteralRegExp cn p buffer readString n = .ok (v, m)) :
    ∃ id fields, v = .vobj id fields ∧
      lookupField fields "start" = some (.vnat (word buffer p)) ∧
      lookupField fields "end" = some (.vnat (word buffer (p + 1))) := by
  simp only [convertLiteralRegExp] at h
  obtain ⟨a1, n1, -, h⟩ := bind_ok_elim h
  simp only [mkNode] at h
  cases h
  exact ⟨_, _, rfl, rfl, rfl⟩

theorem shape_convertLiteralBigInt (cn : Nat → DecM JSValue) (p : Nat) (buffer : Buffer)
    (readString : ReadString) (n : Nat) (v : JSValue) (m : Nat)
    (h : convertLiteralBigInt cn p buffer readString n = .ok (v, m)) :
    ∃ id fields, v = .vobj id fields ∧
      lookupField fields "start" = some (.vnat (word buffer p)) ∧
      lookupField fields "end" = some (.vnat (word buffer (p + 1))) := by
  simp only [convertLiteralBigInt] at h
  simp only [mkNode] at h
  cases h
  exact ⟨_, _, rfl, rfl, rfl⟩

theorem shape_convertLogicalExpression (cn : Nat → DecM JSValue) (p : Nat) (buffer : Buffer)
    (readString : ReadString) (n : Nat) (v : JSValue) (m : Nat)
    (h : convertLogicalExpression cn p buffer readString n = .ok (v, m)) :
    ∃ id fields, v = .vobj id fields ∧
      lookupField fields "start" = some (.vnat (word buffer p)) ∧
      lookupField fields "end" = some (.vnat (word buffer (p + 1))) := by
  simp only [convertLogicalExpression] at h
  obtain ⟨a1, n1, -, h⟩ := bind_ok_elim h
  obtain ⟨a2, n2, -, h⟩ := bind_ok_elim h
  simp only [mkNode] at h
  cases h
  exact ⟨_, _, rfl, rfl, rfl⟩

theorem shape_convertMemberExpression (cn : Nat → DecM JSValue) (p : Nat) (buffer : Buffer)
    (readString : ReadString) (n : Nat) (v : JSValue) (m : Nat)
    (h : convertMemberExpression cn p buffer readString n = .ok (v, m)) :
    ∃ id fields, v = .vobj id fields ∧
      lookupField fields "start" = some (.vnat (word buffer p)) ∧
      lookupField fields "end" = some (.vnat (word buffer (p + 1))) := by
  simp only [convertMemberExpression] at h
  obtain ⟨a1, n1, -, h⟩ := bind_ok_elim h
  obtain ⟨a2, n2, -, h⟩ := bind_ok_elim h
  simp only [mkNode] at h
  cases h
  exact ⟨_, _, rfl, rfl, rfl⟩

theorem shape_convertMetaProperty (cn : Nat → DecM JSValue) (p : Nat) (buffer : Buffer)
    (readString : ReadString) (n : Nat) (v : JSValue) (m : Nat)
    (h : convertMetaProperty cn p buffer readString n = .ok (v, m)) :
    ∃ id fields, v = .vobj id fields ∧
      lookupField fields "start" = some (.vnat (word buffer p)) ∧
      lookupField fields "end" = some (.vnat (word buffer (p + 1))) := by
  simp only [convertMetaProperty] at h
  obtain ⟨a1, n1, -, h⟩ := bind_ok_elim h
  obtain ⟨a2, n2, -, h⟩ := bind_ok_elim h
  simp only [mkNode] at h
  cases h
  exact ⟨_, _, rfl, rfl, rfl⟩

theorem shape_convertMethodDefinition (cn : Nat → DecM JSValue) (p : Nat) (buffer : Buffer)
    (readString : ReadString) (n : Nat) (v : JSValue) (m : Nat)
    (h : convertMethodDefinition cn p buffer readString n = .ok (v, m)) :
    ∃ id fields, v = .vobj id fields ∧
      lookupField fields "start" = some (.vnat (word buffer p)) ∧
      lookupField fields "end" = some (.vnat (word buffer (p + 1))) := by
  simp only [convertMethodDefinition] at h
  obtain ⟨a1, n1, -, h⟩ := bind_ok_elim h
  obtain ⟨a2, n2, -, h⟩ := bind_ok_elim h
  simp only [mkNode] at h
  cases h
  exact ⟨_, _, rfl, rfl, rfl⟩

theorem shape_convertNewExpression (cn : Nat → DecM JSValue) (p : Nat) (buffer : Buffer)
    (readString : ReadString) (n : Nat) (v : JSValue) (m : Nat)
    (h : convertNewExpression cn p buffer readString n = .ok (v, m)) :
    ∃ id fields, v = .vobj id fields ∧
      lookupField fields "start" = some (.vnat (word buffer p)) ∧
      lookupField fields "end" = some (.vnat (word buffer (p + 1))) := by
  simp only [convertNewExpression] at h
  obtain ⟨a1, n1, -, h⟩ := bind_ok_elim h
  obtain ⟨a2, n2, -, h⟩ := bind_ok_elim h
  simp only [mkNode] at h
  cases h
  exact ⟨_, _, rfl, rfl, rfl⟩

theorem shape_convertObjectExpression (cn : Nat → DecM JSValue) (p : Nat) (buffer : Buffer)
    (readString : ReadString) (n : Nat) (v : JSValue) (m : Nat)
    (h : convertObjectExpression cn p buffer readString n = .ok (v, m)) :
    ∃ id fields, v = .vobj id fields ∧
      lookupField fields "start" = some (.vnat (word buffer p)) ∧
      lookupField fields "end" = some (.vnat (word buffer (p + 1))) := by
  simp only [convertObjectExpression] at h
  obtain ⟨a1, n1, -, h⟩ := bind_ok_elim h
  simp only [mkNode] at h
  cases h
  exact ⟨_, _, rfl, rfl, rfl⟩

theorem shape_convertObjectPattern (cn : Nat → DecM JSValue) (p : Nat) (buffer : Buffer)
    (readString : ReadString) (n : Nat) (v : JSValue) (m : Nat)
    (h : convertObjectPattern cn p buffer readString n = .ok (v, m)) :
    ∃ id fields, v = .vobj id fields ∧
      lookupField fields "start" = some (.vnat (word buffer p)) ∧
      lookupField fields "end" = some (.vnat (word buffer (p + 1))) := by
  simp only [convertObjectPattern] at h
  obtain ⟨a1, n1, -, h⟩ := bind_ok_elim h
  simp only [mkNode] at h
  cases h
  exact ⟨_, _, rfl, rfl, rfl⟩

theorem shape_convertPrivateIdentifier (cn : Nat → DecM JSValue) (p : Nat) (buffer : Buffer)
    (readString : ReadString) (n : Nat) (v : JSValue) (m : Nat)
    (h : convertPrivateIdentifier cn p buffer readString n = .ok (v, m)) :
    ∃ id fields, v = .vobj id fields ∧
      lookupField fields "start" = some (.vnat (word buffer p)) ∧
      lookupField fields "end" = some (.vnat (word buffer (p + 1))) := by
  simp only [convertPrivateIdentifier] at h
  simp only [mkNode] at h
  cases h
  exact ⟨_, _, rfl, rfl, rfl⟩

theorem shape_convertProgramNode (cn : Nat → DecM JSValue) (p : Nat) (buffer : Buffer)
    (readString : ReadString) (n : Nat) (v : JSValue) (m : Nat)
    (h : convertProgramNode cn p buffer readString n = .ok (v, m)) :
    ∃ id fields, v = .vobj id fields ∧
      lookupField fields "start" = some (.vnat (word buffer p)) ∧
      lookupField fields "end" = some (.vnat (word buffer (p + 1))) := by
  simp only [convertProgramNode] at h
  obtain ⟨a1, n1, -, h⟩ := bind_ok_elim h
  simp only [mkNode] at h
  cases h
  exact ⟨_, _, rfl, rfl, rfl⟩

theorem shape_convertProperty (cn : Nat → DecM JSValue) (p : Nat) (buffer : Buffer)
    (readString : ReadString) (n : Nat) (v : JSValue) (m : Nat)
    (h : convertProperty cn p buffer readString n = .ok (v, m)) :
    ∃ id fields, v = .vobj id fields ∧
      lookupField fields "start" = some (.vnat (word buffer p)) ∧
      lookupField fields "end" = some (.vnat (word buffer (p + 1))) := by
  simp only [convertProperty] at h
  obtain ⟨a1, n1, -, h⟩ := bind_ok_elim h
  obtain ⟨a2, n2, -, h⟩ := bind_ok_elim h
  simp only [mkNode] at h
  cases h
  exact ⟨_, _, rfl, rfl, rfl⟩

theorem shape_convertPropertyDefinition (cn : Nat → DecM JSValue) (p : Nat) (buffer : Buffer)
    (readString : ReadString) (n : Nat) (v : JSValue) (m : Nat)
    (h : convertPropertyDefinition cn p buffer readString n = .ok (v, m)) :
    ∃ id fields, v = .vobj id fields ∧
      lookupField fields "start" = some (.vnat (word buffer p)) ∧
      lookupField fields "end" = some (.vnat (word buffer (p + 1))) := by
  simp only [convertPropertyDefinition] at h
  obtain ⟨a1, n1, -, h⟩ := bind_ok_elim h
  obtain ⟨a2, n2, -, h⟩ := bind_ok_elim h
  simp only [mkNode] at h
  cases h
  exact ⟨_, _, rfl, rfl, rfl⟩

theorem shape_convertRestElement (cn : Nat → DecM JSValue) (p : Nat) (buffer : Buffer)
    (readString : ReadString) (n : Nat) (v : JSValue) (m : Nat)
    (h : convertRestElement cn p buffer readString n = .ok (v, m)) :
    ∃ id fields, v = .vobj id fields ∧
      lookupField fields "start" = some (.vnat (word buffer p)) ∧
      lookupField fields "end" = some (.vnat (word buffer (p + 1))) := by
  simp only [convertRestElement] at h
  obtain ⟨a1, n1, -, h⟩ := bind_ok_elim h
  simp only [mkNode] at h
  cases h
  exact ⟨_, _, rfl, rfl, rfl⟩

theorem shape_convertReturnStatement (cn : Nat → DecM JSValue) (p : Nat) (buffer : Buffer)
    (readString : ReadString) (n : Nat) (v : JSValue) (m : Nat)
    (h : convertReturnStatement cn p buffer readString n = .ok (v, m)) :
    ∃ id fields, v = .vobj id fields ∧
      lookupField fields "start" = some (.vnat (word buffer p)) ∧
      lookupField fields "end" = some (.vnat (word buffer (p + 1))) := by
  simp only [convertReturnStatement] at h
  obtain ⟨a1, n1, -, h⟩ := bind_ok_elim h
  simp only [mkNode] at h
  cases h
  exact ⟨_, _, rfl, rfl, rfl⟩

theorem shape_convertSequenceExpression (cn : Nat → DecM JSValue) (p : Nat) (buffer : Buffer)
    (readString : ReadString) (n : Nat) (v : JSValue) (m : Nat)
    (h : convertSequenceExpression cn p buffer readString n = .ok (v, m)) :
    ∃ id fields, v = .vobj id fields ∧
      lookupField fields "start" = some (.vnat (word buffer p)) ∧
      lookupField fields "end" = some (.vnat (word buffer (p + 1))) := by
  simp only [convertSequenceExpression] at h
  obtain ⟨a1, n1, -, h⟩ := bind_ok_elim h
  simp only [mkNode] at h
  cases h
  exact ⟨_, _, rfl, rfl, rfl⟩

theorem shape_convertSpreadElement (cn : Nat → DecM JSValue) (p : Nat) (buffer : Buffer)
    (readString : ReadString) (n : Nat) (v : JSValue) (m : Nat)
    (h : convertSpreadElement cn p buffer readString n = .ok (v, m)) :
    ∃ id fields, v = .vobj id fields ∧
      lookupField fields "start" = some (.vnat (word buffer p)) ∧
      lookupField fields "end" = some (.vnat (word buffer (p + 1))) := by
  simp only [convertSpreadElement] at h
  obtain ⟨a1, n1, -, h⟩ := bind_ok_elim h
  simp only [mkNode] at h
  cases h
  exact ⟨_, _, rfl, rfl, rfl⟩

theorem shape_convertStaticBlock (cn : Nat → DecM JSValue) (p : Nat) (buffer : Buffer)
    (readString : ReadString) (n : Nat) (v : JSValue) (m : Nat)
    (h : convertStaticBlock cn p buffer readString n = .ok (v, m)) :
    ∃ id fields, v = .vobj id fields ∧
      lookupField fields "start" = some (.vnat (word buffer p)) ∧
      lookupField fields "end" = some (.vnat (word buffer (p + 1))) := by
  simp only [convertStaticBlock] at h
  obtain ⟨a1, n1, -, h⟩ := bind_ok_elim h
  simp only [mkNode] at h
  cases h
  exact ⟨_, _, rfl, rfl, rfl⟩

theorem shape_convertSuper (cn : Nat → DecM JSValue) (p : Nat) (buffer : Buffer)
    (readString : ReadString) (n : Nat) (v : JSValue) (m : Nat)
    (h : convertSuper cn p buffer readString n = .ok (v, m)) :
    ∃ id fields, v = .vobj id fields ∧
      lookupField fields "start" = some (.vnat (word buffer p)) ∧
      lookupField fields "end" = some (.vnat (word buffer (p + 1))) := by
  simp only [convertSuper] at h
  simp only [mkNode] at h
  cases h
  exact ⟨_, _, rfl, rfl, rfl⟩

theorem shape_convertSwitchCase (cn : Nat → DecM JSValue) (p : Nat) (buffer : Buffer)
    (readString : ReadString) (n : Nat) (v : JSValue) (m : Nat)
    (h : convertSwitchCase cn p buffer readString n = .ok (v, m)) :
    ∃ id fields, v = .vobj id fields ∧
      lookupField fields "start" = some (.vnat (word buffer p)) ∧
      lookupField fields "end" = some (.vnat (word buffer (p + 1))) := by
  simp only [convertSwitchCase] at h
  obtain ⟨a1, n1, -, h⟩ := bind_ok_elim h
  obtain ⟨a2, n2, -, h⟩ := bind_ok_elim h
  simp only [mkNode] at h
  cases h
  exact ⟨_, _, rfl, rfl, rfl⟩

theorem shape_convertSwitchStatement (cn : Nat → DecM JSValue) (p : Nat) (buffer : Buffer)
    (readString : ReadString) (n : Nat) (v : JSValue) (m : Nat)
    (h : convertSwitchStatement cn p buffer readString n = .ok (v, m)) :
    ∃ id fields, v = .vobj id fields ∧
      lookupField fields "start" = some (.vnat (word buffer p)) ∧
      lookupField fields "end" = some (.vnat (word buffer (p + 1))) := by
  simp only [convertSwitchStatement] at h
  obtain ⟨a1, n1, -, h⟩ := bind_ok_elim h
  obtain ⟨a2, n2, -, h⟩ := bind_ok_elim h
  simp only [mkNode] at h
  cases h
  exact ⟨_, _, rfl, rfl, rfl⟩

theorem shape_convertThisExpression (cn : Nat → DecM JSValue) (p : Nat) (buffer : Buffer)
    (readString : ReadString) (n : Nat) (v : JSValue) (m : Nat)
    (h : convertThisExpression cn p buffer readString n = .ok (v, m)) :
    ∃ id fields, v = .vobj id fields ∧
      lookupField fields "start" = some (.vnat (word buffer p)) ∧
      lookupField fields "end" = some (.vnat (word buffer (p + 1))) := by
  simp only [convertThisExpression] at h
  simp only [mkNode] at h
  cases h
  exact ⟨_, _, rfl, rfl, rfl⟩

theorem shape_convertThrowStatement (cn : Nat → DecM JSValue) (p : Nat) (buffer : Buffer)
    (readString : ReadString) (n : Nat) (v : JSValue) (m : Nat)
    (h : convertThrowStatement cn p buffer readString n = .ok (v, m)) :
    ∃ id fields, v = .vobj id fields ∧
      lookupField fields "start" = some (.vnat (word buffer p)) ∧
      lookupField fields "end" = some (.vnat (word buffer (p + 1))) := by
  simp only [convertThrowStatement] at h
  obtain ⟨a1, n1, -, h⟩ := bind_ok_elim h
  simp only [mkNode] at h
  cases h
  exact ⟨_, _, rfl, rfl, rfl⟩

theorem shape_convertTryStatement (cn : Nat → DecM JSValue) (p : Nat) (buffer : Buffer)
    (readString : ReadString) (n : Nat) (v : JSValue) (m : Nat)
    (h : convertTryStatement cn p buffer readString n = .ok (v, m)) :
    ∃ id fields, v = .vobj id fields ∧
      lookupField fields "start" = some (.vnat (word buffer p)) ∧
      lookupField fields "end" = some (.vnat (word buffer (p + 1))) := by
  simp only [convertTryStatement] at h
  obtain ⟨a1, n1, -, h⟩ := bind_ok_elim h
  obtain ⟨a2, n2, -, h⟩ := bind_ok_elim h
  obtain ⟨a3, n3, -, h⟩ := bind_ok_elim h
  simp only [mkNode] at h
  cases h
  exact ⟨_, _, rfl, rfl, rfl⟩

theorem shape_convertVariableDeclaration (cn : Nat → DecM JSValue) (p : Nat) (buffer : Buffer)
    (readString : ReadString) (n : Nat) (v : JSValue) (m : Nat)
    (h : convertVariableDeclaration cn p buffer readString n = .ok (v, m)) :
    ∃ id fields, v = .vobj id fields ∧
      lookupField fields "start" = some (.vnat (word buffer p)) ∧
      lookupField fields "end" = some (.vnat (word buffer (p + 1))) := by
  simp only [convertVariableDeclaration] at h
  obtain ⟨a1, n1, -, h⟩ := bind_ok_elim h
  simp only [mkNode] at h
  cases h
  exact ⟨_, _, rfl, rfl, rfl⟩

theorem shape_convertVariableDeclarator (cn : Nat → DecM JSValue) (p : Nat) (buffer : Buffer)
    (readString : ReadString) (n : Nat) (v : JSValue) (m : Nat)
    (h : convertVariableDeclarator cn p buffer readString n = .ok (v, m)) :
    ∃ id fields, v = .vobj id fields ∧
      lookupField fields "start" = some (.vnat (word buffer p)) ∧
      lookupField fields "end" = some (.vnat (word buffer (p + 1))) := by
  simp only [convertVariableDeclarator] at h
  obtain ⟨a1, n1, -, h⟩ := bind_ok_elim h
  obtain ⟨a2, n2, -, h⟩ := bind_ok_elim h
  simp only [mkNode] at h
  cases h
  exact ⟨_, _, rfl, rfl, rfl⟩

theorem shape_convertWhileStatement (cn : Nat → DecM JSValue) (p : Nat) (buffer : Buffer)
    (readString : ReadString) (n : Nat) (v : JSValue) (m : Nat)
    (h : convertWhileStatement cn p buffer readString n = .ok (v, m)) :
    ∃ id fields, v = .vobj id fields ∧
      lookupField fields "start" = some (.vnat (word buffer p)) ∧
      lookupField fields "end" = some (.vnat (word buffer (p + 1))) := by
  simp only [convertWhileStatement] at h
  obtain ⟨a1, n1, -, h⟩ := bind_ok_elim h
  obtain ⟨a2, n2, -, h⟩ := bind_ok_elim h
  simp only [mkNode] at h
  cases h
  exact ⟨_, _, rfl, rfl, rfl⟩

theorem shape_convertAssignmentPatternProperty (cn : Nat → DecM JSValue) (p : Nat) (buffer : Buffer)
    (readString : ReadString) (n : Nat) (v : JSValue) (m : Nat)
    (h : convertAssignmentPatternProperty cn p buffer readString n = .ok (v, m)) :
    ∃ id fields, v = .vobj id fields ∧
      lookupField fields "start" = some (.vnat (word buffer p)) ∧
      lookupField fields "end" = some (.vnat (word buffer (p + 1))) := by
  simp only [convertAssignmentPatternProperty] at h
  obtain ⟨a1, n1, -, h⟩ := bind_ok_elim h
  obtain ⟨a2, n2, -, h⟩ := bind_ok_elim h
  simp only [mkNode] at h
  cases h
  exact ⟨_, _, rfl, rfl, rfl⟩

theorem convertNode_shape (fuel position : Nat) (buffer : Buffer)
    (readString : ReadString) (n : Nat) (v : JSValue) (m : Nat)
    (h : convertNode fuel position buffer readString n = .ok (v, m)) :
    ∃ id fields, v = .vobj id fields ∧
      lookupField fields "start" = some (.vnat (word buffer (position + 1))) ∧
      lookupField fields "end" = some (.vnat (word buffer (position + 1 + 1))) := by
  match fuel with
  | 0 => exact Except.noConfusion h
  | fuel + 1 =>
    rw [convertNode] at h
    set t := word buffer position with ht
    rcases Nat.lt_or_ge t 77 with hlt | hge
    · interval_cases t
      · exact shape_convertArrayExpression _ _ _ _ _ _ _ h
      · exact shape_convertArrayPattern _ _ _ _ _ _ _ h
      · exact shape_convertArrowFunctionExpression _ _ _ _ _ _ _ h
      · exact shape_convertAssignmentExpression _ _ _ _ _ _ _ h
      · exact shape_convertAssignmentPattern _ _ _ _ _ _ _ h
      · exact shape_convertAwaitExpression _ _ _ _ _ _ _ h
      · exact shape_convertBinaryExpression _ _ _ _ _ _ _ h
      · exact shape_convertBlockStatement _ _ _ _ _ _ _ h
      · exact shape_convertBreakStatement _ _ _ _ _ _ _ h
      · exact shape_convertCallExpression _ _ _ _ _ _ _ h
      · exact shape_convertCatchClause _ _ _ _ _ _ _ h
      · exact shape_convertChainExpression _ _ _ _ _ _ _ h
      · exact shape_convertClassBody _ _ _ _ _ _ _ h
      · exact shape_convertClassDeclaration _ _ _ _ _ _ _ h
      · exact shape_convertClassExpression _ _ _ _ _ _ _ h
      · exact shape_convertConditionalExpression _ _ _ _ _ _ _ h
      · exact shape_convertContinueStatement _ _ _ _ _ _ _ h
      · exact shape_convertDebuggerStatement _ _ _ _ _ _ _ h
      · exact shape_convertDoWhileStatement _ _ _ _ _ _ _ h
      · exact shape_convertEmptyStatement _ _ _ _ _ _ _ h
      · exact shape_convertExportAllDeclaration _ _ _ _ _ _ _ h
      · exact shape_convertExportDefaultDeclaration _ _ _ _ _ _ _ h
      · exact shape_convertExportNamedDeclaration _ _ _ _ _ _ _ h
      · exact shape_convertExportSpecifier _ _ _ _ _ _ _ h
      · exact shape_convertExpressionStatement _ _ _ _ _ _ _ h
      · exact shape_convertForInStatement _ _ _ _ _ _ _ h
      · exact shape_convertForOfStatement _ _ _ _ _ _ _ h
      · exact shape_convertForStatement _ _ _ _ _ _ _ h
      · exact shape_convertFunctionDeclaration _ _ _ _ _ _ _ h
      · exact shape_convertFunctionExpression _ _ _ _ _ _ _ h
      · exact shape_convertIdentifier _ _ _ _ _ _ _ h
      · exact shape_convertIfStatement _ _ _ _ _ _ _ h
      · exact shape_convertImportAttribute _ _ _ _ _ _ _ h
      · exact shape_convertImportDeclaration _ _ _ _ _ _ _ h
      · exact shape_convertImportDefaultSpecifier _ _ _ _ _ _ _ h
      · exact shape_convertImportExpression _ _ _ _ _ _ _ h
      · exact shape_convertImportNamespaceSpecifier _ _ _ _ _ _ _ h
      · exact shape_convertImportSpecifier _ _ _ _ _ _ _ h
      · exact shape_convertLabeledStatement _ _ _ _ _ _ _ h
      · exact shape_convertLiteralString _ _ _ _ _ _ _ h
      · exact shape_convertLiteralBoolean _ _ _ _ _ _ _ h
      · exact shape_convertLiteralNumber _ _ _ _ _ _ _ h
      · exact shape_convertLiteralNull _ _ _ _ _ _ _ h
      · exact shape_convertLiteralRegExp _ _ _ _ _ _ _ h
      · exact shape_convertLiteralBigInt _ _ _ _ _ _ _ h
      · exact shape_convertLogicalExpression _ _ _ _ _ _ _ h
      · exact shape_convertMemberExpression _ _ _ _ _ _ _ h
      · exact shape_convertMetaProperty _ _ _ _ _ _ _ h
      · exact shape_convertMethodDefinition _ _ _ _ _ _ _ h
      · exact shape_convertNewExpression _ _ _ _ _ _ _ h
      · exact shape_convertObjectExpression _ _ _ _ _ _ _ h
      · exact shape_convertObjectPattern _ _ _ _ _ _ _ h
      · exact shape_convertPrivateIdentifier _ _ _ _ _ _ _ h
      · exact shape_convertProgramNode _ _ _ _ _ _ _ h
      · exact shape_convertProperty _ _ _ _ _ _ _ h
      · exact shape_convertPropertyDefinition _ _ _ _ _ _ _ h
      · exact shape_convertRestElement _ _ _ _ _ _ _ h
      · exact shape_convertReturnStatement _ _ _ _ _ _ _ h
      · exact shape_convertSequenceExpression _ _ _ _ _ _ _ h
      · exact shape_convertSpreadElement _ _ _ _ _ _ _ h
      · exact shape_convertStaticBlock _ _ _ _ _ _ _ h
      · exact shape_convertSuper _ _ _ _ _ _ _ h
      · exact shape_convertSwitchCase _ _ _ _ _ _ _ h
      · exact shape_convertSwitchStatement _ _ _ _ _ _ _ h
      · exact Except.noConfusion h
      · exact Except.noConfusion h
      · exact Except.noConfusion h
      · exact shape_convertThisExpression _ _ _ _ _ _ _ h
      · exact shape_convertThrowStatement _ _ _ _ _ _ _ h
      · exact shape_convertTryStatement _ _ _ _ _ _ _ h
      · exact Except.noConfusion h
      · exact Except.noConfusion h
      · exact shape_convertVariableDeclaration _ _ _ _ _ _ _ h
      · exact shape_convertVariableDeclarator _ _ _ _ _ _ _ h
      · exact shape_convertWhileStatement _ _ _ _ _ _ _ h
      · exact Except.noConfusion h
      · exact shape_convertAssignmentPatternProperty _ _ _ _ _ _ _ h
    · rw [List.getD_eq_default _ _ (by simpa [nodeConverters] using hge)] at h
      exact Except.noConfusion h


/-- The value denoted by an IEEE-754 binary64 bit pattern: not-a-number, a
signed infinity, or a signed finite magnitude (an exact rational; the sign is
kept separate so that positive and negative zero stay distinguishable).  This
is the reference semantics of `DataView.getFloat64` applied to the bit pattern
assembled by `readF64Bits`. -/
inductive F64 where
  | nan
  | inf (negative : Bool)
  | finite (negative : Bool) (magnitude : ℚ)
deriving Repr, DecidableEq

/-- IEEE-754 binary64 decoding of a 64-bit pattern: sign bit 63, 11 exponent
bits, 52 fraction bits; exponent 2047 encodes infinities and NaNs, exponent 0
subnormals (scale 2 ^ (-1074)), other exponents normals with implicit leading
mantissa bit and scale 2 ^ (exponent - 1075). -/
def float64FromBits (bits : Nat) : F64 :=
  let b := bits % 18446744073709551616
  let negative : Bool := decide (9223372036854775808 ≤ b)
  let expo := b / 4503599627370496 % 2048
  let frac := b % 4503599627370496
  if expo = 2047 then
    if frac = 0 then .inf negative else .nan
  else if expo = 0 then
    .finite negative ((frac : ℚ) / (2 ^ 1074 : ℚ))
  else if 1075 ≤ expo then
    .finite negative (((4503599627370496 + frac : Nat) : ℚ) * (2 ^ (expo - 1075) : ℚ))
  else
    .finite negative (((4503599627370496 + frac : Nat) : ℚ) / (2 ^ (1075 - expo) : ℚ))

/-- The tag values for which the converter table registers no converter: the
six reserved `null` slots and everything at or beyond the table length 77. -/
def UnknownTag (t : Nat) : Prop :=
  t = 64 ∨ t = 65 ∨ t = 66 ∨ t = 70 ∨ t = 71 ∨ t = 75 ∨ 77 ≤ t

theorem unknownTag_getD {t : Nat} (h : UnknownTag t) :
    nodeConverters.getD t none = none := by
  rcases h with h | h | h | h | h | h | h
  · rw [h]; rfl
  · rw [h]; rfl
  · rw [h]; rfl
  · rw [h]; rfl
  · rw [h]; rfl
  · rw [h]; rfl
  · exact List.getD_eq_default _ _ (by simpa [nodeConverters] using h)

/-- Claim C1 (amended): decoding at a word position whose tag word has no
registered converter (each reserved slot for tagged-template expressions,
template elements, template literals, unary, update and yield expressions, and
every out-of-range tag) always fails with the thrown error whose message
interpolates the unrecognized tag value, and never returns a value.  (As the
counterexample shows, the error does not identify the word position: the
message carries only the tag value.) -/
theorem c1_unknown_tag_fatal (fuel position : Nat) (buffer : Buffer)
    (readString : ReadString) (n : Nat) (hfuel : 0 < fuel)
    (htag : UnknownTag (word buffer position)) :
    convertNode fuel position buffer readString n
        = .error (.jsError ("Unknown node type: " ++ toString (word buffer position)))
      ∧ ∀ r, convertNode fuel position buffer readString n ≠ .ok r := by
  cases fuel with
  | zero => exact absurd hfuel (Nat.lt_irrefl 0)
  | succ fuel =>
    have hmain : convertNode (fuel + 1) position buffer readString n
        = .error (.jsError ("Unknown node type: " ++ toString (word buffer position))) := by
      simp only [convertNode]
      rw [unknownTag_getD htag]
      rfl
    refine ⟨hmain, fun r hr => ?_⟩
    rw [hmain] at hr
    exact Except.noConfusion hr

/-- Claim C1 counterexample: the thrown error carries only the tag value, not
the word position.  Decoding the reserved tag 64 at word position 0 and at
word position 1 of the same buffer produces one and the same error value, so
the raised error does not identify the word position. -/
theorem c1_counterexample :
    convertNode 1 0 [64, 64] (fun _ _ => "") 0 = convertNode 1 1 [64, 64] (fun _ _ => "") 0
      ∧ convertNode 1 0 [64, 64] (fun _ _ => "") 0
        = .error (.jsError "Unknown node type: 64") := by
  constructor
  · rfl
  · rfl

/-- Claim C1 witness: the reserved tag 70 (update expressions) at word
position 0 fails with the unknown-node-type error and returns no value. -/
theorem c1_witness :
    convertNode 3 0 [70] (fun _ _ => "") 5
        = .error (.jsError "Unknown node type: 70")
      ∧ ∀ r, convertNode 3 0 [70] (fun _ _ => "") 5 ≠ .ok r :=
  c1_unknown_tag_fatal 3 0 [70] (fun _ _ => "") 5 (by decide)
    (Or.inr (Or.inr (Or.inr (Or.inl rfl))))
theorem c2zero_break_label (cn : Nat → DecM JSValue) (p : Nat) (buffer : Buffer)
    (readString : ReadString) (n : Nat) (v : JSValue) (m : Nat)
    (hzero : word buffer (p + 2) = 0)
    (h : convertBreakStatement cn p buffer readString n = .ok (v, m)) :
    getField v "label" = some JSValue.vnull := by
  have hne : ¬((0 : Nat) ≠ 0) := fun hh => hh rfl
  simp only [convertBreakStatement] at h
  rw [hzero, if_neg hne] at h
  obtain ⟨a1, n1, ha1, h⟩ := bind_ok_elim h
  cases ha1
  simp only [mkNode] at h
  cases h
  rfl

theorem c2zero_continue_label (cn : Nat → DecM JSValue) (p : Nat) (buffer : Buffer)
    (readString : ReadString) (n : Nat) (v : JSValue) (m : Nat)
    (hzero : word buffer (p + 2) = 0)
    (h : convertContinueStatement cn p buffer readString n = .ok (v, m)) :
    getField v "label" = some JSValue.vnull := by
  have hne : ¬((0 : Nat) ≠ 0) := fun hh => hh rfl
  simp only [convertContinueStatement] at h
  rw [hzero, if_neg hne] at h
  obtain ⟨a1, n1, ha1, h⟩ := bind_ok_elim h
  cases ha1
  simp only [mkNode] at h
  cases h
  rfl

theorem c2zero_catch_param (cn : Nat → DecM JSValue) (p : Nat) (buffer : Buffer)
    (readString : ReadString) (n : Nat) (v : JSValue) (m : Nat)
    (hzero : word buffer (p + 2) = 0)
    (h : convertCatchClause cn p buffer readString n = .ok (v, m)) :
    getField v "param" = some JSValue.vnull := by
  have hne : ¬((0 : Nat) ≠ 0) := fun hh => hh rfl
  simp only [convertCatchClause] at h
  rw [hzero, if_neg hne] at h
  obtain ⟨a1, n1, -, h⟩ := bind_ok_elim h
  obtain ⟨a2, n2, ha2, h⟩ := bind_ok_elim h
  cases ha2
  simp only [mkNode] at h
  cases h
  rfl

theorem c2zero_if_alternate (cn : Nat → DecM JSValue) (p : Nat) (buffer : Buffer)
    (readString : ReadString) (n : Nat) (v : JSValue) (m : Nat)
    (hzero : word buffer (p + 3) = 0)
    (h : convertIfStatement cn p buffer readString n = .ok (v, m)) :
    getField v "alternate" = some JSValue.vnull := by
  have hne : ¬((0 : Nat) ≠ 0) := fun hh => hh rfl
  simp only [convertIfStatement] at h
  rw [hzero, if_neg hne] at h
  obtain ⟨a1, n1, -, h⟩ := bind_ok_elim h
  obtain ⟨a2, n2, -, h⟩ := bind_ok_elim h
  obtain ⟨a3, n3, ha3, h⟩ := bind_ok_elim h
  cases ha3
  simp only [mkNode] at h
  cases h
  rfl

theorem c2zero_exportnamed_declaration (cn : Nat → DecM JSValue) (p : Nat) (buffer : Buffer)
    (readString : ReadString) (n : Nat) (v : JSValue) (m : Nat)
    (hzero : word buffer (p + 2) = 0)
    (h : convertExportNamedDeclaration cn p buffer readString n = .ok (v, m)) :
    getField v "declaration" = some JSValue.vnull := by
  have hne : ¬((0 : Nat) ≠ 0) := fun hh => hh rfl
  simp only [convertExportNamedDeclaration] at h
  rw [hzero, if_neg hne] at h
  obtain ⟨a1, n1, -, h⟩ := bind_ok_elim h
  obtain ⟨a2, n2, -, h⟩ := bind_ok_elim h
  obtain ⟨a3, n3, ha3, h⟩ := bind_ok_elim h
  cases ha3
  obtain ⟨a4, n4, -, h⟩ := bind_ok_elim h
  simp only [mkNode] at h
  cases h
  rfl

theorem c2zero_exportnamed_source (cn : Nat → DecM JSValue) (p : Nat) (buffer : Buffer)
    (readString : ReadString) (n : Nat) (v : JSValue) (m : Nat)
    (hzero : word buffer (p + 3) = 0)
    (h : convertExportNamedDeclaration cn p buffer readString n = .ok (v, m)) :
    getField v "source" = some JSValue.vnull := by
  have hne : ¬((0 : Nat) ≠ 0) := fun hh => hh rfl
  simp only [convertExportNamedDeclaration] at h
  rw [hzero, if_neg hne] at h
  obtain ⟨a1, n1, -, h⟩ := bind_ok_elim h
  obtain ⟨a2, n2, -, h⟩ := bind_ok_elim h
  obtain ⟨a3, n3, -, h⟩ := bind_ok_elim h
  obtain ⟨a4, n4, ha4, h⟩ := bind_ok_elim h
  cases ha4
  simp only [mkNode] at h
  cases h
  rfl

theorem c2zero_exportall_exported (cn : Nat → DecM JSValue) (p : Nat) (buffer : Buffer)
    (readString : ReadString) (n : Nat) (v : JSValue) (m : Nat)
    (hzero : word buffer (p + 3) = 0)
    (h : convertExportAllDeclaration cn p buffer readString n = .ok (v, m)) :
    getField v "exported" = some JSValue.vnull := by
  have hne : ¬((0 : Nat) ≠ 0) := fun hh => hh rfl
  simp only [convertExportAllDeclaration] at h
  rw [hzero, if_neg hne] at h
  obtain ⟨a1, n1, -, h⟩ := bind_ok_elim h
  obtain ⟨a2, n2, -, h⟩ := bind_ok_elim h
  obtain ⟨a3, n3, ha3, h⟩ := bind_ok_elim h
  cases ha3
  simp only [mkNode] at h
  cases h
  rfl

theorem c2zero_for_init (cn : Nat → DecM JSValue) (p : Nat) (buffer : Buffer)
    (readString : ReadString) (n : Nat) (v : JSValue) (m : Nat)
    (hzero : word buffer (p + 2) = 0)
    (h : convertForStatement cn p buffer readString n = .ok (v, m)) :
    getField v "init" = some JSValue.vnull := by
  have hne : ¬((0 : Nat) ≠ 0) := fun hh => hh rfl
  simp only [convertForStatement] at h
  rw [hzero, if_neg hne] at h
  obtain ⟨a1, n1, -, h⟩ := bind_ok_elim h
  obtain ⟨a2, n2, ha2, h⟩ := bind_ok_elim h
  cases ha2
  obtain ⟨a3, n3, -, h⟩ := bind_ok_elim h
  obtain ⟨a4, n4, -, h⟩ := bind_ok_elim h
  simp only [mkNode] at h
  cases h
  rfl

theorem c2zero_for_test (cn : Nat → DecM JSValue) (p : Nat) (buffer : Buffer)
    (readString : ReadString) (n : Nat) (v : JSValue) (m : Nat)
    (hzero : word buffer (p + 3) = 0)
    (h : convertForStatement cn p buffer readString n = .ok (v, m)) :
    getField v "test" = some JSValue.vnull := by
  have hne : ¬((0 : Nat) ≠ 0) := fun hh => hh rfl
  simp only [convertForStatement] at h
  rw [hzero, if_neg hne] at h
  obtain ⟨a1, n1, -, h⟩ := bind_ok_elim h
  obtain ⟨a2, n2, -, h⟩ := bind_ok_elim h
  obtain ⟨a3, n3, ha3, h⟩ := bind_ok_elim h
  cases ha3
  obtain ⟨a4, n4, -, h⟩ := bind_ok_elim h
  simp only [mkNode] at h
  cases h
  rfl

theorem c2zero_for_update (cn : Nat → DecM JSValue) (p : Nat) (buffer : Buffer)
    (readString : ReadString) (n : Nat) (v : JSValue) (m : Nat)
    (hzero : word buffer (p + 4) = 0)
    (h : convertForStatement cn p buffer readString n = .ok (v, m)) :
    getField v "update" = some JSValue.vnull := by
  have hne : ¬((0 : Nat) ≠ 0) := fun hh => hh rfl
  simp only [convertForStatement] at h
  rw [hzero, if_neg hne] at h
  obtain ⟨a1, n1, -, h⟩ := bind_ok_elim h
  obtain ⟨a2, n2, -, h⟩ := bind_ok_elim h
  obtain ⟨a3, n3, -, h⟩ := bind_ok_elim h
  obtain ⟨a4, n4, ha4, h⟩ := bind_ok_elim h
  cases ha4
  simp only [mkNode] at h
  cases h
  rfl

theorem c2zero_new_arguments (cn : Nat → DecM JSValue) (p : Nat) (buffer : Buffer)
    (readString : ReadString) (n : Nat) (v : JSValue) (m : Nat)
    (hzero : word buffer (p + 2) = 0)
    (h : convertNewExpression cn p buffer readString n = .ok (v, m)) :
    getField v "arguments" = some (JSValue.varr []) := by
  have hne : ¬((0 : Nat) ≠ 0) := fun hh => hh rfl
  simp only [convertNewExpression] at h
  rw [hzero, if_neg hne] at h
  obtain ⟨a1, n1, -, h⟩ := bind_ok_elim h
  obtain ⟨a2, n2, ha2, h⟩ := bind_ok_elim h
  cases ha2
  simp only [mkNode] at h
  cases h
  rfl

theorem c2zero_return_argument (cn : Nat → DecM JSValue) (p : Nat) (buffer : Buffer)
    (readString : ReadString) (n : Nat) (v : JSValue) (m : Nat)
    (hzero : word buffer (p + 2) = 0)
    (h : convertReturnStatement cn p buffer readString n = .ok (v, m)) :
    getField v "argument" = some JSValue.vnull := by
  have hne : ¬((0 : Nat) ≠ 0) := fun hh => hh rfl
  simp only [convertReturnStatement] at h
  rw [hzero, if_neg hne] at h
  obtain ⟨a1, n1, ha1, h⟩ := bind_ok_elim h
  cases ha1
  simp only [mkNode] at h
  cases h
  rfl

theorem c2zero_switchcase_test (cn : Nat → DecM JSValue) (p : Nat) (buffer : Buffer)
    (readString : ReadString) (n : Nat) (v : JSValue) (m : Nat)
    (hzero : word buffer (p + 2) = 0)
    (h : convertSwitchCase cn p buffer readString n = .ok (v, m)) :
    getField v "test" = some JSValue.vnull := by
  have hne : ¬((0 : Nat) ≠ 0) := fun hh => hh rfl
  simp only [convertSwitchCase] at h
  rw [hzero, if_neg hne] at h
  obtain ⟨a1, n1, -, h⟩ := bind_ok_elim h
  obtain ⟨a2, n2, ha2, h⟩ := bind_ok_elim h
  cases ha2
  simp only [mkNode] at h
  cases h
  rfl

theorem c2zero_try_handler (cn : Nat → DecM JSValue) (p : Nat) (buffer : Buffer)
    (readString : ReadString) (n : Nat) (v : JSValue) (m : Nat)
    (hzero : word buffer (p + 2) = 0)
    (h : convertTryStatement cn p buffer readString n = .ok (v, m)) :
    getField v "handler" = some JSValue.vnull := by
  have hne : ¬((0 : Nat) ≠ 0) := fun hh => hh rfl
  simp only [convertTryStatement] at h
  rw [hzero, if_neg hne] at h
  obtain ⟨a1, n1, -, h⟩ := bind_ok_elim h
  obtain ⟨a2, n2, -, h⟩ := bind_ok_elim h
  obtain ⟨a3, n3, ha3, h⟩ := bind_ok_elim h
  cases ha3
  simp only [mkNode] at h
  cases h
  rfl

theorem c2zero_try_finalizer (cn : Nat → DecM JSValue) (p : Nat) (buffer : Buffer)
    (readString : ReadString) (n : Nat) (v : JSValue) (m : Nat)
    (hzero : word buffer (p + 3) = 0)
    (h : convertTryStatement cn p buffer readString n = .ok (v, m)) :
    getField v "finalizer" = some JSValue.vnull := by
  have hne : ¬((0 : Nat) ≠ 0) := fun hh => hh rfl
  simp only [convertTryStatement] at h
  rw [hzero, if_neg hne] at h
  obtain ⟨a1, n1, -, h⟩ := bind_ok_elim h
  obtain ⟨a2, n2, ha2, h⟩ := bind_ok_elim h
  cases ha2
  obtain ⟨a3, n3, -, h⟩ := bind_ok_elim h
  simp only [mkNode] at h
  cases h
  rfl

theorem c2zero_vardeclarator_init (cn : Nat → DecM JSValue) (p : Nat) (buffer : Buffer)
    (readString : ReadString) (n : Nat) (v : JSValue) (m : Nat)
    (hzero : word buffer (p + 2) = 0)
    (h : convertVariableDeclarator cn p buffer readString n = .ok (v, m)) :
    getField v "init" = some JSValue.vnull := by
  have hne : ¬((0 : Nat) ≠ 0) := fun hh => hh rfl
  simp only [convertVariableDeclarator] at h
  rw [hzero, if_neg hne] at h
  obtain ⟨a1, n1, -, h⟩ := bind_ok_elim h
  obtain ⟨a2, n2, ha2, h⟩ := bind_ok_elim h
  cases ha2
  simp only [mkNode] at h
  cases h
  rfl

theorem c2zero_classdecl_id (cn : Nat → DecM JSValue) (p : Nat) (buffer : Buffer)
    (readString : ReadString) (n : Nat) (v : JSValue) (m : Nat)
    (hzero : word buffer (p + 2) = 0)
    (h : convertClassDeclaration cn p buffer readString n = .ok (v, m)) :
    getField v "id" = some JSValue.vnull := by
  have hne : ¬((0 : Nat) ≠ 0) := fun hh => hh rfl
  simp only [convertClassDeclaration] at h
  rw [hzero, if_neg hne] at h
  obtain ⟨a1, n1, -, h⟩ := bind_ok_elim h
  obtain ⟨a2, n2, ha2, h⟩ := bind_ok_elim h
  cases ha2
  obtain ⟨a3, n3, -, h⟩ := bind_ok_elim h
  simp only [mkNode] at h
  cases h
  rfl

theorem c2zero_classdecl_superclass (cn : Nat → DecM JSValue) (p : Nat) (buffer : Buffer)
    (readString : ReadString) (n : Nat) (v : JSValue) (m : Nat)
    (hzero : word buffer (p + 3) = 0)
    (h : convertClassDeclaration cn p buffer readString n = .ok (v, m)) :
    getField v "superClass" = some JSValue.vnull := by
  have hne : ¬((0 : Nat) ≠ 0) := fun hh => hh rfl
  simp only [convertClassDeclaration] at h
  rw [hzero, if_neg hne] at h
  obtain ⟨a1, n1, -, h⟩ := bind_ok_elim h
  obtain ⟨a2, n2, -, h⟩ := bind_ok_elim h
  obtain ⟨a3, n3, ha3, h⟩ := bind_ok_elim h
  cases ha3
  simp only [mkNode] at h
  cases h
  rfl

theorem c2zero_classexpr_id (cn : Nat → DecM JSValue) (p : Nat) (buffer : Buffer)
    (readString : ReadString) (n : Nat) (v : JSValue) (m : Nat)
    (hzero : word buffer (p + 2) = 0)
    (h : convertClassExpression cn p buffer readString n = .ok (v, m)) :
    getField v "id" = some JSValue.vnull := by
  have hne : ¬((0 : Nat) ≠ 0) := fun hh => hh rfl
  simp only [convertClassExpression] at h
  rw [hzero, if_neg hne] at h
  obtain ⟨a1, n1, -, h⟩ := bind_ok_elim h
  obtain ⟨a2, n2, ha2, h⟩ := bind_ok_elim h
  cases ha2
  obtain ⟨a3, n3, -, h⟩ := bind_ok_elim h
  simp only [mkNode] at h
  cases h
  rfl

theorem c2zero_classexpr_superclass (cn : Nat → DecM JSValue) (p : Nat) (buffer : Buffer)
    (readString : ReadString) (n : Nat) (v : JSValue) (m : Nat)
    (hzero : word buffer (p + 3) = 0)
    (h : convertClassExpression cn p buffer readString n = .ok (v, m)) :
    getField v "superClass" = some JSValue.vnull := by
  have hne : ¬((0 : Nat) ≠ 0) := fun hh => hh rfl
  simp only [convertClassExpression] at h
  rw [hzero, if_neg hne] at h
  obtain ⟨a1, n1, -, h⟩ := bind_ok_elim h
  obtain ⟨a2, n2, -, h⟩ := bind_ok_elim h
  obtain ⟨a3, n3, ha3, h⟩ := bind_ok_elim h
  cases ha3
  simp only [mkNode] at h
  cases h
  rfl

theorem c2zero_propertydef_value (cn : Nat → DecM JSValue) (p : Nat) (buffer : Buffer)
    (readString : ReadString) (n : Nat) (v : JSValue) (m : Nat)
    (hzero : word buffer (p + 4) = 0)
    (h : convertPropertyDefinition cn p buffer readString n = .ok (v, m)) :
    getField v "value" = some JSValue.vnull := by
  have hne : ¬((0 : Nat) ≠ 0) := fun hh => hh rfl
  simp only [convertPropertyDefinition] at h
  rw [hzero, if_neg hne] at h
  obtain ⟨a1, n1, -, h⟩ := bind_ok_elim h
  obtain ⟨a2, n2, ha2, h⟩ := bind_ok_elim h
  cases ha2
  simp only [mkNode] at h
  cases h
  rfl

theorem c2zero_functiondecl_id (cn : Nat → DecM JSValue) (p : Nat) (buffer : Buffer)
    (readString : ReadString) (n : Nat) (v : JSValue) (m : Nat)
    (hzero : word buffer (p + 4) = 0)
    (h : convertFunctionDeclaration cn p buffer readString n = .ok (v, m)) :
    getField v "id" = some JSValue.vnull := by
  have hne : ¬((0 : Nat) ≠ 0) := fun hh => hh rfl
  simp only [convertFunctionDeclaration] at h
  rw [hzero, if_neg hne] at h
  obtain ⟨a1, n1, -, h⟩ := bind_ok_elim h
  obtain ⟨a2, n2, -, h⟩ := bind_ok_elim h
  obtain ⟨a3, n3, ha3, h⟩ := bind_ok_elim h
  cases ha3
  simp only [mkNode] at h
  cases h
  rfl

theorem c2zero_functionexpr_id (cn : Nat → DecM JSValue) (p : Nat) (buffer : Buffer)
    (readString : ReadString) (n : Nat) (v : JSValue) (m : Nat)
    (hzero : word buffer (p + 4) = 0)
    (h : convertFunctionExpression cn p buffer readString n = .ok (v, m)) :
    getField v "id" = some JSValue.vnull := by
  have hne : ¬((0 : Nat) ≠ 0) := fun hh => hh rfl
  simp only [convertFunctionExpression] at h
  rw [hzero, if_neg hne] at h
  obtain ⟨a1, n1, -, h⟩ := bind_ok_elim h
  obtain ⟨a2, n2, -, h⟩ := bind_ok_elim h
  obtain ⟨a3, n3, ha3, h⟩ := bind_ok_elim h
  cases ha3
  simp only [mkNode] at h
  cases h
  rfl

theorem c2zero_literalstring_raw (cn : Nat → DecM JSValue) (p : Nat) (buffer : Buffer)
    (readString : ReadString) (n : Nat) (v : JSValue) (m : Nat)
    (hzero : word buffer (p + 2) = 0)
    (h : convertLiteralString cn p buffer readString n = .ok (v, m)) :
    getField v "raw" = some JSValue.vundefined := by
  have hne : ¬((0 : Nat) ≠ 0) := fun hh => hh rfl
  simp only [convertLiteralString] at h
  rw [hzero, if_neg hne] at h
  simp only [mkNode] at h
  cases h
  rfl

theorem c2zero_literalnumber_raw (cn : Nat → DecM JSValue) (p : Nat) (buffer : Buffer)
    (readString : ReadString) (n : Nat) (v : JSValue) (m : Nat)
    (hzero : word buffer (p + 2) = 0)
    (h : convertLiteralNumber cn p buffer readString n = .ok (v, m)) :
    getField v "raw" = some JSValue.vundefined := by
  have hne : ¬((0 : Nat) ≠ 0) := fun hh => hh rfl
  simp only [convertLiteralNumber] at h
  rw [hzero, if_neg hne] at h
  simp only [mkNode] at h
  cases h
  rfl

/-- Claim C2 (amended): for every node kind with an optional-reference field, a
0 word at that field's position decodes to the field's absent value in the
output node: `null` for if-alternate, break/continue labels, catch params,
export declaration/source/exported, for-statement init/test/update, return
arguments, switch-case tests, try handlers/finalizers, declarator inits, the
id and superClass of both class declarations and class expressions, the id of
both function declarations and function expressions, and property-definition
values — but for new-expression arguments the absent value is the empty
argument list `[]`, not `null`, and for the optional raw text of string/number
literals it is `undefined`. -/
theorem c2_null_optional_fields :
      (∀ (fuel position n : Nat) (buffer : Buffer) (readString : ReadString)
              (v : JSValue) (m : Nat),
              word buffer position = 8 →
              word buffer (position + 3) = 0 →
              convertNode fuel position buffer readString n = .ok (v, m) →
              getField v "label" = some JSValue.vnull)
      ∧ (∀ (fuel position n : Nat) (buffer : Buffer) (readString : ReadString)
              (v : JSValue) (m : Nat),
              word buffer position = 16 →
              word buffer (position + 3) = 0 →
              convertNode fuel position buffer readString n = .ok (v, m) →
              getField v "label" = some JSValue.vnull)
      ∧ (∀ (fuel position n : Nat) (buffer : Buffer) (readString : ReadString)
              (v : JSValue) (m : Nat),
              word buffer position = 10 →
              word buffer (position + 3) = 0 →
              convertNode fuel position buffer readString n = .ok (v, m) →
              getField v "param" = some JSValue.vnull)
      ∧ (∀ (fuel position n : Nat) (buffer : Buffer) (readString : ReadString)
              (v : JSValue) (m : Nat),
              word buffer position = 31 →
              word buffer (position + 4) = 0 →
              convertNode fuel position buffer readString n = .ok (v, m) →
              getField v "alternate" = some JSValue.vnull)
      ∧ (∀ (fuel position n : Nat) (buffer : Buffer) (readString : ReadString)
              (v : JSValue) (m : Nat),
              word buffer position = 22 →
              word buffer (position + 3) = 0 →
              convertNode fuel position buffer readString n = .ok (v, m) →
              getField v "declaration" = some JSValue.vnull)
      ∧ (∀ (fuel position n : Nat) (buffer : Buffer) (readString : ReadString)
              (v : JSValue) (m : Nat),
              word buffer position = 22 →
              word buffer (position + 4) = 0 →
              convertNode fuel position buffer readString n = .ok (v, m) →
              getField v "source" = some JSValue.vnull)
      ∧ (∀ (fuel position n : Nat) (buffer : Buffer) (readString : ReadString)
              (v : JSValue) (m : Nat),
              word buffer position = 20 →
              word buffer (position + 4) = 0 →
              convertNode fuel position buffer readString n = .ok (v, m) →
              getField v "exported" = some JSValue.vnull)
      ∧ (∀ (fuel position n : Nat) (buffer : Buffer) (readString : ReadString)
              (v : JSValue) (m : Nat),
              word buffer position = 27 →
              word buffer (position + 3) = 0 →
              convertNode fuel position buffer readString n = .ok (v, m) →
              getField v "init" = some JSValue.vnull)
      ∧ (∀ (fuel position n : Nat) (buffer : Buffer) (readString : ReadString)
              (v : JSValue) (m : Nat),
              word buffer position = 27 →
              word buffer (position + 4) = 0 →
              convertNode fuel position buffer readString n = .ok (v, m) →
              getField v "test" = some JSValue.vnull)
      ∧ (∀ (fuel position n : Nat) (buffer : Buffer) (readString : ReadString)
              (v : JSValue) (m : Nat),
              word buffer position = 27 →
              word buffer (position + 5) = 0 →
              convertNode fuel position buffer readString n = .ok (v, m) →
              getField v "update" = some JSValue.vnull)
      ∧ (∀ (fuel position n : Nat) (buffer : Buffer) (readString : ReadString)
              (v : JSValue) (m : Nat),
              word buffer position = 49 →
              word buffer (position + 3) = 0 →
              convertNode fuel position buffer readString n = .ok (v, m) →
              getField v "arguments" = some (JSValue.varr []))
      ∧ (∀ (fuel position n : Nat) (buffer : Buffer) (readString : ReadString)
              (v : JSValue) (m : Nat),
              word buffer position = 57 →
              word buffer (position + 3) = 0 →
              convertNode fuel position buffer readString n = .ok (v, m) →
              getField v "argument" = some JSValue.vnull)
      ∧ (∀ (fuel position n : Nat) (buffer : Buffer) (readString : ReadString)
              (v : JSValue) (m : Nat),
              word buffer position = 62 →
              word buffer (position + 3) = 0 →
              convertNode fuel position buffer readString n = .ok (v, m) →
              getField v "test" = some JSValue.vnull)
      ∧ (∀ (fuel position n : Nat) (buffer : Buffer) (readString : ReadString)
              (v : JSValue) (m : Nat),
              word buffer position = 69 →
              word buffer (position + 3) = 0 →
              convertNode fuel position buffer readString n = .ok (v, m) →
              getField v "handler" = some JSValue.vnull)
      ∧ (∀ (fuel position n : Nat) (buffer : Buffer) (readString : ReadString)
              (v : JSValue) (m : Nat),
              word buffer position = 69 →
              word buffer (position + 4) = 0 →
              convertNode fuel position buffer readString n = .ok (v, m) →
              getField v "finalizer" = some JSValue.vnull)
      ∧ (∀ (fuel position n : Nat) (buffer : Buffer) (readString : ReadString)
              (v : JSValue) (m : Nat),
              word buffer position = 73 →
              word buffer (position + 3) = 0 →
              convertNode fuel position buffer readString n = .ok (v, m) →
              getField v "init" = some JSValue.vnull)
      ∧ (∀ (fuel position n : Nat) (buffer : Buffer) (readString : ReadString)
              (v : JSValue) (m : Nat),
              word buffer position = 13 →
              word buffer (position + 3) = 0 →
              convertNode fuel position buffer readString n = .ok (v, m) →
              getField v "id" = some JSValue.vnull)
      ∧ (∀ (fuel position n : Nat) (buffer : Buffer) (readString : ReadString)
              (v : JSValue) (m : Nat),
              word buffer position = 13 →
              word buffer (position + 4) = 0 →
              convertNode fuel position buffer readString n = .ok (v, m) →
              getField v "superClass" = some JSValue.vnull)
      ∧ (∀ (fuel position n : Nat) (buffer : Buffer) (readString : ReadString)
              (v : JSValue) (m : Nat),
              word buffer position = 14 →
              word buffer (position + 3) = 0 →
              convertNode fuel position buffer readString n = .ok (v, m) →
              getField v "id" = some JSValue.vnull)
      ∧ (∀ (fuel position n : Nat) (buffer : Buffer) (readString : ReadString)
              (v : JSValue) (m : Nat),
              word buffer position = 14 →
              word buffer (position + 4) = 0 →
              convertNode fuel position buffer readString n = .ok (v, m) →
              getField v "superClass" = some JSValue.vnull)
      ∧ (∀ (fuel position n : Nat) (buffer : Buffer) (readString : ReadString)
              (v : JSValue) (m : Nat),
              word buffer position = 55 →
              word buffer (position + 5) = 0 →
              convertNode fuel position buffer readString n = .ok (v, m) →
              getField v "value" = some JSValue.vnull)
      ∧ (∀ (fuel position n : Nat) (buffer : Buffer) (readString : ReadString)
              (v : JSValue) (m : Nat),
              word buffer position = 28 →
              word buffer (position + 5) = 0 →
              convertNode fuel position buffer readString n = .ok (v, m) →
              getField v "id" = some JSValue.vnull)
      ∧ (∀ (fuel position n : Nat) (buffer : Buffer) (readString : ReadString)
              (v : JSValue) (m : Nat),
              word buffer position = 29 →
              word buffer (position + 5) = 0 →
              convertNode fuel position buffer readString n = .ok (v, m) →
              getField v "id" = some JSValue.vnull)
      ∧ (∀ (fuel position n : Nat) (buffer : Buffer) (readString : ReadString)
              (v : JSValue) (m : Nat),
              word buffer position = 39 →
              word buffer (position + 3) = 0 →
              convertNode fuel position buffer readString n = .ok (v, m) →
              getField v "raw" = some JSValue.vundefined)
      ∧ (∀ (fuel position n : Nat) (buffer : Buffer) (readString : ReadString)
              (v : JSValue) (m : Nat),
              word buffer position = 41 →
              word buffer (position + 3) = 0 →
              convertNode fuel position buffer readString n = .ok (v, m) →
              getField v "raw" = some JSValue.vundefined) := by
  refine ⟨?_, ?_, ?_, ?_, ?_, ?_, ?_, ?_, ?_, ?_, ?_, ?_, ?_, ?_, ?_, ?_, ?_, ?_, ?_, ?_, ?_, ?_, ?_, ?_, ?_⟩
  · intro fuel position n buffer readString v m htag hzero h
    cases fuel with
    | zero => exact Except.noConfusion h
    | succ fuel =>
      rw [convertNode, htag] at h
      exact c2zero_break_label _ _ _ _ _ _ _ hzero h
  · intro fuel position n buffer readString v m htag hzero h
    cases fuel with
    | zero => exact Except.noConfusion h
    | succ fuel =>
      rw [convertNode, htag] at h
      exact c2zero_continue_label _ _ _ _ _ _ _ hzero h
  · intro fuel position n buffer readString v m htag hzero h
    cases fuel with
    | zero => exact Except.noConfusion h
    | succ fuel =>
      rw [convertNode, htag] at h
      exact c2zero_catch_param _ _ _ _ _ _ _ hzero h
  · intro fuel position n buffer readString v m htag hzero h
    cases fuel with
    | zero => exact Except.noConfusion h
    | succ fuel =>
      rw [convertNode, htag] at h
      exact c2zero_if_alternate _ _ _ _ _ _ _ hzero h
  · intro fuel position n buffer readString v m htag hzero h
    cases fuel with
    | zero => exact Except.noConfusion h
    | succ fuel =>
      rw [convertNode, htag] at h
      exact c2zero_exportnamed_declaration _ _ _ _ _ _ _ hzero h
  · intro fuel position n buffer readString v m htag hzero h
    cases fuel with
    | zero => exact Except.noConfusion h
    | succ fuel =>
      rw [convertNode, htag] at h
      exact c2zero_exportnamed_source _ _ _ _ _ _ _ hzero h
  · intro fuel position n buffer readString v m htag hzero h
    cases fuel with
    | zero => exact Except.noConfusion h
    | succ fuel =>
      rw [convertNode, htag] at h
      exact c2zero_exportall_exported _ _ _ _ _ _ _ hzero h
  · intro fuel position n buffer readString v m htag hzero h
    cases fuel with
    | zero => exact Except.noConfusion h
    | succ fuel =>
      rw [convertNode, htag] at h
      exact c2zero_for_init _ _ _ _ _ _ _ hzero h
  · intro fuel position n buffer readString v m htag hzero h
    cases fuel with
    | zero => exact Except.noConfusion h
    | succ fuel =>
      rw [convertNode, htag] at h
      exact c2zero_for_test _ _ _ _ _ _ _ hzero h
  · intro fuel position n buffer readString v m htag hzero h
    cases fuel with
    | zero => exact Except.noConfusion h
    | succ fuel =>
      rw [convertNode, htag] at h
      exact c2zero_for_update _ _ _ _ _ _ _ hzero h
  · intro fuel position n buffer readString v m htag hzero h
    cases fuel with
    | zero => exact Except.noConfusion h
    | succ fuel =>
      rw [convertNode, htag] at h
      exact c2zero_new_arguments _ _ _ _ _ _ _ hzero h
  · intro fuel position n buffer readString v m htag hzero h
    cases fuel with
    | zero => exact Except.noConfusion h
    | succ fuel =>
      rw [convertNode, htag] at h
      exact c2zero_return_argument _ _ _ _ _ _ _ hzero h
  · intro fuel position n buffer readString v m htag hzero h
    cases fuel with
    | zero => exact Except.noConfusion h
    | succ fuel =>
      rw [convertNode, htag] at h
      exact c2zero_switchcase_test _ _ _ _ _ _ _ hzero h
  · intro fuel position n buffer readString v m htag hzero h
    cases fuel with
    | zero => exact Except.noConfusion h
    | succ fuel =>
      rw [convertNode, htag] at h
      exact c2zero_try_handler _ _ _ _ _ _ _ hzero h
  · intro fuel position n buffer readString v m htag hzero h
    cases fuel with
    | zero => exact Except.noConfusion h
    | succ fuel =>
      rw [convertNode, htag] at h
      exact c2zero_try_finalizer _ _ _ _ _ _ _ hzero h
  · intro fuel position n buffer readString v m htag hzero h
    cases fuel with
    | zero => exact Except.noConfusion h
    | succ fuel =>
      rw [convertNode, htag] at h
      exact c2zero_vardeclarator_init _ _ _ _ _ _ _ hzero h
  · intro fuel position n buffer readString v m htag hzero h
    cases fuel with
    | zero => exact Except.noConfusion h
    | succ fuel =>
      rw [convertNode, htag] at h
      exact c2zero_classdecl_id _ _ _ _ _ _ _ hzero h
  · intro fuel position n buffer readString v m htag hzero h
    cases fuel with
    | zero => exact Except.noConfusion h
    | succ fuel =>
      rw [convertNode, htag] at h
      exact c2zero_classdecl_superclass _ _ _ _ _ _ _ hzero h
  · intro fuel position n buffer readString v m htag hzero h
    cases fuel with
    | zero => exact Except.noConfusion h
    | succ fuel =>
      rw [convertNode, htag] at h
      exact c2zero_classexpr_id _ _ _ _ _ _ _ hzero h
  · intro fuel position n buffer readString v m htag hzero h
    cases fuel with
    | zero => exact Except.noConfusion h
    | succ fuel =>
      rw [convertNode, htag] at h
      exact c2zero_classexpr_superclass _ _ _ _ _ _ _ hzero h
  · intro fuel position n buffer readString v m htag hzero h
    cases fuel with
    | zero => exact Except.noConfusion h
    | succ fuel =>
      rw [convertNode, htag] at h
      exact c2zero_propertydef_value _ _ _ _ _ _ _ hzero h
  · intro fuel position n buffer readString v m htag hzero h
    cases fuel with
    | zero => exact Except.noConfusion h
    | succ fuel =>
      rw [convertNode, htag] at h
      exact c2zero_functiondecl_id _ _ _ _ _ _ _ hzero h
  · intro fuel position n buffer readString v m htag hzero h
    cases fuel with
    | zero => exact Except.noConfusion h
    | succ fuel =>
      rw [convertNode, htag] at h
      exact c2zero_functionexpr_id _ _ _ _ _ _ _ hzero h
  · intro fuel position n buffer readString v m htag hzero h
    cases fuel with
    | zero => exact Except.noConfusion h
    | succ fuel =>
      rw [convertNode, htag] at h
      exact c2zero_literalstring_raw _ _ _ _ _ _ _ hzero h
  · intro fuel position n buffer readString v m htag hzero h
    cases fuel with
    | zero => exact Except.noConfusion h
    | succ fuel =>
      rw [convertNode, htag] at h
      exact c2zero_literalnumber_raw _ _ _ _ _ _ _ hzero h

/-- Claim C2 counterexample: for a NewExpression whose arguments word is 0, the
decoded `arguments` field is the empty list `[]`, not the null value, so a 0
word at an optional-reference field does not always decode to null. -/
theorem c2_counterexample :
    (∃ v m, convertNode 2 0 [49, 1, 2, 0, 61, 7, 8] (fun _ _ => "") 0 = .ok (v, m)
        ∧ getField v "arguments" = some (JSValue.varr [])
        ∧ getField v "arguments" ≠ some JSValue.vnull) := by
  refine ⟨_, _, rfl, rfl, ?_⟩
  intro hk
  simp [getField, lookupField] at hk

/-- Claim C2 witness: concrete buffers for every optional field, each with a 0
word in the optional slot, decode with the absent value in that field. -/
theorem c2_witness :
      (∃ v m, convertNode 1 0 [8, 1, 2, 0] (fun _ _ => "") 0 = .ok (v, m)
              ∧ getField v "label" = some JSValue.vnull)
      ∧ (∃ v m, convertNode 1 0 [16, 1, 2, 0] (fun _ _ => "") 0 = .ok (v, m)
              ∧ getField v "label" = some JSValue.vnull)
      ∧ (∃ v m, convertNode 2 0 [10, 1, 2, 0, 17, 5, 6] (fun _ _ => "") 0 = .ok (v, m)
              ∧ getField v "param" = some JSValue.vnull)
      ∧ (∃ v m, convertNode 2 0 [31, 1, 2, 8, 0, 17, 3, 4, 17, 8, 9] (fun _ _ => "") 0 = .ok (v, m)
              ∧ getField v "alternate" = some JSValue.vnull)
      ∧ (∃ v m, convertNode 1 0 [22, 1, 2, 0, 0, 8, 0, 0, 0] (fun _ _ => "") 0 = .ok (v, m)
              ∧ getField v "declaration" = some JSValue.vnull)
      ∧ (∃ v m, convertNode 1 0 [22, 1, 2, 0, 0, 8, 0, 0, 0] (fun _ _ => "") 0 = .ok (v, m)
              ∧ getField v "source" = some JSValue.vnull)
      ∧ (∃ v m, convertNode 2 0 [20, 1, 2, 8, 0, 17, 3, 4, 0] (fun _ _ => "") 0 = .ok (v, m)
              ∧ getField v "exported" = some JSValue.vnull)
      ∧ (∃ v m, convertNode 2 0 [27, 1, 2, 0, 0, 0, 17, 3, 4] (fun _ _ => "") 0 = .ok (v, m)
              ∧ getField v "init" = some JSValue.vnull)
      ∧ (∃ v m, convertNode 2 0 [27, 1, 2, 0, 0, 0, 17, 3, 4] (fun _ _ => "") 0 = .ok (v, m)
              ∧ getField v "test" = some JSValue.vnull)
      ∧ (∃ v m, convertNode 2 0 [27, 1, 2, 0, 0, 0, 17, 3, 4] (fun _ _ => "") 0 = .ok (v, m)
              ∧ getField v "update" = some JSValue.vnull)
      ∧ (∃ v m, convertNode 2 0 [49, 1, 2, 0, 61, 7, 8] (fun _ _ => "") 0 = .ok (v, m)
              ∧ getField v "arguments" = some (JSValue.varr []))
      ∧ (∃ v m, convertNode 1 0 [57, 1, 2, 0] (fun _ _ => "") 0 = .ok (v, m)
              ∧ getField v "argument" = some JSValue.vnull)
      ∧ (∃ v m, convertNode 1 0 [62, 1, 2, 0, 0] (fun _ _ => "") 0 = .ok (v, m)
              ∧ getField v "test" = some JSValue.vnull)
      ∧ (∃ v m, convertNode 2 0 [69, 1, 2, 0, 0, 17, 3, 4] (fun _ _ => "") 0 = .ok (v, m)
              ∧ getField v "handler" = some JSValue.vnull)
      ∧ (∃ v m, convertNode 2 0 [69, 1, 2, 0, 0, 17, 3, 4] (fun _ _ => "") 0 = .ok (v, m)
              ∧ getField v "finalizer" = some JSValue.vnull)
      ∧ (∃ v m, convertNode 2 0 [73, 1, 2, 0, 17, 3, 4] (fun _ _ => "") 0 = .ok (v, m)
              ∧ getField v "init" = some JSValue.vnull)
      ∧ (∃ v m, convertNode 2 0 [13, 1, 2, 0, 0, 6, 17, 3, 4] (fun _ _ => "") 0 = .ok (v, m)
              ∧ getField v "id" = some JSValue.vnull)
      ∧ (∃ v m, convertNode 2 0 [13, 1, 2, 0, 0, 6, 17, 3, 4] (fun _ _ => "") 0 = .ok (v, m)
              ∧ getField v "superClass" = some JSValue.vnull)
      ∧ (∃ v m, convertNode 2 0 [14, 1, 2, 0, 0, 6, 17, 3, 4] (fun _ _ => "") 0 = .ok (v, m)
              ∧ getField v "id" = some JSValue.vnull)
      ∧ (∃ v m, convertNode 2 0 [14, 1, 2, 0, 0, 6, 17, 3, 4] (fun _ _ => "") 0 = .ok (v, m)
              ∧ getField v "superClass" = some JSValue.vnull)
      ∧ (∃ v m, convertNode 2 0 [55, 1, 2, 0, 0, 0, 17, 3, 4] (fun _ _ => "") 0 = .ok (v, m)
              ∧ getField v "value" = some JSValue.vnull)
      ∧ (∃ v m, convertNode 2 0 [28, 1, 2, 0, 0, 0, 10, 17, 3, 4, 0] (fun _ _ => "") 0 = .ok (v, m)
              ∧ getField v "id" = some JSValue.vnull)
      ∧ (∃ v m, convertNode 2 0 [29, 1, 2, 0, 0, 0, 10, 17, 3, 4, 0] (fun _ _ => "") 0 = .ok (v, m)
              ∧ getField v "id" = some JSValue.vnull)
      ∧ (∃ v m, convertNode 1 0 [39, 1, 2, 0, 0] (fun _ _ => "") 0 = .ok (v, m)
              ∧ getField v "raw" = some JSValue.vundefined)
      ∧ (∃ v m, convertNode 1 0 [41, 1, 2, 0, 0, 0] (fun _ _ => "") 0 = .ok (v, m)
              ∧ getField v "raw" = some JSValue.vundefined) := by
  refine ⟨?_, ?_, ?_, ?_, ?_, ?_, ?_, ?_, ?_, ?_, ?_, ?_, ?_, ?_, ?_, ?_, ?_, ?_, ?_, ?_, ?_, ?_, ?_, ?_, ?_⟩
  · exact ⟨_, _, rfl,
      (c2_null_optional_fields.1) 1 0 0 [8, 1, 2, 0] (fun _ _ => "") _ _ rfl rfl rfl⟩
  · exact ⟨_, _, rfl,
      (c2_null_optional_fields.2.1) 1 0 0 [16, 1, 2, 0] (fun _ _ => "") _ _ rfl rfl rfl⟩
  · exact ⟨_, _, rfl,
      (c2_null_optional_fields.2.2.1) 2 0 0 [10, 1, 2, 0, 17, 5, 6] (fun _ _ => "") _ _ rfl rfl rfl⟩
  · exact ⟨_, _, rfl,
      (c2_null_optional_fields.2.2.2.1) 2 0 0 [31, 1, 2, 8, 0, 17, 3, 4, 17, 8, 9] (fun _ _ => "") _ _ rfl rfl rfl⟩
  · exact ⟨_, _, rfl,
      (c2_null_optional_fields.2.2.2.2.1) 1 0 0 [22, 1, 2, 0, 0, 8, 0, 0, 0] (fun _ _ => "") _ _ rfl rfl rfl⟩
  · exact ⟨_, _, rfl,
      (c2_null_optional_fields.2.2.2.2.2.1) 1 0 0 [22, 1, 2, 0, 0, 8, 0, 0, 0] (fun _ _ => "") _ _ rfl rfl rfl⟩
  · exact ⟨_, _, rfl,
      (c2_null_optional_fields.2.2.2.2.2.2.1) 2 0 0 [20, 1, 2, 8, 0, 17, 3, 4, 0] (fun _ _ => "") _ _ rfl rfl rfl⟩
  · exact ⟨_, _, rfl,
      (c2_null_optional_fields.2.2.2.2.2.2.2.1) 2 0 0 [27, 1, 2, 0, 0, 0, 17, 3, 4] (fun _ _ => "") _ _ rfl rfl rfl⟩
  · exact ⟨_, _, rfl,
      (c2_null_optional_fields.2.2.2.2.2.2.2.2.1) 2 0 0 [27, 1, 2, 0, 0, 0, 17, 3, 4] (fun _ _ => "") _ _ rfl rfl rfl⟩
  · exact ⟨_, _, rfl,
      (c2_null_optional_fields.2.2.2.2.2.2.2.2.2.1) 2 0 0 [27, 1, 2, 0, 0, 0, 17, 3, 4] (fun _ _ => "") _ _ rfl rfl rfl⟩
  · exact ⟨_, _, rfl,
      (c2_null_optional_fields.2.2.2.2.2.2.2.2.2.2.1) 2 0 0 [49, 1, 2, 0, 61, 7, 8] (fun _ _ => "") _ _ rfl rfl rfl⟩
  · exact ⟨_, _, rfl,
      (c2_null_optional_fields.2.2.2.2.2.2.2.2.2.2.2.1) 1 0 0 [57, 1, 2, 0] (fun _ _ => "") _ _ rfl rfl rfl⟩
  · exact ⟨_, _, rfl,
      (c2_null_optional_fields.2.2.2.2.2.2.2.2.2.2.2.2.1) 1 0 0 [62, 1, 2, 0, 0] (fun _ _ => "") _ _ rfl rfl rfl⟩
  · exact ⟨_, _, rfl,
      (c2_null_optional_fields.2.2.2.2.2.2.2.2.2.2.2.2.2.1) 2 0 0 [69, 1, 2, 0, 0, 17, 3, 4] (fun _ _ => "") _ _ rfl rfl rfl⟩
  · exact ⟨_, _, rfl,
      (c2_null_optional_fields.2.2.2.2.2.2.2.2.2.2.2.2.2.2.1) 2 0 0 [69, 1, 2, 0, 0, 17, 3, 4] (fun _ _ => "") _ _ rfl rfl rfl⟩
  · exact ⟨_, _, rfl,
      (c2_null_optional_fields.2.2.2.2.2.2.2.2.2.2.2.2.2.2.2.1) 2 0 0 [73, 1, 2, 0, 17, 3, 4] (fun _ _ => "") _ _ rfl rfl rfl⟩
  · exact ⟨_, _, rfl,
      (c2_null_optional_fields.2.2.2.2.2.2.2.2.2.2.2.2.2.2.2.2.1) 2 0 0 [13, 1, 2, 0, 0, 6, 17, 3, 4] (fun _ _ => "") _ _ rfl rfl rfl⟩
  · exact ⟨_, _, rfl,
      (c2_null_optional_fields.2.2.2.2.2.2.2.2.2.2.2.2.2.2.2.2.2.1) 2 0 0 [13, 1, 2, 0, 0, 6, 17, 3, 4] (fun _ _ => "") _ _ rfl rfl rfl⟩
  · exact ⟨_, _, rfl,
      (c2_null_optional_fields.2.2.2.2.2.2.2.2.2.2.2.2.2.2.2.2.2.2.1) 2 0 0 [14, 1, 2, 0, 0, 6, 17, 3, 4] (fun _ _ => "") _ _ rfl rfl rfl⟩
  · exact ⟨_, _, rfl,
      (c2_null_optional_fields.2.2.2.2.2.2.2.2.2.2.2.2.2.2.2.2.2.2.2.1) 2 0 0 [14, 1, 2, 0, 0, 6, 17, 3, 4] (fun _ _ => "") _ _ rfl rfl rfl⟩
  · exact ⟨_, _, rfl,
      (c2_null_optional_fields.2.2.2.2.2.2.2.2.2.2.2.2.2.2.2.2.2.2.2.2.1) 2 0 0 [55, 1, 2, 0, 0, 0, 17, 3, 4] (fun _ _ => "") _ _ rfl rfl rfl⟩
  · exact ⟨_, _, rfl,
      (c2_null_optional_fields.2.2.2.2.2.2.2.2.2.2.2.2.2.2.2.2.2.2.2.2.2.1) 2 0 0 [28, 1, 2, 0, 0, 0, 10, 17, 3, 4, 0] (fun _ _ => "") _ _ rfl rfl rfl⟩
  · exact ⟨_, _, rfl,
      (c2_null_optional_fields.2.2.2.2.2.2.2.2.2.2.2.2.2.2.2.2.2.2.2.2.2.2.1) 2 0 0 [29, 1, 2, 0, 0, 0, 10, 17, 3, 4, 0] (fun _ _ => "") _ _ rfl rfl rfl⟩
  · exact ⟨_, _, rfl,
      (c2_null_optional_fields.2.2.2.2.2.2.2.2.2.2.2.2.2.2.2.2.2.2.2.2.2.2.2.1) 1 0 0 [39, 1, 2, 0, 0] (fun _ _ => "") _ _ rfl rfl rfl⟩
  · exact ⟨_, _, rfl,
      (c2_null_optional_fields.2.2.2.2.2.2.2.2.2.2.2.2.2.2.2.2.2.2.2.2.2.2.2.2) 1 0 0 [41, 1, 2, 0, 0, 0] (fun _ _ => "") _ _ rfl rfl rfl⟩

theorem convertNodeListGo_spec (cn : Nat → DecM JSValue) (buffer : Buffer) :
    ∀ count position n l m,
      convertNodeListGo cn buffer count position n = .ok (l, m) →
      l.length = count ∧
      ∀ i, i < count →
        (word buffer (position + i) = 0 → l.get? i = some JSValue.vnull) ∧
        (word buffer (position + i) ≠ 0 →
          ∃ u n1 n2, l.get? i = some u ∧ cn (word buffer (position + i)) n1 = .ok (u, n2)) := by
  intro count
  induction count with
  | zero =>
    intro position n l m h
    cases h
    exact ⟨rfl, fun i hi => absurd hi (by omega)⟩
  | succ count ih =>
    intro position n l m h
    simp only [convertNodeListGo] at h
    obtain ⟨v, n1, hv, h⟩ := bind_ok_elim h
    obtain ⟨rest, n2, hrest, h⟩ := bind_ok_elim h
    obtain ⟨hlen, helem⟩ := ih (position + 1) n1 rest n2 hrest
    cases h
    refine ⟨by simp [hlen], ?_⟩
    intro i hi
    cases i with
    | zero =>
      rw [Nat.add_zero]
      constructor
      · intro h0
        have hne : ¬((0 : Nat) ≠ 0) := fun hh => hh rfl
        rw [h0, if_neg hne] at hv
        cases hv
        rfl
      · intro hnz
        rw [if_pos hnz] at hv
        exact ⟨v, n, n1, rfl, hv⟩
    | succ j =>
      have e : position + (j + 1) = position + 1 + j := by omega
      rw [e]
      exact helem j (by omega)

/-- Claim C3: the list decoder reads the length word N at the cursor and
produces an ordered sequence of exactly N entries in reference order; a 0
reference yields the null hole marker, a nonzero reference yields the node
recursively decoded at that position. -/
theorem c3_list_decoder (fuel position n : Nat) (buffer : Buffer)
    (readString : ReadString) (l : List JSValue) (m : Nat)
    (h : convertNodeList (fun p => convertNode fuel p buffer readString) position buffer n
        = .ok (l, m)) :
    l.length = word buffer position ∧
    ∀ i, i < word buffer position →
      (word buffer (position + 1 + i) = 0 → l.get? i = some JSValue.vnull) ∧
      (word buffer (position + 1 + i) ≠ 0 →
        ∃ u n1 n2, l.get? i = some u ∧
          convertNode fuel (word buffer (position + 1 + i)) buffer readString n1
            = .ok (u, n2)) :=
  convertNodeListGo_spec _ buffer (word buffer position) (position + 1) n l m h

/-- Claim C3 witness: a list header of length 2 whose references are a 0 hole
and a pointer to a debugger-statement node decodes to a two-entry sequence
with the hole mapped to null and the reference decoded in place. -/
theorem c3_witness :
    ∃ l m, convertNodeList (fun p => convertNode 1 p [2, 0, 3, 17, 7, 9] (fun _ _ => ""))
        0 [2, 0, 3, 17, 7, 9] 0 = .ok (l, m)
      ∧ l.length = 2 ∧ l.get? 0 = some JSValue.vnull
      ∧ ∃ u n1 n2, l.get? 1 = some u
          ∧ convertNode 1 3 [2, 0, 3, 17, 7, 9] (fun _ _ => "") n1 = .ok (u, n2) := by
  refine ⟨_, _, rfl, ?_, ?_, ?_⟩
  · exact (c3_list_decoder 1 0 0 [2, 0, 3, 17, 7, 9] (fun _ _ => "") _ _ rfl).1
  · exact ((c3_list_decoder 1 0 0 [2, 0, 3, 17, 7, 9] (fun _ _ => "") _ _ rfl).2 0
      (by decide)).1 rfl
  · exact ((c3_list_decoder 1 0 0 [2, 0, 3, 17, 7, 9] (fun _ _ => "") _ _ rfl).2 1
      (by decide)).2 (by decide)

/-- Claim C4 (amended): for every successfully decoded node of every kind the
start and end fields are exactly the word values at the node's first two field
positions — a pure copy-through.  The decoder performs no validation, so
start ≤ end holds only when the encoded words already satisfy it; the
counterexample decodes a node whose start exceeds its end. -/
theorem c4_start_end_copy (fuel position : Nat) (buffer : Buffer)
    (readString : ReadString) (n : Nat) (v : JSValue) (m : Nat)
    (h : convertNode fuel position buffer readString n = .ok (v, m)) :
    getField v "start" = some (.vnat (word buffer (position + 1))) ∧
    getField v "end" = some (.vnat (word buffer (position + 2))) := by
  obtain ⟨id, fields, hv, hs, he⟩ := convertNode_shape fuel position buffer readString n v m h
  subst hv
  exact ⟨hs, he⟩

/-- Claim C4 counterexample: the buffer encoding a debugger statement with
start word 5 and end word 3 decodes successfully to a node with start 5 and
end 3, so a successfully decoded node need not satisfy start ≤ end. -/
theorem c4_counterexample :
    (∃ v m, convertNode 1 0 [17, 5, 3] (fun _ _ => "") 0 = .ok (v, m)
        ∧ getField v "start" = some (JSValue.vnat 5)
        ∧ getField v "end" = some (JSValue.vnat 3))
      ∧ ¬(5 ≤ 3) :=
  ⟨⟨_, _, rfl, rfl, rfl⟩, by decide⟩

/-- Claim C4 witness: an empty statement with start 4 and end 9 decodes with
exactly those start and end fields. -/
theorem c4_witness :
    ∃ v m, convertNode 1 0 [19, 4, 9] (fun _ _ => "") 0 = .ok (v, m)
      ∧ getField v "start" = some (JSValue.vnat 4)
      ∧ getField v "end" = some (JSValue.vnat 9) := by
  refine ⟨_, _, rfl, ?_⟩
  exact c4_start_end_copy 1 0 [19, 4, 9] (fun _ _ => "") 0 _ _ rfl

theorem c5h_exportSpecifier (cn : Nat → DecM JSValue) (p : Nat) (buffer : Buffer)
    (readString : ReadString) (n : Nat) (v : JSValue) (m : Nat)
    (hzero : word buffer (p + 2) = 0)
    (h : convertExportSpecifier cn p buffer readString n = .ok (v, m)) :
    ∃ x n1 n2, getField v "exported" = some x ∧ getField v "local" = some x
      ∧ cn (p + 3) n1 = .ok (x, n2) := by
  have hne : ¬((0 : Nat) ≠ 0) := fun hh => hh rfl
  simp only [convertExportSpecifier] at h
  rw [hzero] at h
  obtain ⟨a1, n1, ha1, h⟩ := bind_ok_elim h
  rw [if_neg hne] at h
  obtain ⟨a2, n2, ha2, h⟩ := bind_ok_elim h
  cases ha2
  simp only [mkNode] at h
  cases h
  exact ⟨a1, n, n1, rfl, rfl, ha1⟩

theorem c5h_importSpecifier (cn : Nat → DecM JSValue) (p : Nat) (buffer : Buffer)
    (readString : ReadString) (n : Nat) (v : JSValue) (m : Nat)
    (hzero : word buffer (p + 2) = 0)
    (h : convertImportSpecifier cn p buffer readString n = .ok (v, m)) :
    ∃ x n1 n2, getField v "imported" = some x ∧ getField v "local" = some x
      ∧ cn (p + 3) n1 = .ok (x, n2) := by
  have hne : ¬((0 : Nat) ≠ 0) := fun hh => hh rfl
  simp only [convertImportSpecifier] at h
  rw [hzero] at h
  obtain ⟨a1, n1, ha1, h⟩ := bind_ok_elim h
  rw [if_neg hne] at h
  obtain ⟨a2, n2, ha2, h⟩ := bind_ok_elim h
  cases ha2
  simp only [mkNode] at h
  cases h
  exact ⟨a1, n, n1, rfl, rfl, ha1⟩

/-- Claim C5: for export and import specifiers whose optional
exported/imported reference word is 0, the produced exported/imported value is
the very same decoded object as the local value.  In this embedding every
constructed object carries a unique allocation identifier, so the common value
`x` (a `vobj` with one fixed identifier) appearing in both fields expresses
reference identity — the same object, not merely a structurally equal copy. -/
theorem c5_specifier_self_reference :
    (∀ (fuel position n : Nat) (buffer : Buffer) (readString : ReadString)
        (v : JSValue) (m : Nat),
        word buffer position = 23 → word buffer (position + 3) = 0 →
        convertNode fuel position buffer readString n = .ok (v, m) →
        ∃ x, getField v "exported" = some x ∧ getField v "local" = some x
          ∧ ∃ id fields, x = .vobj id fields)
      ∧ (∀ (fuel position n : Nat) (buffer : Buffer) (readString : ReadString)
        (v : JSValue) (m : Nat),
        word buffer position = 37 → word buffer (position + 3) = 0 →
        convertNode fuel position buffer readString n = .ok (v, m) →
        ∃ x, getField v "imported" = some x ∧ getField v "local" = some x
          ∧ ∃ id fields, x = .vobj id fields) := by
  constructor
  · intro fuel position n buffer readString v m htag hzero h
    cases fuel with
    | zero => exact Except.noConfusion h
    | succ fuel =>
      rw [convertNode, htag] at h
      obtain ⟨x, n1, n2, hexp, hloc, hx⟩ := c5h_exportSpecifier _ _ _ _ _ _ _ hzero h
      obtain ⟨id, fields, hxo, -, -⟩ :=
        convertNode_shape fuel (position + 1 + 3) buffer readString n1 x n2 hx
      exact ⟨x, hexp, hloc, id, fields, hxo⟩
  · intro fuel position n buffer readString v m htag hzero h
    cases fuel with
    | zero => exact Except.noConfusion h
    | succ fuel =>
      rw [convertNode, htag] at h
      obtain ⟨x, n1, n2, himp, hloc, hx⟩ := c5h_importSpecifier _ _ _ _ _ _ _ hzero h
      obtain ⟨id, fields, hxo, -, -⟩ :=
        convertNode_shape fuel (position + 1 + 3) buffer readString n1 x n2 hx
      exact ⟨x, himp, hloc, id, fields, hxo⟩

/-- Claim C5 witness: an export specifier and an import specifier, each with a
0 exported/imported reference and an identifier as local, decode with one and
the same value in both fields. -/
theorem c5_witness :
    (∃ v m x, convertNode 2 0 [23, 1, 2, 0, 30, 3, 4, 0] (fun _ _ => "") 0 = .ok (v, m)
        ∧ getField v "exported" = some x ∧ getField v "local" = some x)
      ∧ (∃ v m x, convertNode 2 0 [37, 1, 2, 0, 30, 3, 4, 0] (fun _ _ => "") 0 = .ok (v, m)
        ∧ getField v "imported" = some x ∧ getField v "local" = some x) := by
  constructor
  · obtain ⟨x, h1, h2, -⟩ := c5_specifier_self_reference.1 2 0 0 [23, 1, 2, 0, 30, 3, 4, 0]
      (fun _ _ => "") _ _ rfl rfl rfl
    exact ⟨_, _, x, rfl, h1, h2⟩
  · obtain ⟨x, h1, h2, -⟩ := c5_specifier_self_reference.2 2 0 0 [37, 1, 2, 0, 30, 3, 4, 0]
      (fun _ _ => "") _ _ rfl rfl rfl
    exact ⟨_, _, x, rfl, h1, h2⟩

theorem c6h_literalNumber (cn : Nat → DecM JSValue) (p : Nat) (buffer : Buffer)
    (readString : ReadString) (n : Nat) (v : JSValue) (m : Nat)
    (h : convertLiteralNumber cn p buffer readString n = .ok (v, m)) :
    getField v "value"
      = some (.vfloat (word buffer (p + 3) + 4294967296 * word buffer (p + 4))) := by
  simp only [convertLiteralNumber, mkNode] at h
  cases h
  rfl

/-- Claim C6: for every numeric literal node the value field carries the
64-bit pattern obtained by reinterpreting the two consecutive words at the
cursor as the little-endian byte encoding of an IEEE-754 binary64 value, bit
for bit (low word first); and under the IEEE-754 semantics `float64FromBits`
the patterns for 3.5, zero, negative zero, both infinities, the smallest
subnormal and the largest finite magnitude denote exactly those values. -/
theorem c6_double_bit_pattern :
    (∀ (fuel position n : Nat) (buffer : Buffer) (readString : ReadString)
        (v : JSValue) (m : Nat),
        word buffer position = 41 →
        convertNode fuel position buffer readString n = .ok (v, m) →
        getField v "value" = some (.vfloat
          (word buffer (position + 4) + 4294967296 * word buffer (position + 5))))
      ∧ float64FromBits 0x400C000000000000 = .finite false (7 / 2)
      ∧ float64FromBits 0 = .finite false 0
      ∧ float64FromBits 0x8000000000000000 = .finite true 0
      ∧ float64FromBits 0x7FF0000000000000 = .inf false
      ∧ float64FromBits 0xFFF0000000000000 = .inf true
      ∧ float64FromBits 1 = .finite false (1 / 2 ^ 1074)
      ∧ float64FromBits 0x7FEFFFFFFFFFFFFF = .finite false ((2 ^ 53 - 1) * 2 ^ 971) := by
  refine ⟨?_, ?_, ?_, ?_, ?_, ?_, ?_, ?_⟩
  · intro fuel position n buffer readString v m htag h
    cases fuel with
    | zero => exact Except.noConfusion h
    | succ fuel =>
      rw [convertNode, htag] at h
      exact c6h_literalNumber _ _ _ _ _ _ _ h
  all_goals simp only [float64FromBits]
  all_goals norm_num

/-- Claim C6 witness: a numeric literal whose two value words are 0 and
0x400C0000 decodes with the exact bit pattern of 3.5. -/
theorem c6_witness :
    ∃ v m, convertNode 1 0 [41, 1, 2, 0, 0, 1074528256] (fun _ _ => "") 0 = .ok (v, m)
      ∧ getField v "value" = some (JSValue.vfloat 0x400C000000000000) := by
  refine ⟨_, _, rfl, ?_⟩
  exact c6_double_bit_pattern.1 1 0 0 [41, 1, 2, 0, 0, 1074528256] (fun _ _ => "") _ _ rfl rfl

theorem c7h_identifier (cn : Nat → DecM JSValue) (p : Nat) (buffer : Buffer)
    (readString : ReadString) (n : Nat) (v : JSValue) (m : Nat)
    (h : convertIdentifier cn p buffer readString n = .ok (v, m)) :
    getField v "name" = some (.vstr (readString ((p + 3) * 4) (word buffer (p + 2)))) := by
  simp only [convertIdentifier, mkNode] at h
  cases h
  rfl

theorem c7h_binaryOperator (cn : Nat → DecM JSValue) (p : Nat) (buffer : Buffer)
    (readString : ReadString) (n : Nat) (v : JSValue) (m : Nat)
    (h : convertBinaryExpression cn p buffer readString n = .ok (v, m)) :
    getField v "operator"
      = some (.vstr (readString ((p + 5) * 4) (word buffer (p + 4)))) := by
  simp only [convertBinaryExpression] at h
  obtain ⟨a1, n1, -, h⟩ := bind_ok_elim h
  obtain ⟨a2, n2, -, h⟩ := bind_ok_elim h
  simp only [mkNode] at h
  cases h
  rfl

/-- Claim C7: every text-span read takes the byte length from the word at the
cursor and invokes the external resolver at the byte offset equal to the
following word position times the 4-byte word size; the resolver's text
becomes the decoded field (shown for identifier names and binary operator
symbols). -/
theorem c7_text_resolution :
    (∀ (position : Nat) (buffer : Buffer) (readString : ReadString),
        convertString position buffer readString
          = readString ((position + 1) * 4) (word buffer position))
      ∧ (∀ (fuel position n : Nat) (buffer : Buffer) (readString : ReadString)
          (v : JSValue) (m : Nat),
          word buffer position = 30 →
          convertNode fuel position buffer readString n = .ok (v, m) →
          getField v "name" = some (.vstr (readString ((position + 4) * 4)
            (word buffer (position + 3)))))
      ∧ (∀ (fuel position n : Nat) (buffer : Buffer) (readString : ReadString)
          (v : JSValue) (m : Nat),
          word buffer position = 6 →
          convertNode fuel position buffer readString n = .ok (v, m) →
          getField v "operator" = some (.vstr (readString ((position + 6) * 4)
            (word buffer (position + 5))))) := by
  refine ⟨fun position buffer readString => rfl, ?_, ?_⟩
  · intro fuel position n buffer readString v m htag h
    cases fuel with
    | zero => exact Except.noConfusion h
    | succ fuel =>
      rw [convertNode, htag] at h
      exact c7h_identifier _ _ _ _ _ _ _ h
  · intro fuel position n buffer readString v m htag h
    cases fuel with
    | zero => exact Except.noConfusion h
    | succ fuel =>
      rw [convertNode, htag] at h
      exact c7h_binaryOperator _ _ _ _ _ _ _ h

/-- Claim C7 witness: an identifier whose text span has byte length 3 at word
position 4 hands the resolver the byte offset 16 and length 3, and the
resolver's answer becomes the name. -/
theorem c7_witness :
    ∃ v m, convertNode 1 0 [30, 1, 2, 3]
        (fun s l => toString s ++ ":" ++ toString l) 0 = .ok (v, m)
      ∧ getField v "name" = some (JSValue.vstr "16:3") := by
  refine ⟨_, _, rfl, ?_⟩
  exact c7_text_resolution.2.1 1 0 0 [30, 1, 2, 3]
    (fun s l => toString s ++ ":" ++ toString l) _ _ rfl rfl

/-- Claim C8: decoding is deterministic with no hidden mutable state.  The only
state the embedding threads is the allocation counter for object identifiers;
two decode calls over the same buffer with the same resolver, started from any
two allocation states, produce structurally identical trees (value-equal after
erasing the allocation identifiers, though not reference-equal, since the two
runs allocate distinct objects). -/
theorem c8_decode_deterministic (fuel : Nat) (buffer : Buffer) (readString : ReadString)
    (n1 n2 : Nat) (v1 v2 : JSValue) (m1 m2 : Nat)
    (h1 : convertProgram fuel buffer readString n1 = .ok (v1, m1))
    (h2 : convertProgram fuel buffer readString n2 = .ok (v2, m2)) :
    eraseIds v1 = eraseIds v2 := by
  have key : ∀ j vj mj, convertProgram fuel buffer readString j = .ok (vj, mj) →
      ∃ v0 m0, convertNode fuel 0 buffer readString 0 = .ok (v0, m0)
        ∧ vj = shiftIds j v0 := by
    intro j vj mj hj
    have hs := convertNode_shift j buffer readString fuel 0 0
    rw [Nat.zero_add] at hs
    simp only [convertProgram] at hj
    rw [hs] at hj
    cases h0 : convertNode fuel 0 buffer readString 0 with
    | error e => rw [h0] at hj; exact Except.noConfusion hj
    | ok a =>
      cases a with
      | mk v0 m0 =>
        rw [h0] at hj
        simp only [shiftResG] at hj
        cases hj
        exact ⟨v0, m0, rfl, rfl⟩
  obtain ⟨v0, m0, h0, e1⟩ := key n1 v1 m1 h1
  obtain ⟨v0', m0', h0', e2⟩ := key n2 v2 m2 h2
  rw [h0] at h0'
  cases h0'
  rw [e1, e2, eraseIds_shiftIds, eraseIds_shiftIds]

/-- Claim C8 witness: decoding an empty program twice, from allocation states
0 and 5, yields structurally identical trees. -/
theorem c8_witness :
    ∃ v1 m1 v2 m2, convertProgram 1 [53, 0, 1, 0] (fun _ _ => "") 0 = .ok (v1, m1)
      ∧ convertProgram 1 [53, 0, 1, 0] (fun _ _ => "") 5 = .ok (v2, m2)
      ∧ eraseIds v1 = eraseIds v2 := by
  refine ⟨_, _, _, _, rfl, rfl, ?_⟩
  exact c8_decode_deterministic 1 [53, 0, 1, 0] (fun _ _ => "") 0 5 _ _ _ _ rfl rfl

theorem c9h_property_shorthand (cn : Nat → DecM JSValue) (p : Nat) (buffer : Buffer)
    (readString : ReadString) (n : Nat) (v : JSValue) (m : Nat)
    (hzero : word buffer (p + 5) = 0)
    (h : convertProperty cn p buffer readString n = .ok (v, m)) :
    getField v "shorthand" = some (.vbool true)
      ∧ ∃ x, getField v "key" = some x ∧ getField v "value" = some x := by
  have hne : ¬((0 : Nat) ≠ 0) := fun hh => hh rfl
  simp only [convertProperty] at h
  rw [hzero] at h
  obtain ⟨a1, n1, -, h⟩ := bind_ok_elim h
  rw [if_neg hne] at h
  obtain ⟨a2, n2, ha2, h⟩ := bind_ok_elim h
  cases ha2
  simp only [mkNode] at h
  cases h
  exact ⟨rfl, a1, rfl, rfl⟩

theorem c9h_property_longhand (cn : Nat → DecM JSValue) (p : Nat) (buffer : Buffer)
    (readString : ReadString) (n : Nat) (v : JSValue) (m : Nat)
    (hnz : word buffer (p + 5) ≠ 0)
    (h : convertProperty cn p buffer readString n = .ok (v, m)) :
    getField v "shorthand" = some (.vbool false)
      ∧ ∃ u n1 n2, getField v "value" = some u
          ∧ cn (word buffer (p + 5)) n1 = .ok (u, n2) := by
  simp only [convertProperty] at h
  obtain ⟨a1, n1, -, h⟩ := bind_ok_elim h
  rw [if_pos hnz] at h
  obtain ⟨a2, n2, ha2, h⟩ := bind_ok_elim h
  simp only [mkNode] at h
  cases h
  constructor
  · have hb : (word buffer (p + 5) == 0) = false := by simp [hnz]
    show some (JSValue.vbool (word buffer (p + 5) == 0)) = some (JSValue.vbool false)
    rw [hb]
  · exact ⟨a2, n1, n2, rfl, ha2⟩

theorem c9h_app_shorthand (cn : Nat → DecM JSValue) (p : Nat) (buffer : Buffer)
    (readString : ReadString) (n : Nat) (v : JSValue) (m : Nat)
    (hzero : word buffer (p + 2) = 0)
    (h : convertAssignmentPatternProperty cn p buffer readString n = .ok (v, m)) :
    getField v "shorthand" = some (.vbool true)
      ∧ ∃ x, getField v "key" = some x ∧ getField v "value" = some x := by
  have hne : ¬((0 : Nat) ≠ 0) := fun hh => hh rfl
  simp only [convertAssignmentPatternProperty] at h
  rw [hzero] at h
  obtain ⟨a1, n1, -, h⟩ := bind_ok_elim h
  rw [if_neg hne] at h
  obtain ⟨a2, n2, ha2, h⟩ := bind_ok_elim h
  cases ha2
  simp only [mkNode] at h
  cases h
  exact ⟨rfl, a1, rfl, rfl⟩

theorem c9h_app_longhand (cn : Nat → DecM JSValue) (p : Nat) (buffer : Buffer)
    (readString : ReadString) (n : Nat) (v : JSValue) (m : Nat)
    (hnz : word buffer (p + 2) ≠ 0)
    (h : convertAssignmentPatternProperty cn p buffer readString n = .ok (v, m)) :
    getField v "shorthand" = some (.vbool false)
      ∧ ∃ u n1 n2, getField v "value" = some u
          ∧ cn (word buffer (p + 2)) n1 = .ok (u, n2) := by
  simp only [convertAssignmentPatternProperty] at h
  obtain ⟨a1, n1, -, h⟩ := bind_ok_elim h
  rw [if_pos hnz] at h
  obtain ⟨a2, n2, ha2, h⟩ := bind_ok_elim h
  simp only [mkNode] at h
  cases h
  constructor
  · have hb : (word buffer (p + 2) == 0) = false := by simp [hnz]
    show some (JSValue.vbool (word buffer (p + 2) == 0)) = some (JSValue.vbool false)
    rw [hb]
  · exact ⟨a2, n1, n2, rfl, ha2⟩

/-- Claim C9: for Property nodes of both kinds (the ordinary Property tag and
the assignment-pattern-property tag, which also emits a Property node), a 0
value-reference word yields shorthand true with the value being the very same
decoded object as the key (identical including its allocation identifier), and
a nonzero value-reference word yields shorthand false with the value decoded
at that reference. -/
theorem c9_property_shorthand :
    (∀ (fuel position n : Nat) (buffer : Buffer) (readString : ReadString)
        (v : JSValue) (m : Nat),
        word buffer position = 54 → word buffer (position + 6) = 0 →
        convertNode fuel position buffer readString n = .ok (v, m) →
        getField v "shorthand" = some (.vbool true)
          ∧ ∃ x, getField v "key" = some x ∧ getField v "value" = some x)
      ∧ (∀ (fuel position n : Nat) (buffer : Buffer) (readString : ReadString)
        (v : JSValue) (m : Nat),
        word buffer position = 54 → word buffer (position + 6) ≠ 0 →
        convertNode fuel position buffer readString n = .ok (v, m) →
        getField v "shorthand" = some (.vbool false)
          ∧ ∃ fuelc u n1 n2, getField v "value" = some u
              ∧ convertNode fuelc (word buffer (position + 6)) buffer readString n1
                  = .ok (u, n2))
      ∧ (∀ (fuel position n : Nat) (buffer : Buffer) (readString : ReadString)
        (v : JSValue) (m : Nat),
        word buffer position = 76 → word buffer (position + 3) = 0 →
        convertNode fuel position buffer readString n = .ok (v, m) →
        getField v "shorthand" = some (.vbool true)
          ∧ ∃ x, getField v "key" = some x ∧ getField v "value" = some x)
      ∧ (∀ (fuel position n : Nat) (buffer : Buffer) (readString : ReadString)
        (v : JSValue) (m : Nat),
        word buffer position = 76 → word buffer (position + 3) ≠ 0 →
        convertNode fuel position buffer readString n = .ok (v, m) →
        getField v "shorthand" = some (.vbool false)
          ∧ ∃ fuelc u n1 n2, getField v "value" = some u
              ∧ convertNode fuelc (word buffer (position + 3)) buffer readString n1
                  = .ok (u, n2)) := by
  refine ⟨?_, ?_, ?_, ?_⟩
  · intro fuel position n buffer readString v m htag hzero h
    cases fuel with
    | zero => exact Except.noConfusion h
    | succ fuel =>
      rw [convertNode, htag] at h
      exact c9h_property_shorthand _ _ _ _ _ _ _ hzero h
  · intro fuel position n buffer readString v m htag hnz h
    cases fuel with
    | zero => exact Except.noConfusion h
    | succ fuel =>
      rw [convertNode, htag] at h
      obtain ⟨hsh, u, n1, n2, hu, hdec⟩ := c9h_property_longhand _ _ _ _ _ _ _ hnz h
      exact ⟨hsh, fuel, u, n1, n2, hu, hdec⟩
  · intro fuel position n buffer readString v m htag hzero h
    cases fuel with
    | zero => exact Except.noConfusion h
    | succ fuel =>
      rw [convertNode, htag] at h
      exact c9h_app_shorthand _ _ _ _ _ _ _ hzero h
  · intro fuel position n buffer readString v m htag hnz h
    cases fuel with
    | zero => exact Except.noConfusion h
    | succ fuel =>
      rw [convertNode, htag] at h
      obtain ⟨hsh, u, n1, n2, hu, hdec⟩ := c9h_app_longhand _ _ _ _ _ _ _ hnz h
      exact ⟨hsh, fuel, u, n1, n2, hu, hdec⟩

/-- Claim C9 witness: a shorthand and a longhand instance of both property
kinds decode with the asserted shorthand flag and value. -/
theorem c9_witness :
    (∃ v m, convertNode 2 0 [54, 1, 2, 0, 0, 0, 0, 30, 3, 4, 0] (fun _ _ => "") 0
        = .ok (v, m)
      ∧ getField v "shorthand" = some (JSValue.vbool true)
      ∧ ∃ x, getField v "key" = some x ∧ getField v "value" = some x)
    ∧ (∃ v m, convertNode 2 0 [54, 1, 2, 0, 0, 0, 11, 30, 3, 4, 0, 17, 5, 6]
        (fun _ _ => "") 0 = .ok (v, m)
      ∧ getField v "shorthand" = some (JSValue.vbool false)
      ∧ ∃ fuelc u n1 n2, getField v "value" = some u
          ∧ convertNode fuelc 11 [54, 1, 2, 0, 0, 0, 11, 30, 3, 4, 0, 17, 5, 6]
              (fun _ _ => "") n1 = .ok (u, n2))
    ∧ (∃ v m, convertNode 2 0 [76, 1, 2, 0, 30, 3, 4, 0] (fun _ _ => "") 0 = .ok (v, m)
      ∧ getField v "shorthand" = some (JSValue.vbool true)
      ∧ ∃ x, getField v "key" = some x ∧ getField v "value" = some x)
    ∧ (∃ v m, convertNode 2 0 [76, 1, 2, 8, 30, 3, 4, 0, 17, 5, 6] (fun _ _ => "") 0
        = .ok (v, m)
      ∧ getField v "shorthand" = some (JSValue.vbool false)
      ∧ ∃ fuelc u n1 n2, getField v "value" = some u
          ∧ convertNode fuelc 8 [76, 1, 2, 8, 30, 3, 4, 0, 17, 5, 6]
              (fun _ _ => "") n1 = .ok (u, n2)) := by
  refine ⟨⟨_, _, rfl, ?_⟩, ⟨_, _, rfl, ?_⟩, ⟨_, _, rfl, ?_⟩, ⟨_, _, rfl, ?_⟩⟩
  · exact c9_property_shorthand.1 2 0 0 [54, 1, 2, 0, 0, 0, 0, 30, 3, 4, 0]
      (fun _ _ => "") _ _ rfl rfl rfl
  · exact c9_property_shorthand.2.1 2 0 0 [54, 1, 2, 0, 0, 0, 11, 30, 3, 4, 0, 17, 5, 6]
      (fun _ _ => "") _ _ rfl (by decide) rfl
  · exact c9_property_shorthand.2.2.1 2 0 0 [76, 1, 2, 0, 30, 3, 4, 0]
      (fun _ _ => "") _ _ rfl rfl rfl
  · exact c9_property_shorthand.2.2.2 2 0 0 [76, 1, 2, 8, 30, 3, 4, 0, 17, 5, 6]
      (fun _ _ => "") _ _ rfl (by decide) rfl

theorem c10h_program (cn : Nat → DecM JSValue) (p : Nat) (buffer : Buffer)
    (readString : ReadString) (n : Nat) (v : JSValue) (m : Nat)
    (h : convertProgramNode cn p buffer readString n = .ok (v, m)) :
    getField v "sourceType" = some (.vstr "module") := by
  simp only [convertProgramNode] at h
  obtain ⟨a1, n1, -, h⟩ := bind_ok_elim h
  simp only [mkNode] at h
  cases h
  rfl

/-- Claim C10: every decoded Program node carries the field sourceType with
the constant value 'module', regardless of the contents of the input
buffer. -/
theorem c10_program_sourceType (fuel position n : Nat) (buffer : Buffer)
    (readString : ReadString) (v : JSValue) (m : Nat)
    (htag : word buffer position = 53)
    (h : convertNode fuel position buffer readString n = .ok (v, m)) :
    getField v "sourceType" = some (.vstr "module") := by
  cases fuel with
  | zero => exact Except.noConfusion h
  | succ fuel =>
    rw [convertNode, htag] at h
    exact c10h_program _ _ _ _ _ _ _ h

/-- Claim C10 witness: an empty program node decodes with sourceType
'module'. -/
theorem c10_witness :
    ∃ v m, convertNode 1 0 [53, 2, 7, 0] (fun _ _ => "") 0 = .ok (v, m)
      ∧ getField v "sourceType" = some (JSValue.vstr "module") := by
  refine ⟨_, _, rfl, ?_⟩
  exact c10_program_sourceType 1 0 0 [53, 2, 7, 0] (fun _ _ => "") _ _ rfl rfl
